import Mathlib

/-! # Reconciliation functions of the SageMaker notebook instance and the S3 bucket policy

A shallow embedding of `internal/service/sagemaker/notebook_instance.go` and
`internal/service/s3/bucket_policy.go`.

* Go `error` values are the inductive `Error`; a nil error is `none`.
* A remote client is a record of response functions.  Every response may depend
  on the history of requests issued so far, so a client is an arbitrary
  deterministic remote system.
* Every function that talks to the remote system threads the request history
  (`List Call`, oldest request first) through, appending each request it issues.
* The State Waiter of the specification, whose code is not among these files, is
  modelled from the specification in the namespace `waiter`.
-/

namespace tfprovider

/-! ## Errors and diagnostics -/

/-- Go error values that reach the reconciliation functions. -/
inductive Error where
  /-- a `smithy.APIError` returned by the AWS SDK -/
  | api (code message : String)
  /-- the result of `errors.New` or of `fmt.Errorf` without `%w` -/
  | errorString (text : String)
  /-- a `*tfresource.EmptyResultError` -/
  | emptyResult
  /-- a `*retry.NotFoundError` whose `LastError` is set -/
  | notFound (lastError : Error)
  /-- a `*retry.NotFoundError` whose `LastError` is nil -/
  | notFoundBare
  /-- a `*retry.TimeoutError` whose `LastError` is set -/
  | timeout (lastError : Error)
  /-- a `*retry.TimeoutError` whose `LastError` is nil -/
  | timeoutBare
  /-- an error wrapping another one (`fmt.Errorf` with `%w`) -/
  | wrapped (text : String) (inner : Error)
  deriving DecidableEq, Repr

namespace Error

/-- The text of `err.Error()`. -/
def text : Error → String
  | api code message => "api error " ++ code ++ ": " ++ message
  | errorString t => t
  | emptyResult => "empty result"
  | notFound _ => "couldn't find resource"
  | notFoundBare => "couldn't find resource"
  | timeout e => "timeout while waiting for state: " ++ e.text
  | timeoutBare => "timeout while waiting for state"
  | wrapped t _ => t

/-- The first `smithy.APIError` on the unwrap chain (`errors.As`), as code and message. -/
def asAPIError : Error → Option (String × String)
  | api code message => some (code, message)
  | notFound e => e.asAPIError
  | timeout e => e.asAPIError
  | wrapped _ e => e.asAPIError
  | _ => none

end Error

/-- Substring test of Go `strings.Contains`, on the characters of the strings. -/
def strContains (s sub : String) : Prop := sub.data <:+: s.data

instance (s sub : String) : Decidable (strContains s sub) :=
  inferInstanceAs (Decidable (sub.data <:+: s.data))

namespace tfawserr

/-- The helper `tfawserr.ErrCodeEquals`: the error is an API error with one of the codes. -/
def ErrCodeEquals (err : Option Error) (codes : List String) : Bool :=
  match err with
  | none => false
  | some e =>
    match e.asAPIError with
    | some (code, _) => decide (code ∈ codes)
    | none => false

/-- The helper `tfawserr.ErrMessageContains`: an API error with that code whose message
contains the text. -/
def ErrMessageContains (err : Option Error) (code message : String) : Bool :=
  match err with
  | none => false
  | some e =>
    match e.asAPIError with
    | some (c, m) => decide (c = code) && decide (strContains m message)
    | none => false

end tfawserr

namespace tfresource

/-- The error, or an error on its unwrap chain, is a `retry.NotFoundError` (`errors.As`). -/
def isNotFoundError : Error → Bool
  | .notFound _ => true
  | .notFoundBare => true
  | .timeout e => isNotFoundError e
  | .wrapped _ e => isNotFoundError e
  | _ => false

/-- Modelled from the spec: `tfresource.NotFound` (internal/tfresource is absent from the
sources at hand). The Not-Found condition: the error, or an error it wraps, is a
`retry.NotFoundError`. -/
def NotFound : Option Error → Bool
  | none => false
  | some e => isNotFoundError e

/-- Modelled from the spec: `tfresource.TimedOut` (internal/tfresource is absent from the
sources at hand). The Timeout condition: the error itself is a `retry.TimeoutError`
that carries no last error. -/
def TimedOut : Option Error → Bool
  | some .timeoutBare => true
  | _ => false

/-- Modelled from the spec: `tfresource.NewEmptyResultError` (internal/tfresource is absent
from the sources at hand): a Not-Found error whose last error is an empty-result error. -/
def NewEmptyResultError : Error := .notFound .emptyResult

end tfresource

/-- Severity of a diagnostic. -/
inductive Severity where
  | Error
  | Warning
  deriving DecidableEq, Repr

/-- One entry of `diag.Diagnostics`. -/
structure Diagnostic where
  severity : Severity
  summary : String
  deriving DecidableEq, Repr

abbrev Diagnostics := List Diagnostic

namespace sdkdiag

/-- The helper `sdkdiag.AppendErrorf`, applied to the already formatted message. -/
def AppendErrorf (diags : Diagnostics) (message : String) : Diagnostics :=
  diags ++ [{ severity := .Error, summary := message }]

/-- The helper `sdkdiag.AppendFromErr`. -/
def AppendFromErr (diags : Diagnostics) (err : Error) : Diagnostics :=
  diags ++ [{ severity := .Error, summary := err.text }]

end sdkdiag

/-- The result of `retry.NonRetryableError` and `retry.RetryableError`. -/
structure RetryError where
  Err : Error
  Retryable : Bool
  deriving DecidableEq, Repr

namespace retry

/-- The constructor `retry.NonRetryableError`. -/
def NonRetryableError (err : Error) : RetryError := { Err := err, Retryable := false }

/-- The constructor `retry.RetryableError`. -/
def RetryableError (err : Error) : RetryError := { Err := err, Retryable := true }

/-- The library function `retry.RetryContext` of the plugin SDK, with the timeout given as
the number of runs of `f` that return within it.  The loop starts `f` at once.  A nil
result of `f` ends the loop with nil, a non-retryable error ends it with that error, a
retryable error is remembered and `f` is run again.  When the time is used up after a
retryable error, the remembered error is returned.  When it is used up before any run of
`f` has returned, that first run has been started all the same: what it does is in the
state, its answer comes too late to count, and the result is a `retry.TimeoutError`
without last error. -/
def RetryContext {σ : Type} (attempts : Nat) (f : σ → Option RetryError × σ)
    (resultErr : Option Error) (tr : σ) : Option Error × σ :=
  match attempts with
  | 0 =>
    match resultErr with
    | some e => (some e, tr)
    | none => (some Error.timeoutBare, (f tr).2)
  | n + 1 =>
    match f tr with
    | (none, tr1) => (none, tr1)
    | (some rerr, tr1) =>
      if rerr.Retryable then RetryContext n f (some rerr.Err) tr1 else (some rerr.Err, tr1)

end retry

/-! ## SageMaker notebook instance: data model -/

namespace sagemaker

/-- The SDK type `awstypes.NotebookInstanceStatus`, a string. -/
abbrev NotebookInstanceStatus := String

def NotebookInstanceStatusInService : NotebookInstanceStatus := "InService"
def NotebookInstanceStatusStopped : NotebookInstanceStatus := "Stopped"

/-- The error code constant `ErrCodeValidationException` of the package. -/
def ErrCodeValidationException : String := "ValidationException"

/-- The SDK type `awstypes.InstanceMetadataServiceConfiguration`. -/
structure InstanceMetadataServiceConfiguration where
  MinimumInstanceMetadataServiceVersion : Option String
  deriving DecidableEq, Repr

/-- One block of `instance_metadata_service_configuration`, as the schema types it: a map
holding the string `minimum_instance_metadata_service_version`. -/
structure MetadataServiceConfigurationBlock where
  minimum_instance_metadata_service_version : String
  deriving DecidableEq, Repr

/-- The helper `aws.ToString`: a nil pointer reads as the empty string. -/
def ToString (p : Option String) : String := p.getD ""

/-- The conversion `int32(v)` of a Go `int`: wrap modulo 2^32 into the signed range. -/
def int32 (v : Int) : Int := (v + 2 ^ 31) % 2 ^ 32 - 2 ^ 31

/-- The attributes of the resource schema. -/
structure Attrs where
  additional_code_repositories : List String
  arn : String
  default_code_repository : String
  direct_internet_access : String
  instance_metadata_service_configuration : List (Option MetadataServiceConfigurationBlock)
  instance_type : String
  kms_key_id : String
  lifecycle_config_name : String
  name : String
  network_interface_id : String
  platform_identifier : String
  role_arn : String
  root_access : String
  security_groups : List String
  subnet_id : String
  tags : List (String × String)
  tags_all : List (String × String)
  url : String
  volume_size : Int
  deriving DecidableEq, Repr

/-- The `*schema.ResourceData` of one operation: the resource ID, whether the resource is
new, the attribute values before the change (`old`) and the values `d.Get` returns (`new`). -/
structure ResourceData where
  id : String
  isNewResource : Bool
  old : Attrs
  new : Attrs
  deriving DecidableEq, Repr

namespace ResourceData

/-- The method `d.SetId`. -/
def SetId (d : ResourceData) (v : String) : ResourceData := { d with id := v }

/-- The method `d.HasChangesExcept("tags", "tags_all")`: some other attribute changed. -/
def HasChangesExceptTags (d : ResourceData) : Bool :=
  decide ({ d.old with tags := [], tags_all := [] } ≠ { d.new with tags := [], tags_all := [] })

end ResourceData

/-- The SDK type `sagemaker.DescribeNotebookInstanceOutput`. -/
structure DescribeNotebookInstanceOutput where
  AdditionalCodeRepositories : List String
  DefaultCodeRepository : Option String
  DirectInternetAccess : String
  InstanceMetadataServiceConfiguration : Option InstanceMetadataServiceConfiguration
  InstanceType : String
  KmsKeyId : Option String
  NetworkInterfaceId : Option String
  NotebookInstanceArn : Option String
  NotebookInstanceLifecycleConfigName : Option String
  NotebookInstanceName : Option String
  NotebookInstanceStatus : NotebookInstanceStatus
  PlatformIdentifier : Option String
  RoleArn : Option String
  RootAccess : String
  SecurityGroups : List String
  SubnetId : Option String
  Url : Option String
  VolumeSizeInGB : Option Int
  deriving DecidableEq, Repr

/-- The SDK type `sagemaker.CreateNotebookInstanceInput`. -/
structure CreateNotebookInstanceInput where
  AdditionalCodeRepositories : List String := []
  DefaultCodeRepository : Option String := none
  DirectInternetAccess : String := ""
  InstanceMetadataServiceConfiguration : Option InstanceMetadataServiceConfiguration := none
  InstanceType : String := ""
  KmsKeyId : Option String := none
  LifecycleConfigName : Option String := none
  NotebookInstanceName : Option String := none
  PlatformIdentifier : Option String := none
  RoleArn : Option String := none
  RootAccess : String := ""
  SecurityGroupIds : List String := []
  SubnetId : Option String := none
  Tags : List (String × String) := []
  VolumeSizeInGB : Option Int := none
  deriving DecidableEq, Repr

/-- The SDK type `sagemaker.UpdateNotebookInstanceInput`. -/
structure UpdateNotebookInstanceInput where
  AdditionalCodeRepositories : List String := []
  DefaultCodeRepository : Option String := none
  DisassociateAdditionalCodeRepositories : Option Bool := none
  DisassociateDefaultCodeRepository : Option Bool := none
  DisassociateLifecycleConfig : Option Bool := none
  InstanceMetadataServiceConfiguration : Option InstanceMetadataServiceConfiguration := none
  InstanceType : String := ""
  LifecycleConfigName : Option String := none
  NotebookInstanceName : Option String := none
  RoleArn : Option String := none
  RootAccess : String := ""
  VolumeSizeInGB : Option Int := none
  deriving DecidableEq, Repr

/-- A request sent to the remote system, or a wait helper run against it.  The waits
(`waitNotebookInstanceInService`, `waitNotebookInstanceStarted`, `waitNotebookInstanceStopped`,
`waitNotebookInstanceDeleted`) live in a file of the package that is not at hand; they are
recorded with the identifier they are given and answered by the client record. -/
inductive Call where
  | CreateNotebookInstance (input : CreateNotebookInstanceInput)
  | DescribeNotebookInstance (name : Option String)
  | StopNotebookInstance (name : Option String)
  | UpdateNotebookInstance (input : UpdateNotebookInstanceInput)
  | StartNotebookInstance (name : Option String)
  | DeleteNotebookInstance (name : Option String)
  | waitInService (id : String)
  | waitStarted (id : String)
  | waitStopped (id : String)
  | waitDeleted (id : String)
  deriving DecidableEq, Repr

namespace Call

/-- The notebook instance name that keys the request. -/
def key : Call → Option String
  | CreateNotebookInstance input => input.NotebookInstanceName
  | DescribeNotebookInstance name => name
  | StopNotebookInstance name => name
  | UpdateNotebookInstance input => input.NotebookInstanceName
  | StartNotebookInstance name => name
  | DeleteNotebookInstance name => name
  | waitInService id => some id
  | waitStarted id => some id
  | waitStopped id => some id
  | waitDeleted id => some id

/-- The requests that change the remote object. -/
def isMutating : Call → Bool
  | CreateNotebookInstance _ => true
  | StopNotebookInstance _ => true
  | UpdateNotebookInstance _ => true
  | StartNotebookInstance _ => true
  | DeleteNotebookInstance _ => true
  | _ => false

/-- The wait helpers. -/
def isWait : Call → Bool
  | waitInService _ => true
  | waitStarted _ => true
  | waitStopped _ => true
  | waitDeleted _ => true
  | _ => false

def isStop : Call → Bool
  | StopNotebookInstance _ => true
  | _ => false

def isStart : Call → Bool
  | StartNotebookInstance _ => true
  | _ => false

def isUpdate : Call → Bool
  | UpdateNotebookInstance _ => true
  | _ => false

def isDelete : Call → Bool
  | DeleteNotebookInstance _ => true
  | _ => false

def isDescribe : Call → Bool
  | DescribeNotebookInstance _ => true
  | _ => false

end Call

/-- The SageMaker client together with the wait helpers of the package.  Each answer is a
function of the requests issued before (oldest first) and of the request itself.
`startRetryAttempts` is the number of attempts of the retried body that fit into the five
minutes given to `retry.RetryContext` by `startNotebookInstance`; `tagsIn` is what
`getTagsIn(ctx)` returns.  The record also holds the field writer of the plugin SDK behind
`d.Set("instance_metadata_service_configuration", v)`, which is outside the sources:
`setInstanceMetadataServiceConfiguration v` is the error with which it refuses the value
`v`, nil when it accepts it. -/
structure Client where
  CreateNotebookInstance : List Call → CreateNotebookInstanceInput → Option Error
  DescribeNotebookInstance :
    List Call → Option String → Except Error (Option DescribeNotebookInstanceOutput)
  StopNotebookInstance : List Call → Option String → Option Error
  UpdateNotebookInstance : List Call → UpdateNotebookInstanceInput → Option Error
  StartNotebookInstance : List Call → Option String → Option Error
  DeleteNotebookInstance : List Call → Option String → Option Error
  waitNotebookInstanceInService : List Call → String → Option Error
  waitNotebookInstanceStarted : List Call → String → Option Error
  waitNotebookInstanceStopped : List Call → String → Option Error
  waitNotebookInstanceDeleted : List Call → String → Option Error
  startRetryAttempts : Nat
  tagsIn : List (String × String)
  setInstanceMetadataServiceConfiguration :
    List MetadataServiceConfigurationBlock → Option Error

namespace Client

/-- Issue `conn.DescribeNotebookInstance` and record it. -/
def sendDescribe (conn : Client) (input : Option String) (tr : List Call) :
    Except Error (Option DescribeNotebookInstanceOutput) × List Call :=
  (conn.DescribeNotebookInstance tr input, tr ++ [Call.DescribeNotebookInstance input])

/-- Issue `conn.CreateNotebookInstance` and record it. -/
def sendCreate (conn : Client) (input : CreateNotebookInstanceInput) (tr : List Call) :
    Option Error × List Call :=
  (conn.CreateNotebookInstance tr input, tr ++ [Call.CreateNotebookInstance input])

/-- Issue `conn.StopNotebookInstance` and record it. -/
def sendStop (conn : Client) (input : Option String) (tr : List Call) :
    Option Error × List Call :=
  (conn.StopNotebookInstance tr input, tr ++ [Call.StopNotebookInstance input])

/-- Issue `conn.UpdateNotebookInstance` and record it. -/
def sendUpdate (conn : Client) (input : UpdateNotebookInstanceInput) (tr : List Call) :
    Option Error × List Call :=
  (conn.UpdateNotebookInstance tr input, tr ++ [Call.UpdateNotebookInstance input])

/-- Issue `conn.StartNotebookInstance` and record it. -/
def sendStart (conn : Client) (input : Option String) (tr : List Call) :
    Option Error × List Call :=
  (conn.StartNotebookInstance tr input, tr ++ [Call.StartNotebookInstance input])

/-- Issue `conn.DeleteNotebookInstance` and record it. -/
def sendDelete (conn : Client) (input : Option String) (tr : List Call) :
    Option Error × List Call :=
  (conn.DeleteNotebookInstance tr input, tr ++ [Call.DeleteNotebookInstance input])

end Client

/-- Run `waitNotebookInstanceInService(ctx, conn, id)` and record it. -/
def waitNotebookInstanceInService (conn : Client) (id : String) (tr : List Call) :
    Option Error × List Call :=
  (conn.waitNotebookInstanceInService tr id, tr ++ [Call.waitInService id])

/-- Run `waitNotebookInstanceStarted(ctx, conn, id)` and record it. -/
def waitNotebookInstanceStarted (conn : Client) (id : String) (tr : List Call) :
    Option Error × List Call :=
  (conn.waitNotebookInstanceStarted tr id, tr ++ [Call.waitStarted id])

/-- Run `waitNotebookInstanceStopped(ctx, conn, id)` and record it. -/
def waitNotebookInstanceStopped (conn : Client) (id : String) (tr : List Call) :
    Option Error × List Call :=
  (conn.waitNotebookInstanceStopped tr id, tr ++ [Call.waitStopped id])

/-- Run `waitNotebookInstanceDeleted(ctx, conn, id)` and record it. -/
def waitNotebookInstanceDeleted (conn : Client) (id : String) (tr : List Call) :
    Option Error × List Call :=
  (conn.waitNotebookInstanceDeleted tr id, tr ++ [Call.waitDeleted id])

/-- What a reconciliation function leaves behind: its diagnostics, the resource data and
the request history. -/
structure Outcome where
  diags : Diagnostics
  d : ResourceData
  trace : List Call
  deriving DecidableEq, Repr

/-! ## SageMaker notebook instance: functions -/

def expandNotebookInstanceMetadataServiceConfiguration
    (l : List (Option MetadataServiceConfigurationBlock)) :
    Option InstanceMetadataServiceConfiguration :=
  match l with
  | [] => none
  | none :: _ => none
  | some m :: _ =>
    some { MinimumInstanceMetadataServiceVersion := some m.minimum_instance_metadata_service_version }

def flattenNotebookInstanceMetadataServiceConfiguration
    (config : Option InstanceMetadataServiceConfiguration) :
    List MetadataServiceConfigurationBlock :=
  match config with
  | none => []
  | some config =>
    [{ minimum_instance_metadata_service_version :=
        ToString config.MinimumInstanceMetadataServiceVersion }]

/-- The call `d.Set("instance_metadata_service_configuration", v)` with its error.  The
field writer `writer` says whether the value is refused; a refused value leaves the
resource data as they are. -/
def ResourceData.SetMetadataServiceConfiguration (d : ResourceData)
    (writer : List MetadataServiceConfigurationBlock → Option Error)
    (v : List MetadataServiceConfigurationBlock) : Option Error × ResourceData :=
  match writer v with
  | some err => (some err, d)
  | none =>
    (none,
      { d with new := { d.new with instance_metadata_service_configuration := v.map some } })

def findNotebookInstanceByName (conn : Client) (name : String) (tr : List Call) :
    Except Error DescribeNotebookInstanceOutput × List Call :=
  let input : Option String := some name
  match conn.sendDescribe input tr with
  | (.error err, tr1) =>
    if tfawserr.ErrMessageContains (some err) ErrCodeValidationException "RecordNotFound" then
      (.error (.notFound err), tr1)
    else
      (.error err, tr1)
  | (.ok none, tr1) => (.error tfresource.NewEmptyResultError, tr1)
  | (.ok (some output), tr1) => (.ok output, tr1)

/-- The error of a Go result pair, nil on success. -/
def errOf {α : Type} : Except Error α → Option Error
  | .error err => some err
  | .ok _ => none

/-- The function literal that `startNotebookInstance` hands to `retry.RetryContext`. -/
def startNotebookInstanceAttempt (conn : Client) (id : String) (startOpts : Option String)
    (t : List Call) : Option RetryError × List Call :=
  match conn.sendStart startOpts t with
  | (some err, t1) =>
    (some (retry.NonRetryableError (.errorString ("starting: " ++ err.text))), t1)
  | (none, t1) =>
    match waitNotebookInstanceStarted conn id t1 with
    | (some err, t2) =>
      (some (retry.RetryableError
        (.errorString ("starting: waiting for completion: " ++ err.text))), t2)
    | (none, t2) => (none, t2)

def startNotebookInstance (conn : Client) (id : String) (tr : List Call) :
    Option Error × List Call :=
  let startOpts : Option String := some id
  -- StartNotebookInstance sometimes doesn't take so we'll check for a state change and if
  -- it doesn't change we'll send another request
  match retry.RetryContext conn.startRetryAttempts
      (startNotebookInstanceAttempt conn id startOpts) none tr with
  | (err, tr1) =>
    let inService := fun (t : List Call) =>
      match waitNotebookInstanceInService conn id t with
      | (some err, t1) =>
        (some (Error.errorString ("starting: waiting to be in service: " ++ err.text)), t1)
      | (none, t1) => (none, t1)
    if tfresource.TimedOut err then
      match conn.sendStart startOpts tr1 with
      | (some err, tr2) => (some (.errorString ("starting: " ++ err.text)), tr2)
      | (none, tr2) =>
        match waitNotebookInstanceStarted conn id tr2 with
        | (some err, tr3) =>
          (some (.errorString ("starting: waiting for completion: " ++ err.text)), tr3)
        | (none, tr3) => inService tr3
    else
      inService tr1

def stopNotebookInstance (conn : Client) (id : String) (tr : List Call) :
    Option Error × List Call :=
  match findNotebookInstanceByName conn id tr with
  | (.error err, tr1) =>
    if tfresource.NotFound (some err) then (none, tr1) else (some err, tr1)
  | (.ok notebook, tr1) =>
    if notebook.NotebookInstanceStatus = NotebookInstanceStatusStopped then
      (none, tr1)
    else
      let stopOpts : Option String := some id
      match conn.sendStop stopOpts tr1 with
      | (some err, tr2) => (some (.errorString ("stopping: " ++ err.text)), tr2)
      | (none, tr2) =>
        match waitNotebookInstanceStopped conn id tr2 with
        | (some err, tr3) =>
          (some (.errorString ("stopping: waiting for completion: " ++ err.text)), tr3)
        | (none, tr3) => (none, tr3)

def resourceNotebookInstanceRead (conn : Client) (d : ResourceData) (tr : List Call) :
    Outcome :=
  let diags : Diagnostics := []
  match findNotebookInstanceByName conn d.id tr with
  | (res, tr1) =>
    if !d.isNewResource && tfresource.NotFound (errOf res) then
      { diags := diags, d := d.SetId "", trace := tr1 }
    else
      match res with
      | .error err =>
        { diags := sdkdiag.AppendErrorf diags
            ("reading SageMaker AI Notebook Instance (" ++ d.id ++ "): " ++ err.text),
          d := d, trace := tr1 }
      | .ok notebookInstance =>
        let d1 : ResourceData := { d with new := { d.new with
          additional_code_repositories := notebookInstance.AdditionalCodeRepositories
          arn := ToString notebookInstance.NotebookInstanceArn
          default_code_repository := ToString notebookInstance.DefaultCodeRepository
          direct_internet_access := notebookInstance.DirectInternetAccess
          instance_type := notebookInstance.InstanceType
          kms_key_id := ToString notebookInstance.KmsKeyId
          lifecycle_config_name := ToString notebookInstance.NotebookInstanceLifecycleConfigName
          name := ToString notebookInstance.NotebookInstanceName
          network_interface_id := ToString notebookInstance.NetworkInterfaceId
          platform_identifier := ToString notebookInstance.PlatformIdentifier
          role_arn := ToString notebookInstance.RoleArn
          root_access := notebookInstance.RootAccess
          security_groups := notebookInstance.SecurityGroups
          subnet_id := ToString notebookInstance.SubnetId
          url := ToString notebookInstance.Url
          volume_size := notebookInstance.VolumeSizeInGB.getD 0 } }
        match d1.SetMetadataServiceConfiguration conn.setInstanceMetadataServiceConfiguration
            (flattenNotebookInstanceMetadataServiceConfiguration
              notebookInstance.InstanceMetadataServiceConfiguration) with
        | (some err, d2) =>
          { diags := sdkdiag.AppendErrorf diags
              ("setting instance_metadata_service_configuration: " ++ err.text),
            d := d2, trace := tr1 }
        | (none, d2) => { diags := diags, d := d2, trace := tr1 }

/-- The `CreateNotebookInstanceInput` that `resourceNotebookInstanceCreate` builds.  A
`d.GetOk` is ok when the value is not the zero value of its type. -/
def createInput (conn : Client) (d : ResourceData) : CreateNotebookInstanceInput :=
  let name := d.new.name
  let l := d.new.instance_metadata_service_configuration
  let input : CreateNotebookInstanceInput :=
    { InstanceMetadataServiceConfiguration := expandNotebookInstanceMetadataServiceConfiguration l
      InstanceType := d.new.instance_type
      NotebookInstanceName := some name
      RoleArn := some d.new.role_arn
      SecurityGroupIds := d.new.security_groups
      Tags := conn.tagsIn }
  let input :=
    if d.new.additional_code_repositories ≠ [] ∧ d.new.additional_code_repositories.length > 0 then
      { input with AdditionalCodeRepositories := d.new.additional_code_repositories }
    else input
  let input :=
    if d.new.default_code_repository ≠ "" then
      { input with DefaultCodeRepository := some d.new.default_code_repository }
    else input
  let input :=
    if d.new.direct_internet_access ≠ "" then
      { input with DirectInternetAccess := d.new.direct_internet_access }
    else input
  let input :=
    if d.new.kms_key_id ≠ "" then { input with KmsKeyId := some d.new.kms_key_id } else input
  let input :=
    if d.new.lifecycle_config_name ≠ "" then
      { input with LifecycleConfigName := some d.new.lifecycle_config_name }
    else input
  let input :=
    if d.new.platform_identifier ≠ "" then
      { input with PlatformIdentifier := some d.new.platform_identifier }
    else input
  let input :=
    if d.new.root_access ≠ "" then { input with RootAccess := d.new.root_access } else input
  let input :=
    if d.new.subnet_id ≠ "" then { input with SubnetId := some d.new.subnet_id } else input
  let input :=
    if d.new.volume_size ≠ 0 then
      { input with VolumeSizeInGB := some (int32 d.new.volume_size) }
    else input
  input

def resourceNotebookInstanceCreate (conn : Client) (d : ResourceData) (tr : List Call) :
    Outcome :=
  let diags : Diagnostics := []
  let name := d.new.name
  let input := createInput conn d
  match conn.sendCreate input tr with
  | (some err, tr1) =>
    { diags := sdkdiag.AppendErrorf diags
        ("creating SageMaker AI Notebook Instance: " ++ err.text),
      d := d, trace := tr1 }
  | (none, tr1) =>
    let d := d.SetId name
    match waitNotebookInstanceInService conn d.id tr1 with
    | (some err, tr2) =>
      { diags := sdkdiag.AppendErrorf diags
          ("waiting for SageMaker AI Notebook Instance (" ++ d.id ++ ") create: " ++ err.text),
        d := d, trace := tr2 }
    | (none, tr2) =>
      let r := resourceNotebookInstanceRead conn d tr2
      { r with diags := diags ++ r.diags }

/-- The `UpdateNotebookInstanceInput` that `resourceNotebookInstanceUpdate` builds.
`d.HasChange` compares the old and the new value of the attribute. -/
def updateInput (d : ResourceData) : UpdateNotebookInstanceInput :=
  let input : UpdateNotebookInstanceInput := { NotebookInstanceName := some d.new.name }
  let input :=
    if d.old.additional_code_repositories ≠ d.new.additional_code_repositories then
      if d.new.additional_code_repositories ≠ [] then
        { input with AdditionalCodeRepositories := d.new.additional_code_repositories }
      else
        { input with DisassociateAdditionalCodeRepositories := some true }
    else input
  let input :=
    if d.old.default_code_repository ≠ d.new.default_code_repository then
      if d.new.default_code_repository ≠ "" then
        { input with DefaultCodeRepository := some d.new.default_code_repository }
      else
        { input with DisassociateDefaultCodeRepository := some true }
    else input
  let input :=
    if d.old.instance_metadata_service_configuration
        ≠ d.new.instance_metadata_service_configuration then
      let l := d.new.instance_metadata_service_configuration
      { input with InstanceMetadataServiceConfiguration :=
          expandNotebookInstanceMetadataServiceConfiguration l }
    else input
  let input :=
    if d.old.instance_type ≠ d.new.instance_type then
      { input with InstanceType := d.new.instance_type }
    else input
  let input :=
    if d.old.lifecycle_config_name ≠ d.new.lifecycle_config_name then
      if d.new.lifecycle_config_name ≠ "" then
        { input with LifecycleConfigName := some d.new.lifecycle_config_name }
      else
        { input with DisassociateLifecycleConfig := some true }
    else input
  let input :=
    if d.old.role_arn ≠ d.new.role_arn then { input with RoleArn := some d.new.role_arn }
    else input
  let input :=
    if d.old.root_access ≠ d.new.root_access then { input with RootAccess := d.new.root_access }
    else input
  let input :=
    if d.old.volume_size ≠ d.new.volume_size then
      { input with VolumeSizeInGB := some (int32 d.new.volume_size) }
    else input
  input

def resourceNotebookInstanceUpdate (conn : Client) (d : ResourceData) (tr : List Call) :
    Outcome :=
  let diags : Diagnostics := []
  let read := fun (t : List Call) =>
    let r := resourceNotebookInstanceRead conn d t
    { r with diags := diags ++ r.diags }
  let failed := fun (message : String) (t : List Call) =>
    ({ diags := sdkdiag.AppendErrorf diags message, d := d, trace := t } : Outcome)
  if d.HasChangesExceptTags then
    let input := updateInput d
    -- Stop notebook.
    match findNotebookInstanceByName conn d.id tr with
    | (.error err, tr1) =>
      failed ("updating SageMaker AI Notebook Instance (" ++ d.id ++ "): " ++ err.text) tr1
    | (.ok notebook, tr1) =>
      let previousStatus := notebook.NotebookInstanceStatus
      match (if previousStatus ≠ NotebookInstanceStatusStopped then
          stopNotebookInstance conn d.id tr1 else (none, tr1)) with
      | (some err, tr2) =>
        failed ("updating SageMaker AI Notebook Instance (" ++ d.id ++ "): " ++ err.text) tr2
      | (none, tr2) =>
        match conn.sendUpdate input tr2 with
        | (some err, tr3) =>
          failed ("updating SageMaker AI Notebook Instance (" ++ d.id ++ "): " ++ err.text) tr3
        | (none, tr3) =>
          match waitNotebookInstanceStopped conn d.id tr3 with
          | (some err, tr4) =>
            failed ("waiting for SageMaker AI Notebook Instance (" ++ d.id ++ ") to stop: "
              ++ err.text) tr4
          | (none, tr4) =>
            -- Restart if needed
            match (if previousStatus = NotebookInstanceStatusInService then
                startNotebookInstance conn d.id tr4 else (none, tr4)) with
            | (some err, tr5) =>
              failed ("updating SageMaker AI Notebook Instance (" ++ d.id ++ "): "
                ++ err.text) tr5
            | (none, tr5) => read tr5
  else
    read tr

def resourceNotebookInstanceDelete (conn : Client) (d : ResourceData) (tr : List Call) :
    Outcome :=
  let diags : Diagnostics := []
  let failed := fun (message : String) (t : List Call) =>
    ({ diags := sdkdiag.AppendErrorf diags message, d := d, trace := t } : Outcome)
  match findNotebookInstanceByName conn d.id tr with
  | (res, tr1) =>
    if tfresource.NotFound (errOf res) then
      { diags := diags, d := d, trace := tr1 }
    else
      match res with
      | .error err =>
        failed ("reading SageMaker AI Notebook Instance (" ++ d.id ++ "): " ++ err.text) tr1
      | .ok notebook =>
        match (if notebook.NotebookInstanceStatus = NotebookInstanceStatusInService then
            stopNotebookInstance conn d.id tr1 else (none, tr1)) with
        | (some err, tr2) =>
          failed ("stopping SageMaker AI Notebook Instance (" ++ d.id ++ "): " ++ err.text) tr2
        | (none, tr2) =>
          match conn.sendDelete (some d.id) tr2 with
          | (some err, tr3) =>
            failed ("deleting SageMaker AI Notebook Instance (" ++ d.id ++ "): " ++ err.text) tr3
          | (none, tr3) =>
            match waitNotebookInstanceDeleted conn d.id tr3 with
            | (some err, tr4) =>
              failed ("waiting for SageMaker AI Notebook Instance (" ++ d.id ++ ") delete: "
                ++ err.text) tr4
            | (none, tr4) => { diags := diags, d := d, trace := tr4 }

end sagemaker

/-! ## S3 bucket policy -/

namespace s3

def errCodeMalformedPolicy : String := "MalformedPolicy"
def errCodeNoSuchBucket : String := "NoSuchBucket"
def errCodeNoSuchBucketPolicy : String := "NoSuchBucketPolicy"

/-- The SDK type `s3.GetBucketPolicyOutput`. -/
structure GetBucketPolicyOutput where
  Policy : Option String
  deriving DecidableEq, Repr

/-- A request sent to S3.  `express` tells which of the two clients sent it: the S3 client
or the S3 Express client used for directory buckets. -/
inductive Call where
  | PutBucketPolicy (express : Bool) (bucket policy : Option String)
  | GetBucketPolicy (express : Bool) (bucket : Option String)
  | DeleteBucketPolicy (express : Bool) (bucket : Option String)
  deriving DecidableEq, Repr

namespace Call

def isGet : Call → Bool
  | GetBucketPolicy _ _ => true
  | _ => false

end Call

/-- The `*schema.ResourceData` of a bucket policy: the resource ID, whether the resource
is new, and the values of `bucket` and `policy` that `d.Get` returns. -/
structure ResourceData where
  id : String
  isNewResource : Bool
  bucket : String
  policy : String
  deriving DecidableEq, Repr

/-- The method `d.SetId`. -/
def ResourceData.SetId (d : ResourceData) (v : String) : ResourceData := { d with id := v }

/-- The two S3 clients of `meta` and the helpers of other packages that the bucket policy
functions call.  Each answer of a client is a function of the requests issued before
(oldest first), of the client and of the request.  The three retry helpers of
`internal/tfresource` get the function they retry and the history and give back the
error they end with and the history they leave. -/
structure AWSClient where
  isDirectoryBucket : String → Bool
  PutBucketPolicy : List Call → Bool → Option String → Option String → Option Error
  GetBucketPolicy : List Call → Bool → Option String → Except Error (Option GetBucketPolicyOutput)
  DeleteBucketPolicy : List Call → Bool → Option String → Option Error
  RetryWhenAWSErrCodeEquals :
    (List Call → Option Error × List Call) → List String → List Call → Option Error × List Call
  RetryWhenNotFound :
    (List Call → Except Error String × List Call) → List Call → Option Error × List Call
  RetryUntilNotFound :
    (List Call → Except Error String × List Call) → List Call → Option Error × List Call
  NormalizeJsonString : String → Except Error String
  PolicyToSet : String → String → Except Error String

/-- What a reconciliation function leaves behind: its diagnostics, the resource data and
the request history. -/
structure Outcome where
  diags : Diagnostics
  d : ResourceData
  trace : List Call
  deriving DecidableEq, Repr

/-- The error of a Go result pair, nil on success. -/
def errOf {α : Type} : Except Error α → Option Error
  | .error err => some err
  | .ok _ => none

def findBucketPolicy (meta : AWSClient) (conn : Bool) (bucket : String) (tr : List Call) :
    Except Error String × List Call :=
  let input : Option String := some bucket
  let tr1 := tr ++ [Call.GetBucketPolicy conn input]
  match meta.GetBucketPolicy tr conn input with
  | .error err =>
    if tfawserr.ErrCodeEquals (some err) [errCodeNoSuchBucket, errCodeNoSuchBucketPolicy] then
      (.error (.notFound err), tr1)
    else
      (.error err, tr1)
  | .ok none => (.error tfresource.NewEmptyResultError, tr1)
  | .ok (some output) =>
    match output.Policy with
    | none => (.error tfresource.NewEmptyResultError, tr1)
    | some policy => (.ok policy, tr1)

def resourceBucketPolicyRead (meta : AWSClient) (d : ResourceData) (tr : List Call) : Outcome :=
  let diags : Diagnostics := []
  let bucket := d.id
  let conn := if meta.isDirectoryBucket bucket then true else false
  match findBucketPolicy meta conn bucket tr with
  | (res, tr1) =>
    if !d.isNewResource && tfresource.NotFound (errOf res) then
      { diags := diags, d := d.SetId "", trace := tr1 }
    else
      match res with
      | .error err =>
        { diags := sdkdiag.AppendErrorf diags
            ("reading S3 Bucket Policy (" ++ d.id ++ "): " ++ err.text),
          d := d, trace := tr1 }
      | .ok policy =>
        match meta.PolicyToSet d.policy policy with
        | .error err => { diags := sdkdiag.AppendFromErr diags err, d := d, trace := tr1 }
        | .ok policy =>
          { diags := diags, d := { d with bucket := bucket, policy := policy }, trace := tr1 }

def resourceBucketPolicyPut (meta : AWSClient) (d : ResourceData) (tr : List Call) : Outcome :=
  let diags : Diagnostics := []
  match meta.NormalizeJsonString d.policy with
  | .error err => { diags := sdkdiag.AppendFromErr diags err, d := d, trace := tr }
  | .ok policy =>
    let bucket := d.bucket
    let conn := if meta.isDirectoryBucket bucket then true else false
    match meta.RetryWhenAWSErrCodeEquals
        (fun t => (meta.PutBucketPolicy t conn (some bucket) (some policy),
          t ++ [Call.PutBucketPolicy conn (some bucket) (some policy)]))
        [errCodeMalformedPolicy, errCodeNoSuchBucket] tr with
    | (some err, tr1) =>
      { diags := sdkdiag.AppendErrorf diags
          ("putting S3 Bucket (" ++ bucket ++ ") Policy: " ++ err.text),
        d := d, trace := tr1 }
    | (none, tr1) =>
      let read := fun (d : ResourceData) (t : List Call) =>
        let r := resourceBucketPolicyRead meta d t
        { r with diags := diags ++ r.diags }
      if d.isNewResource then
        let d := d.SetId bucket
        match meta.RetryWhenNotFound (fun t => findBucketPolicy meta conn bucket t) tr1 with
        | (some err, tr2) =>
          { diags := sdkdiag.AppendErrorf diags
              ("waiting for S3 Bucket Policy (" ++ d.id ++ ") create: " ++ err.text),
            d := d, trace := tr2 }
        | (none, tr2) => read d tr2
      else
        read d tr1

def resourceBucketPolicyDelete (meta : AWSClient) (d : ResourceData) (tr : List Call) :
    Outcome :=
  let diags : Diagnostics := []
  let bucket := d.id
  let conn := if meta.isDirectoryBucket bucket then true else false
  let tr1 := tr ++ [Call.DeleteBucketPolicy conn (some bucket)]
  let err := meta.DeleteBucketPolicy tr conn (some bucket)
  if tfawserr.ErrCodeEquals err [errCodeNoSuchBucket] then
    { diags := diags, d := d, trace := tr1 }
  else
    match err with
    | some err =>
      { diags := sdkdiag.AppendErrorf diags
          ("deleting S3 Bucket Policy (" ++ d.id ++ "): " ++ err.text),
        d := d, trace := tr1 }
    | none =>
      match meta.RetryUntilNotFound (fun t => findBucketPolicy meta conn bucket t) tr1 with
      | (some err, tr2) =>
        { diags := sdkdiag.AppendErrorf diags
            ("waiting for S3 Bucket Policy (" ++ d.id ++ ") delete: " ++ err.text),
          d := d, trace := tr2 }
      | (none, tr2) => { diags := diags, d := d, trace := tr2 }

end s3

/-! ## State waiter -/

namespace waiter

/-- Modelled from the spec: the Status of a remote object (section 3), an enumerated value
fetched from the remote system, kept here as its name. -/
abbrev Status := String

/-- Modelled from the spec: the Wait Specification (section 3) of the State Waiter, whose
code is not among the sources at hand: the statuses that end a wait with success, the
statuses that end it with a permanent failure, the poll interval and the overall timeout,
both in the same unit of time. -/
structure WaitSpecification where
  target : List Status
  failure : List Status
  pollInterval : Nat
  timeout : Nat
  deriving DecidableEq, Repr

/-- Modelled from the spec: the conditions a wait can end with (sections 4.1 and 7),
together with the configuration error of the construction. -/
inductive Condition where
  | ConfigurationError
  | NotFound
  | TerminalFailure (status : Status)
  | Timeout
  | Cancelled
  deriving DecidableEq, Repr

/-- Modelled from the spec: one result of the fetch function of a wait (handle to status
or error): the status of the object, or the report that the object does not exist. -/
inductive FetchResult where
  | status (s : Status)
  | notFound
  deriving DecidableEq, Repr

/-- Modelled from the spec: a waiter that has been constructed from its specification. -/
structure Waiter where
  spec : WaitSpecification
  deriving DecidableEq, Repr

/-- Modelled from the spec: the construction of a waiter (section 4.1, edge-case policy).
A specification whose target and failure statuses overlap is a configuration error and is
rejected at construction time. -/
def newWaiter (spec : WaitSpecification) : Except Condition Waiter :=
  if spec.target.any (fun s => decide (s ∈ spec.failure)) then
    .error .ConfigurationError
  else
    .ok { spec := spec }

/-- Modelled from the spec: the number of polls that fit into the timeout (section 4.1).
The first poll is made at once; the following ones are one poll interval apart, the
interval being at least one unit, and are made as long as the timeout has not elapsed. -/
def maxPolls (spec : WaitSpecification) : Nat :=
  max 1 ((spec.timeout + max 1 spec.pollInterval - 1) / max 1 spec.pollInterval)

/-- Modelled from the spec: the cancellation signal of the caller (section 5), given as
the number of fetches after which it arrives, if it arrives at all. -/
def cancelled (cancelAt : Option Nat) (calls : Nat) : Bool :=
  match cancelAt with
  | some k => decide (k ≤ calls)
  | none => false

/-- Modelled from the spec: the polling loop of the State Waiter (section 4.1).  `fetch k`
is the result of the fetch function at its invocation number `k` (counted from zero),
`remaining` the number of polls that still fit into the timeout and `calls` the number of
invocations made so far.  The result is the snapshot (the status) or the condition the
wait ends with, and the number of invocations of the fetch function. -/
def pollLoop (spec : WaitSpecification) (fetch : Nat → FetchResult) (cancelAt : Option Nat) :
    Nat → Nat → Except Condition Status × Nat
  | 0, calls => (.error .Timeout, calls)
  | remaining + 1, calls =>
    if cancelled cancelAt calls then
      (.error .Cancelled, calls)
    else
      match fetch calls with
      | .notFound => (.error .NotFound, calls + 1)
      | .status s =>
        if s ∈ spec.target then (.ok s, calls + 1)
        else if s ∈ spec.failure then (.error (.TerminalFailure s), calls + 1)
        else pollLoop spec fetch cancelAt remaining (calls + 1)

/-- Modelled from the spec: the wait of a constructed waiter. -/
def Waiter.wait (w : Waiter) (fetch : Nat → FetchResult) (cancelAt : Option Nat) :
    Except Condition Status × Nat :=
  pollLoop w.spec fetch cancelAt (maxPolls w.spec) 0

/-- Modelled from the spec: construct the waiter for a specification and wait with it. -/
def waitFor (spec : WaitSpecification) (fetch : Nat → FetchResult) (cancelAt : Option Nat) :
    Except Condition Status × Nat :=
  match newWaiter spec with
  | .error c => (.error c, 0)
  | .ok w => w.wait fetch cancelAt

/-- Modelled from the spec: the error value that hands a condition to the caller, as the
tests `tfresource.NotFound` and `tfresource.TimedOut` of the callers read it (section 7). -/
def Condition.toError : Condition → Error
  | .ConfigurationError => .errorString "target and failure statuses overlap"
  | .NotFound => .notFoundBare
  | .TerminalFailure s => .errorString ("unexpected state " ++ s)
  | .Timeout => .timeoutBare
  | .Cancelled => .errorString "context canceled"

/-- The fetch result is a status outside the target and the failure statuses. -/
def Pending (spec : WaitSpecification) (r : FetchResult) : Prop :=
  ∃ s, r = .status s ∧ s ∉ spec.target ∧ s ∉ spec.failure

/-- A wait for InService that fails on Failed, polling every unit of time for two units. -/
def sampleSpecification : WaitSpecification :=
  { target := ["InService"], failure := ["Failed"], pollInterval := 1, timeout := 2 }

/-- A specification that lists Failed both as a target and as a failure status. -/
def overlappingSpecification : WaitSpecification :=
  { target := ["InService", "Failed"], failure := ["Failed"], pollInterval := 1, timeout := 2 }

/-- A fetch function that reports Pending until it reports `last` at its invocation
number `n` (counted from zero). -/
def fetchPendingThen (n : Nat) (last : FetchResult) (k : Nat) : FetchResult :=
  if k = n then last else .status "Pending"

end waiter

/-! ## Return values, plan customisation and registration tables -/

namespace sagemaker

/-- The two values `(*sagemaker.DescribeNotebookInstanceOutput, error)` that
`findNotebookInstanceByName` hands back, one pair for each `return` statement of the
source, together with the request history. -/
def findNotebookInstanceByNameValues (conn : Client) (name : String) (tr : List Call) :
    (Option DescribeNotebookInstanceOutput × Option Error) × List Call :=
  let input : Option String := some name
  match conn.sendDescribe input tr with
  | (.error err, tr1) =>
    if tfawserr.ErrMessageContains (some err) ErrCodeValidationException "RecordNotFound" then
      ((none, some (.notFound err)), tr1)
    else
      ((none, some err), tr1)
  | (.ok none, tr1) => ((none, some tfresource.NewEmptyResultError), tr1)
  | (.ok (some output), tr1) => ((some output, none), tr1)

/-- The function literal given to `customdiff.ForceNewIfChange` for `volume_size`:
`return new.(int) < old.(int)`.  The context and the provider handle are not used. -/
def volumeSizeShrinks (old new : Int) : Bool :=
  decide (new < old)

/-- The helper `customdiff.ForceNewIfChange(key, f)` of the plugin SDK, which is outside
the sources: the attribute is marked as forcing a new resource when it has a change in the
plan and `f` holds of its old and new value. -/
def customdiff.ForceNewIfChange (f : Int → Int → Bool) (old new : Int) : Bool :=
  if old ≠ new then f old new else false

/-- The `CustomizeDiff` of the resource applied to the old and new `volume_size`: whether
the plan replaces the notebook instance. -/
def volumeSizeForcesNew (old new : Int) : Bool :=
  customdiff.ForceNewIfChange volumeSizeShrinks old new

end sagemaker

namespace s3

/-- The two values `(string, error)` that `findBucketPolicy` hands back, one pair for each
`return` statement of the source, together with the request history. -/
def findBucketPolicyValues (meta : AWSClient) (conn : Bool) (bucket : String)
    (tr : List Call) : (String × Option Error) × List Call :=
  let input : Option String := some bucket
  let tr1 := tr ++ [Call.GetBucketPolicy conn input]
  match meta.GetBucketPolicy tr conn input with
  | .error err =>
    if tfawserr.ErrCodeEquals (some err) [errCodeNoSuchBucket, errCodeNoSuchBucketPolicy] then
      (("", some (.notFound err)), tr1)
    else
      (("", some err), tr1)
  | .ok none => (("", some tfresource.NewEmptyResultError), tr1)
  | .ok (some output) =>
    match output.Policy with
    | none => (("", some tfresource.NewEmptyResultError), tr1)
    | some policy => ((sagemaker.ToString (some policy), none), tr1)

end s3

/-! ### EKS service package -/

namespace eks

/-- The type `inttypes.ServicePackageResourceTags`. -/
structure ServicePackageResourceTags where
  IdentifierAttribute : String
  deriving DecidableEq, Repr

/-- The value `inttypes.ResourceRegionDefault()` every entry carries. -/
inductive ResourceRegion where
  | ResourceRegionDefault
  deriving DecidableEq, Repr

/-- One entry of a registration table.  The factory is kept by its name; the entry types
of the five tables differ only in the type of the factory, and the entries without tagging
have no `Tags`. -/
structure ServicePackageEntry where
  Factory : String
  TypeName : String
  Name : String
  Tags : Option ServicePackageResourceTags := none
  Region : ResourceRegion := .ResourceRegionDefault
  deriving DecidableEq, Repr

def EphemeralResources : List ServicePackageEntry :=
  [ { Factory := "newClusterAuthEphemeralResource", TypeName := "aws_eks_cluster_auth",
      Name := "ClusterAuth" } ]

def FrameworkDataSources : List ServicePackageEntry :=
  [ { Factory := "newClusterVersionsDataSource", TypeName := "aws_eks_cluster_versions",
      Name := "Cluster Versions" } ]

def FrameworkResources : List ServicePackageEntry :=
  [ { Factory := "newPodIdentityAssociationResource",
      TypeName := "aws_eks_pod_identity_association", Name := "Pod Identity Association",
      Tags := some { IdentifierAttribute := "association_arn" } } ]

def SDKDataSources : List ServicePackageEntry :=
  [ { Factory := "dataSourceAccessEntry", TypeName := "aws_eks_access_entry",
      Name := "Access Entry" },
    { Factory := "dataSourceAddon", TypeName := "aws_eks_addon", Name := "Add-On" },
    { Factory := "dataSourceAddonVersion", TypeName := "aws_eks_addon_version",
      Name := "Add-On Version" },
    { Factory := "dataSourceCluster", TypeName := "aws_eks_cluster", Name := "Cluster" },
    { Factory := "dataSourceClusterAuth", TypeName := "aws_eks_cluster_auth",
      Name := "Cluster Authentication Token" },
    { Factory := "dataSourceClusters", TypeName := "aws_eks_clusters", Name := "Clusters" },
    { Factory := "dataSourceNodeGroup", TypeName := "aws_eks_node_group",
      Name := "Node Group" },
    { Factory := "dataSourceNodeGroups", TypeName := "aws_eks_node_groups",
      Name := "Node Groups" } ]

/-- The table `SDKResources`.  The constant `names.AttrARN` belongs to a package outside
the sources and is taken as the parameter `AttrARN`. -/
def SDKResources (AttrARN : String) : List ServicePackageEntry :=
  [ { Factory := "resourceAccessEntry", TypeName := "aws_eks_access_entry",
      Name := "Access Entry", Tags := some { IdentifierAttribute := "access_entry_arn" } },
    { Factory := "resourceAccessPolicyAssociation",
      TypeName := "aws_eks_access_policy_association", Name := "Access Policy Association" },
    { Factory := "resourceAddon", TypeName := "aws_eks_addon", Name := "Add-On",
      Tags := some { IdentifierAttribute := AttrARN } },
    { Factory := "resourceCluster", TypeName := "aws_eks_cluster", Name := "Cluster",
      Tags := some { IdentifierAttribute := AttrARN } },
    { Factory := "resourceFargateProfile", TypeName := "aws_eks_fargate_profile",
      Name := "Fargate Profile", Tags := some { IdentifierAttribute := AttrARN } },
    { Factory := "resourceIdentityProviderConfig",
      TypeName := "aws_eks_identity_provider_config", Name := "Identity Provider Config",
      Tags := some { IdentifierAttribute := AttrARN } },
    { Factory := "resourceNodeGroup", TypeName := "aws_eks_node_group", Name := "Node Group",
      Tags := some { IdentifierAttribute := AttrARN } } ]

/-- The type names of a table, in the order of the table. -/
def typeNames (table : List ServicePackageEntry) : List String :=
  table.map (fun e => e.TypeName)

/-- The Go test `strings.HasPrefix(s, prefix)`. -/
def HasPrefix (s pre : String) : Prop := pre.data <+: s.data

instance (s pre : String) : Decidable (HasPrefix s pre) :=
  inferInstanceAs (Decidable (pre.data <+: s.data))

end eks

/-! ## Sample clients and resources -/

namespace sagemaker

/-- A description of a notebook instance with the given name and status. -/
def sampleOutput (name : String) (status : NotebookInstanceStatus) :
    DescribeNotebookInstanceOutput :=
  { AdditionalCodeRepositories := []
    DefaultCodeRepository := none
    DirectInternetAccess := "Enabled"
    InstanceMetadataServiceConfiguration := some { MinimumInstanceMetadataServiceVersion := some "2" }
    InstanceType := "ml.t3.medium"
    KmsKeyId := none
    NetworkInterfaceId := none
    NotebookInstanceArn := some ("arn:aws:sagemaker:::notebook-instance/" ++ name)
    NotebookInstanceLifecycleConfigName := none
    NotebookInstanceName := some name
    NotebookInstanceStatus := status
    PlatformIdentifier := some "notebook-al2-v2"
    RoleArn := some "arn:aws:iam:::role/r"
    RootAccess := "Enabled"
    SecurityGroups := []
    SubnetId := none
    Url := none
    VolumeSizeInGB := some 5 }

/-- Attribute values of a notebook instance with the given name and volume size. -/
def sampleAttrs (name : String) (volume : Int) : Attrs :=
  { additional_code_repositories := []
    arn := "arn:aws:sagemaker:::notebook-instance/" ++ name
    default_code_repository := ""
    direct_internet_access := "Enabled"
    instance_metadata_service_configuration :=
      [some { minimum_instance_metadata_service_version := "2" }]
    instance_type := "ml.t3.medium"
    kms_key_id := ""
    lifecycle_config_name := ""
    name := name
    network_interface_id := ""
    platform_identifier := "notebook-al2-v2"
    role_arn := "arn:aws:iam:::role/r"
    root_access := "Enabled"
    security_groups := []
    subnet_id := ""
    tags := []
    tags_all := []
    url := ""
    volume_size := volume }

/-- An existing resource `nb` whose volume is being grown from 5 to 10 GB. -/
def sampleData : ResourceData :=
  { id := "nb", isNewResource := false, old := sampleAttrs "nb" 5, new := sampleAttrs "nb" 10 }

/-- A resource as `resourceNotebookInstanceCreate` receives it: no ID yet. -/
def sampleNewData : ResourceData :=
  { id := "", isNewResource := true, old := sampleAttrs "" 0, new := sampleAttrs "nb" 10 }

/-- A resource whose ID is `nb-id` while its `name` attribute reads `nb-name`. -/
def sampleRenamedData : ResourceData :=
  { id := "nb-id", isNewResource := false,
    old := sampleAttrs "nb-name" 5, new := sampleAttrs "nb-name" 10 }

/-- A client that answers every request and every wait with success; a describe reports
the status that `status` computes from the requests issued before. -/
def scriptedClient (status : List Call → NotebookInstanceStatus) : Client :=
  { CreateNotebookInstance := fun _ _ => none
    DescribeNotebookInstance := fun h name => .ok (some (sampleOutput (ToString name) (status h)))
    StopNotebookInstance := fun _ _ => none
    UpdateNotebookInstance := fun _ _ => none
    StartNotebookInstance := fun _ _ => none
    DeleteNotebookInstance := fun _ _ => none
    waitNotebookInstanceInService := fun _ _ => none
    waitNotebookInstanceStarted := fun _ _ => none
    waitNotebookInstanceStopped := fun _ _ => none
    waitNotebookInstanceDeleted := fun _ _ => none
    startRetryAttempts := 1
    tagsIn := []
    setInstanceMetadataServiceConfiguration := fun _ => none }

/-- The status of a notebook that starts as `initial` and follows the stop and start
requests it has received. -/
def followStatus (initial : NotebookInstanceStatus) : List Call → NotebookInstanceStatus
  | [] => initial
  | c :: rest =>
    if c.isStop then followStatus NotebookInstanceStatusStopped rest
    else if c.isStart then followStatus NotebookInstanceStatusInService rest
    else followStatus initial rest

/-- A well-behaved remote system whose notebook is running at first. -/
def runningClient : Client := scriptedClient (followStatus NotebookInstanceStatusInService)

/-- A well-behaved remote system whose notebook is stopped at first. -/
def stoppedClient : Client := scriptedClient (followStatus NotebookInstanceStatusStopped)

/-- A remote system whose notebook is in the given status throughout. -/
def steadyClient (status : NotebookInstanceStatus) : Client := scriptedClient (fun _ => status)

/-- A remote system whose notebook is reported running by the first describe and stopped
by every later one: somebody else stopped it in between. -/
def racingClient : Client :=
  scriptedClient (fun h => if h = [] then NotebookInstanceStatusInService
    else NotebookInstanceStatusStopped)

/-- A remote system that rejects every `StartNotebookInstance` request. -/
def failingStartClient : Client :=
  { runningClient with
    StartNotebookInstance := fun _ _ => some (.api "InternalFailure" "try again later") }

/-- A remote system that rejects every `CreateNotebookInstance` request. -/
def failingCreateClient : Client :=
  { runningClient with
    CreateNotebookInstance := fun _ _ => some (.api "ResourceLimitExceeded" "quota reached") }

/-- A remote system in which no notebook instance exists. -/
def absentClient : Client :=
  { runningClient with
    DescribeNotebookInstance := fun _ _ =>
      .error (.api "ValidationException" "RecordNotFound: no such notebook instance") }

/-- A well-behaved remote system that is so slow that not one attempt of the retried body
of `startNotebookInstance` completes within its five minutes. -/
def slowClient : Client := { runningClient with startRetryAttempts := 0 }

/-- A remote system whose waits for started all fail, with room for two attempts of the
retried body of `startNotebookInstance`. -/
def neverStartedClient : Client :=
  { runningClient with
    waitNotebookInstanceStarted := fun _ _ => some (.errorString "unexpected state Stopped")
    startRetryAttempts := 2 }

/-- A remote system that rejects every `StopNotebookInstance` request. -/
def failingStopClient : Client :=
  { runningClient with
    StopNotebookInstance := fun _ _ => some (.api "ThrottlingException" "rate exceeded") }

/-- A remote system whose notebook never gets in service in time. -/
def neverInServiceClient : Client :=
  { runningClient with waitNotebookInstanceInService := fun _ _ => some .timeoutBare }

/-- A well-behaved remote system, with a field writer that refuses every value of
`instance_metadata_service_configuration`. -/
def refusingWriterClient : Client :=
  { runningClient with
    setInstanceMetadataServiceConfiguration := fun _ => some (.errorString "value refused") }

end sagemaker

namespace s3

/-- A bucket policy resource that exists already. -/
def sampleData : ResourceData :=
  { id := "my-bucket", isNewResource := false, bucket := "my-bucket", policy := "{}" }

/-- A bucket policy resource read right after its creation. -/
def sampleNewData : ResourceData :=
  { id := "my-bucket", isNewResource := true, bucket := "my-bucket", policy := "{}" }

/-- A bucket policy resource as the create receives it: no ID yet. -/
def sampleUnsetData : ResourceData :=
  { id := "", isNewResource := true, bucket := "my-bucket", policy := "{}" }

/-- A retry helper that runs the function it is given up to `n` times and succeeds at the
first Not-Found; any other error ends it, and so does running out of attempts. -/
def retryUntilNotFoundTimes (n : Nat) (f : List Call → Except Error String × List Call)
    (tr : List Call) : Option Error × List Call :=
  match n with
  | 0 => (some (.errorString "found resource"), tr)
  | n + 1 =>
    match f tr with
    | (.error err, tr1) =>
      if tfresource.NotFound (some err) then (none, tr1) else (some err, tr1)
    | (.ok _, tr1) => retryUntilNotFoundTimes n f tr1

/-- A retry helper that runs the function it is given up to `n` times while it reports
Not-Found. -/
def retryWhenNotFoundTimes (n : Nat) (f : List Call → Except Error String × List Call)
    (tr : List Call) : Option Error × List Call :=
  match n with
  | 0 => (some .notFoundBare, tr)
  | n + 1 =>
    match f tr with
    | (.error err, tr1) =>
      if tfresource.NotFound (some err) then retryWhenNotFoundTimes n f tr1 else (some err, tr1)
    | (.ok _, tr1) => (none, tr1)

/-- The S3 side of a remote system in which the bucket has a policy until a
`DeleteBucketPolicy` request has been issued. -/
def policyClient : AWSClient :=
  { isDirectoryBucket := fun _ => false
    PutBucketPolicy := fun _ _ _ _ => none
    GetBucketPolicy := fun h _ _ =>
      if h.any (fun c => !c.isGet) then .error (.api "NoSuchBucketPolicy" "no policy")
      else .ok (some { Policy := some "{}" })
    DeleteBucketPolicy := fun _ _ _ => none
    RetryWhenAWSErrCodeEquals := fun f _ tr => f tr
    RetryWhenNotFound := retryWhenNotFoundTimes 3
    RetryUntilNotFound := retryUntilNotFoundTimes 3
    NormalizeJsonString := fun p => .ok p
    PolicyToSet := fun _ p => .ok p }

/-- The S3 side of a remote system in which the bucket has no policy. -/
def noPolicyClient : AWSClient :=
  { policyClient with
    GetBucketPolicy := fun _ _ _ => .error (.api "NoSuchBucketPolicy" "no policy") }

/-- The S3 side of a remote system in which the bucket does not exist. -/
def noBucketClient : AWSClient :=
  { policyClient with
    GetBucketPolicy := fun _ _ _ => .error (.api "NoSuchBucket" "no bucket")
    DeleteBucketPolicy := fun _ _ _ => some (.api "NoSuchBucket" "no bucket") }

/-- The S3 side of a remote system that denies `DeleteBucketPolicy`. -/
def deniedClient : AWSClient :=
  { policyClient with
    DeleteBucketPolicy := fun _ _ _ => some (.api "AccessDenied" "not allowed") }

/-- The S3 side of a remote system whose policy stays readable after the delete. -/
def lingeringClient : AWSClient :=
  { policyClient with GetBucketPolicy := fun _ _ _ => .ok (some { Policy := some "{}" }) }

end s3

namespace sagemaker

/-- A remote system that refuses every `DescribeNotebookInstance` request. -/
def deniedDescribeClient : Client :=
  { runningClient with
    DescribeNotebookInstance := fun _ _ =>
      .error (.api "AccessDeniedException" "not authorized") }

/-- A remote system whose `DescribeNotebookInstance` answers with neither an output nor
an error. -/
def emptyDescribeClient : Client :=
  { runningClient with DescribeNotebookInstance := fun _ _ => .ok none }

end sagemaker

namespace s3

/-- The S3 side of a remote system that denies `GetBucketPolicy`. -/
def deniedGetClient : AWSClient :=
  { policyClient with
    GetBucketPolicy := fun _ _ _ => .error (.api "AccessDenied" "not allowed") }

/-- The S3 side of a remote system whose `GetBucketPolicy` answers with neither an output
nor an error. -/
def emptyOutputClient : AWSClient :=
  { policyClient with GetBucketPolicy := fun _ _ _ => .ok none }

/-- The S3 side of a remote system whose `GetBucketPolicy` answers with an output that
has no policy. -/
def emptyPolicyClient : AWSClient :=
  { policyClient with GetBucketPolicy := fun _ _ _ => .ok (some { Policy := none }) }

end s3

namespace sagemaker

/-- An existing resource `nb` of which only the tags change. -/
def sampleTaggedData : ResourceData :=
  { id := "nb", isNewResource := false, old := sampleAttrs "nb" 5,
    new := { sampleAttrs "nb" 5 with tags := [("env", "prod")], tags_all := [("env", "prod")] } }

end sagemaker

namespace sagemaker

/-- An existing resource `nb` whose default code repository is removed and which gets one
additional code repository, the lifecycle configuration staying as it is. -/
def sampleRepositoriesData : ResourceData :=
  { id := "nb", isNewResource := false,
    old := { sampleAttrs "nb" 5 with default_code_repository := "repo-a" },
    new := { sampleAttrs "nb" 5 with additional_code_repositories := ["repo-b"] } }

end sagemaker

namespace sagemaker

/-- An existing resource `nb` whose instance type changes while its volume stays at 5 GB. -/
def sampleRetypedData : ResourceData :=
  { id := "nb", isNewResource := false,
    old := { sampleAttrs "nb" 5 with instance_type := "ml.t2.medium" },
    new := sampleAttrs "nb" 5 }

/-- A new resource `nb` with a configured volume of 2^31 GB. -/
def sampleHugeData : ResourceData :=
  { id := "", isNewResource := true, old := sampleAttrs "" 0,
    new := sampleAttrs "nb" 2147483648 }

end sagemaker

/-! ## Request histories -/

/-- Every request and every wait is answered with success, whatever was issued before. -/
def sagemaker.Client.AllSucceed (conn : sagemaker.Client) : Prop :=
  (∀ h i, conn.CreateNotebookInstance h i = none) ∧
  (∀ h n, ∃ o, conn.DescribeNotebookInstance h n = .ok (some o)) ∧
  (∀ h n, conn.StopNotebookInstance h n = none) ∧
  (∀ h i, conn.UpdateNotebookInstance h i = none) ∧
  (∀ h n, conn.StartNotebookInstance h n = none) ∧
  (∀ h n, conn.DeleteNotebookInstance h n = none) ∧
  (∀ h n, conn.waitNotebookInstanceInService h n = none) ∧
  (∀ h n, conn.waitNotebookInstanceStarted h n = none) ∧
  (∀ h n, conn.waitNotebookInstanceStopped h n = none) ∧
  (∀ h n, conn.waitNotebookInstanceDeleted h n = none)


/-- The history `tr2` continues `tr` with requests that all satisfy `P`. -/
def Extends {κ : Type} (P : κ → Prop) (tr tr2 : List κ) : Prop :=
  ∃ s, tr2 = tr ++ s ∧ ∀ c ∈ s, P c

/-- The requests `startNotebookInstance` may issue. -/
def sagemaker.startCalls (id : String) (c : sagemaker.Call) : Prop :=
  c = sagemaker.Call.StartNotebookInstance (some id) ∨ c = sagemaker.Call.waitStarted id ∨ c = sagemaker.Call.waitInService id

/-- The stop step of `resourceNotebookInstanceUpdate`: `stopNotebookInstance`, unless
the status fetched before was Stopped. -/
def sagemaker.updateStopStep (conn : sagemaker.Client) (d : sagemaker.ResourceData)
    (previousStatus : sagemaker.NotebookInstanceStatus) (tr1 : List sagemaker.Call) :
    Option Error × List sagemaker.Call :=
  if previousStatus ≠ sagemaker.NotebookInstanceStatusStopped then
    sagemaker.stopNotebookInstance conn d.id tr1
  else (none, tr1)

/-- The start step of `resourceNotebookInstanceUpdate`: `startNotebookInstance`, if the
status fetched before was InService. -/
def sagemaker.updateStartStep (conn : sagemaker.Client) (d : sagemaker.ResourceData)
    (previousStatus : sagemaker.NotebookInstanceStatus) (tr4 : List sagemaker.Call) :
    Option Error × List sagemaker.Call :=
  if previousStatus = sagemaker.NotebookInstanceStatusInService then
    sagemaker.startNotebookInstance conn d.id tr4
  else (none, tr4)

/-- The stop step of `resourceNotebookInstanceDelete`: `stopNotebookInstance`, if the
status fetched is InService. -/
def sagemaker.deleteStopStep (conn : sagemaker.Client) (d : sagemaker.ResourceData)
    (status : sagemaker.NotebookInstanceStatus) (tr1 : List sagemaker.Call) :
    Option Error × List sagemaker.Call :=
  if status = sagemaker.NotebookInstanceStatusInService then
    sagemaker.stopNotebookInstance conn d.id tr1
  else (none, tr1)

/-- The error diagnostic that `sdkdiag.AppendErrorf(diags, format, id, err)` adds for a
step of the notebook instance functions.  `opening` is the part of the format before the
resource ID, which names the operation, and `link` the part between the ID and the
error. -/
def sagemaker.operationDiagnostic (opening handle link : String) (cause : Error) :
    Diagnostic :=
  { severity := Severity.Error, summary := opening ++ handle ++ link ++ Error.text cause }

/-- The diagnostic reports that the fetch of a read run at the history `tr` failed with
the error `e`: `reading SageMaker AI Notebook Instance (<ID>): <e>`. -/
def sagemaker.ReportsFetch (conn : sagemaker.Client) (d : sagemaker.ResourceData)
    (tr : List sagemaker.Call) (diag : Diagnostic) : Prop :=
  ∃ e, (sagemaker.findNotebookInstanceByName conn d.id tr).1 = .error e ∧
    diag = sagemaker.operationDiagnostic "reading SageMaker AI Notebook Instance (" d.id
      "): " e

/-- The diagnostic reports that, in a read run at the history `tr`, the field writer
refused the fetched `instance_metadata_service_configuration` with the error `e`:
`setting instance_metadata_service_configuration: <e>`, with no resource ID. -/
def sagemaker.ReportsRefusedWrite (conn : sagemaker.Client) (d : sagemaker.ResourceData)
    (tr : List sagemaker.Call) (diag : Diagnostic) : Prop :=
  ∃ o e, (sagemaker.findNotebookInstanceByName conn d.id tr).1 = .ok o ∧
    conn.setInstanceMetadataServiceConfiguration
      (sagemaker.flattenNotebookInstanceMetadataServiceConfiguration
        o.InstanceMetadataServiceConfiguration) = some e ∧
    diag = { severity := Severity.Error,
             summary := "setting instance_metadata_service_configuration: " ++ Error.text e }

/-- The diagnostic reports the step of `resourceNotebookInstanceUpdate` that failed first,
with the error `e` of that step: the fetch, the stop step, the update request and the
start step are reported as `updating SageMaker AI Notebook Instance (<ID>): <e>`, the wait
after the update request as
`waiting for SageMaker AI Notebook Instance (<ID>) to stop: <e>`. -/
def sagemaker.ReportsUpdateStep (conn : sagemaker.Client) (d : sagemaker.ResourceData)
    (tr : List sagemaker.Call) (diag : Diagnostic) : Prop :=
  d.HasChangesExceptTags = true ∧
  ((∃ e, (sagemaker.findNotebookInstanceByName conn d.id tr).1 = .error e ∧
      diag = sagemaker.operationDiagnostic "updating SageMaker AI Notebook Instance (" d.id
        "): " e) ∨
    ∃ o, (sagemaker.findNotebookInstanceByName conn d.id tr).1 = .ok o ∧
      ((∃ e t2, sagemaker.updateStopStep conn d o.NotebookInstanceStatus
            (tr ++ [sagemaker.Call.DescribeNotebookInstance (some d.id)]) = (some e, t2) ∧
          diag = sagemaker.operationDiagnostic "updating SageMaker AI Notebook Instance ("
            d.id "): " e) ∨
        ∃ t2, sagemaker.updateStopStep conn d o.NotebookInstanceStatus
            (tr ++ [sagemaker.Call.DescribeNotebookInstance (some d.id)]) = (none, t2) ∧
          ((∃ e, conn.UpdateNotebookInstance t2 (sagemaker.updateInput d) = some e ∧
              diag = sagemaker.operationDiagnostic
                "updating SageMaker AI Notebook Instance (" d.id "): " e) ∨
            (conn.UpdateNotebookInstance t2 (sagemaker.updateInput d) = none ∧
              ((∃ e, conn.waitNotebookInstanceStopped
                    (t2 ++ [sagemaker.Call.UpdateNotebookInstance (sagemaker.updateInput d)])
                    d.id = some e ∧
                  diag = sagemaker.operationDiagnostic
                    "waiting for SageMaker AI Notebook Instance (" d.id ") to stop: " e) ∨
                (conn.waitNotebookInstanceStopped
                    (t2 ++ [sagemaker.Call.UpdateNotebookInstance (sagemaker.updateInput d)])
                    d.id = none ∧
                  ∃ e t5, sagemaker.updateStartStep conn d o.NotebookInstanceStatus
                      (t2 ++ [sagemaker.Call.UpdateNotebookInstance (sagemaker.updateInput d),
                        sagemaker.Call.waitStopped d.id]) = (some e, t5) ∧
                    diag = sagemaker.operationDiagnostic
                      "updating SageMaker AI Notebook Instance (" d.id "): " e))))))

/-- The diagnostic reports the step of `resourceNotebookInstanceDelete` after the fetch
that failed first, with the error `e` of that step: the stop step as
`stopping SageMaker AI Notebook Instance (<ID>): <e>`, the delete request as
`deleting SageMaker AI Notebook Instance (<ID>): <e>` and the wait as
`waiting for SageMaker AI Notebook Instance (<ID>) delete: <e>`. -/
def sagemaker.ReportsDeleteStep (conn : sagemaker.Client) (d : sagemaker.ResourceData)
    (tr : List sagemaker.Call) (diag : Diagnostic) : Prop :=
  ∃ o, (sagemaker.findNotebookInstanceByName conn d.id tr).1 = .ok o ∧
    ((∃ e t2, sagemaker.deleteStopStep conn d o.NotebookInstanceStatus
          (tr ++ [sagemaker.Call.DescribeNotebookInstance (some d.id)]) = (some e, t2) ∧
        diag = sagemaker.operationDiagnostic "stopping SageMaker AI Notebook Instance ("
          d.id "): " e) ∨
      ∃ t2, sagemaker.deleteStopStep conn d o.NotebookInstanceStatus
          (tr ++ [sagemaker.Call.DescribeNotebookInstance (some d.id)]) = (none, t2) ∧
        ((∃ e, conn.DeleteNotebookInstance t2 (some d.id) = some e ∧
            diag = sagemaker.operationDiagnostic
              "deleting SageMaker AI Notebook Instance (" d.id "): " e) ∨
          (conn.DeleteNotebookInstance t2 (some d.id) = none ∧
            ∃ e, conn.waitNotebookInstanceDeleted
                (t2 ++ [sagemaker.Call.DeleteNotebookInstance (some d.id)]) d.id = some e ∧
              diag = sagemaker.operationDiagnostic
                "waiting for SageMaker AI Notebook Instance (" d.id ") delete: " e)))

/-- The diagnostic reports that the wait for InService of
`resourceNotebookInstanceCreate` failed with the error `e`:
`waiting for SageMaker AI Notebook Instance (<name>) create: <e>`. -/
def sagemaker.ReportsCreateWait (conn : sagemaker.Client) (d : sagemaker.ResourceData)
    (tr : List sagemaker.Call) (diag : Diagnostic) : Prop :=
  ∃ e, conn.waitNotebookInstanceInService
      (tr ++ [sagemaker.Call.CreateNotebookInstance (sagemaker.createInput conn d)])
      d.new.name = some e ∧
    diag = sagemaker.operationDiagnostic "waiting for SageMaker AI Notebook Instance ("
      d.new.name ") create: " e

theorem Extends.refl {κ : Type} (P : κ → Prop) (tr : List κ) : Extends P tr tr :=
  ⟨[], by simp, by simp⟩

theorem Extends.trans {κ : Type} {P : κ → Prop} {a b c : List κ}
    (h1 : Extends P a b) (h2 : Extends P b c) : Extends P a c := by
  obtain ⟨s1, rfl, hs1⟩ := h1
  obtain ⟨s2, rfl, hs2⟩ := h2
  refine ⟨s1 ++ s2, by simp, ?_⟩
  intro x hx
  rcases List.mem_append.mp hx with h | h
  · exact hs1 x h
  · exact hs2 x h

theorem Extends.snoc {κ : Type} {P : κ → Prop} (tr : List κ) (c : κ) (h : P c) :
    Extends P tr (tr ++ [c]) :=
  ⟨[c], rfl, by simpa using h⟩

theorem Extends.mono {κ : Type} {P Q : κ → Prop} {a b : List κ}
    (h : Extends P a b) (hPQ : ∀ c, P c → Q c) : Extends Q a b := by
  obtain ⟨s, rfl, hs⟩ := h
  exact ⟨s, rfl, fun c hc => hPQ c (hs c hc)⟩

theorem Extends.isPrefix {κ : Type} {P : κ → Prop} {a b : List κ} (h : Extends P a b) :
    a <+: b := by
  obtain ⟨s, rfl, -⟩ := h
  exact List.prefix_append _ _

theorem Extends.mem_drop_append {κ : Type} {P : κ → Prop} {a b : List κ}
    (h : Extends P a b) (l : List κ) {c : κ} (hc : c ∈ (b ++ l).drop a.length) :
    P c ∨ c ∈ l := by
  obtain ⟨s, rfl, hs⟩ := h
  simp only [List.append_assoc, List.drop_left, List.mem_append] at hc
  rcases hc with hc | hc
  · exact Or.inl (hs c hc)
  · exact Or.inr hc

theorem Extends.drop {κ : Type} {P : κ → Prop} {a b : List κ}
    (h : Extends P a b) : ∀ c ∈ b.drop a.length, P c := by
  obtain ⟨s, rfl, hs⟩ := h
  simpa using hs

namespace retry

theorem RetryContext_extends {κ : Type} (P : κ → Prop) (f : List κ → Option RetryError × List κ)
    (hf : ∀ t, Extends P t (f t).2) (n : Nat) (r : Option Error) (tr : List κ) :
    Extends P tr (RetryContext n f r tr).2 := by
  induction n generalizing r tr with
  | zero =>
    unfold RetryContext
    cases r with
    | none => exact hf tr
    | some e => exact Extends.refl P tr
  | succ n ih =>
    unfold RetryContext
    have h1 := hf tr
    rcases hft : f tr with ⟨res, tr1⟩
    rw [hft] at h1
    cases res with
    | none => exact h1
    | some rerr =>
      by_cases hr : rerr.Retryable = true
      · simp only [hr, if_true]
        exact Extends.trans h1 (ih _ _)
      · simp only [hr]
        exact h1

end retry

namespace sagemaker

theorem findNotebookInstanceByName_trace (conn : Client) (name : String) (tr : List Call) :
    (findNotebookInstanceByName conn name tr).2 = tr ++ [Call.DescribeNotebookInstance (some name)] := by
  simp only [findNotebookInstanceByName, Client.sendDescribe]
  rcases conn.DescribeNotebookInstance tr (some name) with err | (_ | output)
  · simp only []
    split <;> rfl
  · rfl
  · rfl

end sagemaker

namespace sagemaker

theorem findNotebookInstanceByName_eq (conn : Client) (name : String) (tr : List Call) :
    findNotebookInstanceByName conn name tr
      = ((findNotebookInstanceByName conn name tr).1,
          tr ++ [Call.DescribeNotebookInstance (some name)]) :=
  Prod.ext rfl (findNotebookInstanceByName_trace conn name tr)

theorem findNotebookInstanceByName_of_fst {conn : Client} {name : String} {tr : List Call}
    {res : Except Error DescribeNotebookInstanceOutput}
    (h : (findNotebookInstanceByName conn name tr).1 = res) :
    findNotebookInstanceByName conn name tr
      = (res, tr ++ [Call.DescribeNotebookInstance (some name)]) := by
  rw [findNotebookInstanceByName_eq, h]

/-- The histories `stopNotebookInstance` can leave: a describe, then possibly a stop,
then possibly a wait. -/
theorem stopNotebookInstance_trace (conn : Client) (id : String) (tr : List Call) :
    (stopNotebookInstance conn id tr).2 = tr ++ [Call.DescribeNotebookInstance (some id)] ∨
    (stopNotebookInstance conn id tr).2
      = tr ++ [Call.DescribeNotebookInstance (some id), Call.StopNotebookInstance (some id)] ∨
    (stopNotebookInstance conn id tr).2
      = tr ++ [Call.DescribeNotebookInstance (some id), Call.StopNotebookInstance (some id),
          Call.waitStopped id] := by
  unfold stopNotebookInstance
  rw [findNotebookInstanceByName_eq]
  rcases (findNotebookInstanceByName conn id tr).1 with err | notebook
  · simp only []
    split <;> simp
  · simp only [Client.sendStop, waitNotebookInstanceStopped]
    repeat' split
    all_goals first
      | (simp_all; done)
      | (simp_all; casesm* _ ∧ _; subst_vars; simp)

theorem stopNotebookInstance_extends (P : Call → Prop) (conn : Client) (id : String)
    (tr : List Call) (hD : P (Call.DescribeNotebookInstance (some id)))
    (hS : P (Call.StopNotebookInstance (some id))) (hW : P (Call.waitStopped id)) :
    Extends P tr (stopNotebookInstance conn id tr).2 := by
  rcases stopNotebookInstance_trace conn id tr with h | h | h <;> rw [h]
  · exact ⟨_, rfl, by simpa using hD⟩
  · exact ⟨_, rfl, by simpa using ⟨hD, hS⟩⟩
  · exact ⟨_, rfl, by simpa using ⟨hD, hS, hW⟩⟩

/-- A stop that finds the notebook in a status other than Stopped and whose stop request and
wait succeed issues exactly a describe, a stop and a wait. -/
theorem stopNotebookInstance_of_success {conn : Client} {id : String} {tr : List Call}
    {o : DescribeNotebookInstanceOutput}
    (hfind : (findNotebookInstanceByName conn id tr).1 = .ok o)
    (hst : o.NotebookInstanceStatus ≠ NotebookInstanceStatusStopped)
    (hstop : conn.StopNotebookInstance (tr ++ [Call.DescribeNotebookInstance (some id)]) (some id)
      = none)
    (hwait : conn.waitNotebookInstanceStopped
      (tr ++ [Call.DescribeNotebookInstance (some id), Call.StopNotebookInstance (some id)]) id
      = none) :
    stopNotebookInstance conn id tr
      = (none, tr ++ [Call.DescribeNotebookInstance (some id), Call.StopNotebookInstance (some id),
          Call.waitStopped id]) := by
  unfold stopNotebookInstance
  rw [findNotebookInstanceByName_of_fst hfind]
  simp [Client.sendStop, waitNotebookInstanceStopped, hst, hstop, hwait]

end sagemaker

namespace sagemaker

/-- One attempt of the retried body issues a start request first and then at most a wait
for started. -/
theorem startNotebookInstanceAttempt_trace (conn : Client) (id : String) (t : List Call) :
    (startNotebookInstanceAttempt conn id (some id) t).2
        = t ++ [Call.StartNotebookInstance (some id)] ∨
    (startNotebookInstanceAttempt conn id (some id) t).2
        = t ++ [Call.StartNotebookInstance (some id), Call.waitStarted id] := by
  simp only [startNotebookInstanceAttempt, Client.sendStart, waitNotebookInstanceStarted]
  repeat' split
  all_goals first
    | (simp_all; done)
    | (simp_all; casesm* _ ∧ _; subst_vars; simp)

theorem startNotebookInstanceAttempt_extends (conn : Client) (id : String) (t : List Call) :
    Extends (startCalls id) t (startNotebookInstanceAttempt conn id (some id) t).2 := by
  rcases startNotebookInstanceAttempt_trace conn id t with h | h <;> rw [h]
  · exact ⟨_, rfl, by simp [startCalls]⟩
  · exact ⟨_, rfl, by simp [startCalls]⟩

end sagemaker

namespace sagemaker

/-- The final wait of `startNotebookInstance` only adds a wait for InService. -/
theorem startNotebookInstance_extends (conn : Client) (id : String) (tr : List Call) :
    Extends (startCalls id) tr (startNotebookInstance conn id tr).2 := by
  have hp := retry.RetryContext_extends (startCalls id)
    (startNotebookInstanceAttempt conn id (some id))
    (startNotebookInstanceAttempt_extends conn id) conn.startRetryAttempts none tr
  simp only [startNotebookInstance]
  generalize retry.RetryContext conn.startRetryAttempts
    (startNotebookInstanceAttempt conn id (some id)) none tr = p at hp ⊢
  rcases p with ⟨err, tr1⟩
  refine Extends.trans hp ?_
  simp only [Client.sendStart, waitNotebookInstanceStarted, waitNotebookInstanceInService]
  repeat' split
  all_goals simp only [Prod.mk.injEq] at *
  all_goals casesm* _ ∧ _
  all_goals subst_vars
  all_goals repeat first
    | exact Extends.refl _ _
    | refine Extends.trans ?_ (Extends.snoc _ _ (by simp [startCalls]))

/-- Whatever the remote system answers, `startNotebookInstance` begins by issuing a
`StartNotebookInstance` request. -/
theorem startNotebookInstance_first (conn : Client) (id : String) (tr : List Call) :
    tr ++ [Call.StartNotebookInstance (some id)] <+: (startNotebookInstance conn id tr).2 := by
  have hp : tr ++ [Call.StartNotebookInstance (some id)] <+:
        (retry.RetryContext conn.startRetryAttempts
          (startNotebookInstanceAttempt conn id (some id)) none tr).2 := by
    have h1 : tr ++ [Call.StartNotebookInstance (some id)] <+:
        (startNotebookInstanceAttempt conn id (some id) tr).2 := by
      rcases startNotebookInstanceAttempt_trace conn id tr with h | h <;> simp [h]
    cases conn.startRetryAttempts with
    | zero => exact h1
    | succ n =>
      unfold retry.RetryContext
      rcases hft : startNotebookInstanceAttempt conn id (some id) tr with ⟨res, t1⟩
      rw [hft] at h1
      cases res with
      | none => exact h1
      | some rerr =>
        by_cases hr : rerr.Retryable = true
        · simp only [hr, if_true]
          exact h1.trans (retry.RetryContext_extends (startCalls id) _
            (startNotebookInstanceAttempt_extends conn id) n _ t1).isPrefix
        · simp only [hr]
          exact h1
  simp only [startNotebookInstance]
  generalize retry.RetryContext conn.startRetryAttempts
    (startNotebookInstanceAttempt conn id (some id)) none tr = p at hp ⊢
  rcases p with ⟨err, tr1⟩
  simp only [Client.sendStart, waitNotebookInstanceStarted, waitNotebookInstanceInService]
  simp only at hp
  repeat' split
  all_goals simp only [Prod.mk.injEq] at *
  all_goals casesm* _ ∧ _
  all_goals subst_vars
  all_goals exact hp.trans (by simp)

/-- When every start request and every wait succeeds and the first run of the retried
body returns within the time of the retry loop, `startNotebookInstance` issues one start
request, waits for started, waits for InService and returns nil. -/
theorem startNotebookInstance_of_success {conn : Client} {id : String} (tr : List Call)
    (hattempts : 0 < conn.startRetryAttempts)
    (hstart : ∀ h n, conn.StartNotebookInstance h n = none)
    (hstarted : ∀ h n, conn.waitNotebookInstanceStarted h n = none)
    (hin : ∀ h n, conn.waitNotebookInstanceInService h n = none) :
    startNotebookInstance conn id tr
      = (none, tr ++ [Call.StartNotebookInstance (some id), Call.waitStarted id,
          Call.waitInService id]) := by
  simp only [startNotebookInstance]
  cases hn : conn.startRetryAttempts with
  | zero => omega
  | succ n =>
    simp [retry.RetryContext, startNotebookInstanceAttempt, tfresource.TimedOut,
      Client.sendStart, waitNotebookInstanceStarted, waitNotebookInstanceInService, hstart,
      hstarted, hin]

/-- When every start request and every wait succeeds but the first run of the retried
body does not return within the time of the retry loop, `startNotebookInstance` issues the
start request and the wait for started of that run, then one more start request and wait
for started, waits for InService and returns nil. -/
theorem startNotebookInstance_of_late_success {conn : Client} {id : String} (tr : List Call)
    (hattempts : conn.startRetryAttempts = 0)
    (hstart : ∀ h n, conn.StartNotebookInstance h n = none)
    (hstarted : ∀ h n, conn.waitNotebookInstanceStarted h n = none)
    (hin : ∀ h n, conn.waitNotebookInstanceInService h n = none) :
    startNotebookInstance conn id tr
      = (none, tr ++ [Call.StartNotebookInstance (some id), Call.waitStarted id,
          Call.StartNotebookInstance (some id), Call.waitStarted id,
          Call.waitInService id]) := by
  simp [startNotebookInstance, hattempts, retry.RetryContext, startNotebookInstanceAttempt,
    tfresource.TimedOut, Client.sendStart, waitNotebookInstanceStarted,
    waitNotebookInstanceInService, hstart, hstarted, hin]

theorem resourceNotebookInstanceRead_trace (conn : Client) (d : ResourceData) (tr : List Call) :
    (resourceNotebookInstanceRead conn d tr).trace
      = tr ++ [Call.DescribeNotebookInstance (some d.id)] := by
  simp only [resourceNotebookInstanceRead]
  rw [findNotebookInstanceByName_eq]
  rcases (findNotebookInstanceByName conn d.id tr).1 with err | o
  · simp only []
    split <;> rfl
  · simp only [ResourceData.SetMetadataServiceConfiguration]
    split
    · rfl
    · cases conn.setInstanceMetadataServiceConfiguration
        (flattenNotebookInstanceMetadataServiceConfiguration
          o.InstanceMetadataServiceConfiguration) <;> rfl

/-- A read whose fetch succeeds and whose field writer accepts the value returns no
diagnostic. -/
theorem resourceNotebookInstanceRead_of_ok {conn : Client} {d : ResourceData} {tr : List Call}
    {o : DescribeNotebookInstanceOutput}
    (h : (findNotebookInstanceByName conn d.id tr).1 = .ok o)
    (hset : conn.setInstanceMetadataServiceConfiguration
      (flattenNotebookInstanceMetadataServiceConfiguration
        o.InstanceMetadataServiceConfiguration) = none) :
    (resourceNotebookInstanceRead conn d tr).diags = [] := by
  simp only [resourceNotebookInstanceRead]
  rw [findNotebookInstanceByName_of_fst h]
  simp [errOf, tfresource.NotFound, ResourceData.SetMetadataServiceConfiguration, hset]

/-- A read whose fetch succeeds and whose field writer refuses the value returns the
diagnostic of lines 258 to 260, which names the attribute and the error. -/
theorem resourceNotebookInstanceRead_of_refused {conn : Client} {d : ResourceData}
    {tr : List Call} {o : DescribeNotebookInstanceOutput} {e : Error}
    (h : (findNotebookInstanceByName conn d.id tr).1 = .ok o)
    (hset : conn.setInstanceMetadataServiceConfiguration
      (flattenNotebookInstanceMetadataServiceConfiguration
        o.InstanceMetadataServiceConfiguration) = some e) :
    (resourceNotebookInstanceRead conn d tr).diags
      = [{ severity := .Error,
           summary := "setting instance_metadata_service_configuration: " ++ e.text }] := by
  simp only [resourceNotebookInstanceRead]
  rw [findNotebookInstanceByName_of_fst h]
  simp [errOf, tfresource.NotFound, ResourceData.SetMetadataServiceConfiguration, hset,
    sdkdiag.AppendErrorf]

end sagemaker

/-! ## The update of a notebook instance -/

namespace sagemaker

/-- C1 (as stated, refuted). The first describe reports InService and every request and wait
succeeds, yet `resourceNotebookInstanceUpdate` issues no stop request: the describe made
by `stopNotebookInstance` already reports Stopped, so the mutating requests are an update
and a start only.  And at a remote system that answers every request and wait with
success, but so slowly that the first run of the retried start does not return within the
time of its retry loop, the start request is issued twice. -/
theorem update_running_without_stop_counterexample :
    sampleData.HasChangesExceptTags = true ∧
    racingClient.AllSucceed ∧
    (∃ o, (findNotebookInstanceByName racingClient sampleData.id []).1 = .ok o ∧
      o.NotebookInstanceStatus = NotebookInstanceStatusInService) ∧
    (resourceNotebookInstanceUpdate racingClient sampleData []).diags = [] ∧
    (resourceNotebookInstanceUpdate racingClient sampleData []).trace.filter Call.isMutating
      = [Call.UpdateNotebookInstance (updateInput sampleData),
         Call.StartNotebookInstance (some "nb")] ∧
    (resourceNotebookInstanceUpdate racingClient sampleData []).trace.filter Call.isMutating
      ≠ [Call.StopNotebookInstance (some "nb"),
         Call.UpdateNotebookInstance (updateInput sampleData),
         Call.StartNotebookInstance (some "nb")] ∧
    slowClient.AllSucceed ∧
    (∃ o, (findNotebookInstanceByName slowClient sampleData.id []).1 = .ok o ∧
      o.NotebookInstanceStatus = NotebookInstanceStatusInService) ∧
    (resourceNotebookInstanceUpdate slowClient sampleData []).diags = [] ∧
    (resourceNotebookInstanceUpdate slowClient sampleData []).trace.filter Call.isMutating
      = [Call.StopNotebookInstance (some "nb"),
         Call.UpdateNotebookInstance (updateInput sampleData),
         Call.StartNotebookInstance (some "nb"),
         Call.StartNotebookInstance (some "nb")] := by
  refine ⟨by decide, ?_, ⟨_, rfl, rfl⟩, by decide, by decide, by decide, ?_, ⟨_, rfl, rfl⟩,
    by decide, by decide⟩
  · exact ⟨fun _ _ => rfl, fun _ _ => ⟨_, rfl⟩, fun _ _ => rfl, fun _ _ => rfl,
      fun _ _ => rfl, fun _ _ => rfl, fun _ _ => rfl, fun _ _ => rfl, fun _ _ => rfl,
      fun _ _ => rfl⟩
  · exact ⟨fun _ _ => rfl, fun _ _ => ⟨_, rfl⟩, fun _ _ => rfl, fun _ _ => rfl,
      fun _ _ => rfl, fun _ _ => rfl, fun _ _ => rfl, fun _ _ => rfl, fun _ _ => rfl,
      fun _ _ => rfl⟩

/-- C1 (amended). For a non-tag change, when the pre-update fetch reports InService, the
fetch made by `stopNotebookInstance` reports a status other than Stopped and every request
and wait succeeds on its first attempt, the first run of the retried start returning
within the time of its retry loop, the update issues exactly: describe, describe, stop,
wait for Stopped, update, wait for Stopped, start, wait for started, wait for InService,
describe.  So the mutating requests are one stop, one update and one start in this order,
the last wait is the wait for InService, which succeeds, and the update step adds no
diagnostic: the diagnostics returned are those of the final read, and there is none when
the field writer accepts the fetched `instance_metadata_service_configuration`. -/
theorem update_running_one_stop_start_cycle (conn : Client) (d : ResourceData)
    (tr : List Call) (o1 o2 : DescribeNotebookInstanceOutput)
    (hchg : d.HasChangesExceptTags = true)
    (hall : conn.AllSucceed)
    (hattempts : 0 < conn.startRetryAttempts)
    (hfetch : (findNotebookInstanceByName conn d.id tr).1 = .ok o1)
    (hrunning : o1.NotebookInstanceStatus = NotebookInstanceStatusInService)
    (hfetch2 : (findNotebookInstanceByName conn d.id
      (tr ++ [Call.DescribeNotebookInstance (some d.id)])).1 = .ok o2)
    (hnotStopped : o2.NotebookInstanceStatus ≠ NotebookInstanceStatusStopped) :
    (resourceNotebookInstanceUpdate conn d tr).trace
      = tr ++ [Call.DescribeNotebookInstance (some d.id),
          Call.DescribeNotebookInstance (some d.id),
          Call.StopNotebookInstance (some d.id),
          Call.waitStopped d.id,
          Call.UpdateNotebookInstance (updateInput d),
          Call.waitStopped d.id,
          Call.StartNotebookInstance (some d.id),
          Call.waitStarted d.id,
          Call.waitInService d.id,
          Call.DescribeNotebookInstance (some d.id)] ∧
    ((resourceNotebookInstanceUpdate conn d tr).trace.drop tr.length).filter Call.isMutating
      = [Call.StopNotebookInstance (some d.id),
          Call.UpdateNotebookInstance (updateInput d),
          Call.StartNotebookInstance (some d.id)] ∧
    (((resourceNotebookInstanceUpdate conn d tr).trace.drop tr.length).filter
      Call.isWait).getLast? = some (Call.waitInService d.id) ∧
    conn.waitNotebookInstanceInService
      (tr ++ [Call.DescribeNotebookInstance (some d.id),
          Call.DescribeNotebookInstance (some d.id),
          Call.StopNotebookInstance (some d.id),
          Call.waitStopped d.id,
          Call.UpdateNotebookInstance (updateInput d),
          Call.waitStopped d.id,
          Call.StartNotebookInstance (some d.id),
          Call.waitStarted d.id]) d.id = none ∧
    (resourceNotebookInstanceUpdate conn d tr).diags
      = (resourceNotebookInstanceRead conn d
          (tr ++ [Call.DescribeNotebookInstance (some d.id),
            Call.DescribeNotebookInstance (some d.id),
            Call.StopNotebookInstance (some d.id),
            Call.waitStopped d.id,
            Call.UpdateNotebookInstance (updateInput d),
            Call.waitStopped d.id,
            Call.StartNotebookInstance (some d.id),
            Call.waitStarted d.id,
            Call.waitInService d.id])).diags ∧
    ((∀ v, conn.setInstanceMetadataServiceConfiguration v = none) →
      (resourceNotebookInstanceUpdate conn d tr).diags = []) := by
  obtain ⟨-, hdesc, hstop, hupd, hstart, -, hin, hstarted, hstopped, -⟩ := hall
  have hne : NotebookInstanceStatusInService ≠ NotebookInstanceStatusStopped := by decide
  have hread : ∀ t, ∃ o, (findNotebookInstanceByName conn d.id t).1 = .ok o := by
    intro t
    obtain ⟨o, ho⟩ := hdesc t (some d.id)
    exact ⟨o, by simp [findNotebookInstanceByName, Client.sendDescribe, ho]⟩
  have htrace : (resourceNotebookInstanceUpdate conn d tr).trace
      = tr ++ [Call.DescribeNotebookInstance (some d.id),
          Call.DescribeNotebookInstance (some d.id),
          Call.StopNotebookInstance (some d.id),
          Call.waitStopped d.id,
          Call.UpdateNotebookInstance (updateInput d),
          Call.waitStopped d.id,
          Call.StartNotebookInstance (some d.id),
          Call.waitStarted d.id,
          Call.waitInService d.id,
          Call.DescribeNotebookInstance (some d.id)] := by
    simp only [resourceNotebookInstanceUpdate, hchg, if_true]
    rw [findNotebookInstanceByName_of_fst hfetch]
    simp only [hrunning, ne_eq, hne, not_false_eq_true, if_true]
    rw [stopNotebookInstance_of_success hfetch2 hnotStopped (hstop _ _) (hstopped _ _)]
    simp only [Client.sendUpdate, hupd, waitNotebookInstanceStopped, hstopped]
    rw [startNotebookInstance_of_success _ hattempts hstart hstarted hin]
    simp [resourceNotebookInstanceRead_trace]
  have hdiags : (resourceNotebookInstanceUpdate conn d tr).diags
      = (resourceNotebookInstanceRead conn d
          (tr ++ [Call.DescribeNotebookInstance (some d.id),
            Call.DescribeNotebookInstance (some d.id),
            Call.StopNotebookInstance (some d.id),
            Call.waitStopped d.id,
            Call.UpdateNotebookInstance (updateInput d),
            Call.waitStopped d.id,
            Call.StartNotebookInstance (some d.id),
            Call.waitStarted d.id,
            Call.waitInService d.id])).diags := by
    simp only [resourceNotebookInstanceUpdate, hchg, if_true]
    rw [findNotebookInstanceByName_of_fst hfetch]
    simp only [hrunning, ne_eq, hne, not_false_eq_true, if_true]
    rw [stopNotebookInstance_of_success hfetch2 hnotStopped (hstop _ _) (hstopped _ _)]
    simp only [Client.sendUpdate, hupd, waitNotebookInstanceStopped, hstopped]
    rw [startNotebookInstance_of_success _ hattempts hstart hstarted hin]
    simp
  have hr : (∀ v, conn.setInstanceMetadataServiceConfiguration v = none) →
      ∀ t, (resourceNotebookInstanceRead conn d t).diags = [] := by
    intro hset t
    obtain ⟨o, ho⟩ := hread t
    exact resourceNotebookInstanceRead_of_ok ho (hset _)
  refine ⟨htrace, ?_, ?_, hin _ _, hdiags, fun hset => by rw [hdiags]; exact hr hset _⟩
  · rw [htrace]
    simp [Call.isMutating]
  · rw [htrace]
    simp [Call.isWait, List.filter]

end sagemaker

namespace sagemaker

/-- C1 (amended), at a running notebook whose volume is grown. -/
theorem update_running_one_stop_start_cycle_witness :
    ((resourceNotebookInstanceUpdate runningClient sampleData []).trace.drop 0).filter
        Call.isMutating
      = [Call.StopNotebookInstance (some "nb"),
          Call.UpdateNotebookInstance (updateInput sampleData),
          Call.StartNotebookInstance (some "nb")] ∧
    (resourceNotebookInstanceUpdate runningClient sampleData []).diags = [] :=
  have h := update_running_one_stop_start_cycle runningClient sampleData []
    (sampleOutput "nb" NotebookInstanceStatusInService)
    (sampleOutput "nb" NotebookInstanceStatusInService)
    (by decide)
    ⟨fun _ _ => rfl, fun _ _ => ⟨_, rfl⟩, fun _ _ => rfl, fun _ _ => rfl, fun _ _ => rfl,
      fun _ _ => rfl, fun _ _ => rfl, fun _ _ => rfl, fun _ _ => rfl, fun _ _ => rfl⟩
    (by decide) rfl rfl rfl (by decide)
  ⟨h.2.1, h.2.2.2.2.2 (fun _ => rfl)⟩

/-- C2. For a non-tag change, when the pre-update fetch reports Stopped, the update issues
no stop and no start request.  After the describe it issues the update request; it waits
for Stopped exactly when the update request succeeded and reads (a last describe) exactly
when that wait succeeded, so the notebook is left stopped. -/
theorem update_stopped_skips_stop_and_start (conn : Client) (d : ResourceData)
    (tr : List Call) (o : DescribeNotebookInstanceOutput)
    (hchg : d.HasChangesExceptTags = true)
    (hfetch : (findNotebookInstanceByName conn d.id tr).1 = .ok o)
    (hstopped : o.NotebookInstanceStatus = NotebookInstanceStatusStopped) :
    (∀ c ∈ (resourceNotebookInstanceUpdate conn d tr).trace.drop tr.length,
      c.isStop = false ∧ c.isStart = false) ∧
    (tr ++ [Call.DescribeNotebookInstance (some d.id),
        Call.UpdateNotebookInstance (updateInput d)]
      <+: (resourceNotebookInstanceUpdate conn d tr).trace) ∧
    (∀ e, conn.UpdateNotebookInstance (tr ++ [Call.DescribeNotebookInstance (some d.id)])
        (updateInput d) = some e →
      (resourceNotebookInstanceUpdate conn d tr).trace
        = tr ++ [Call.DescribeNotebookInstance (some d.id),
            Call.UpdateNotebookInstance (updateInput d)] ∧
      (resourceNotebookInstanceUpdate conn d tr).diags ≠ []) ∧
    (conn.UpdateNotebookInstance (tr ++ [Call.DescribeNotebookInstance (some d.id)])
        (updateInput d) = none →
      (∀ e, conn.waitNotebookInstanceStopped
          (tr ++ [Call.DescribeNotebookInstance (some d.id),
            Call.UpdateNotebookInstance (updateInput d)]) d.id = some e →
        (resourceNotebookInstanceUpdate conn d tr).trace
          = tr ++ [Call.DescribeNotebookInstance (some d.id),
              Call.UpdateNotebookInstance (updateInput d), Call.waitStopped d.id] ∧
        (resourceNotebookInstanceUpdate conn d tr).diags ≠ []) ∧
      (conn.waitNotebookInstanceStopped
          (tr ++ [Call.DescribeNotebookInstance (some d.id),
            Call.UpdateNotebookInstance (updateInput d)]) d.id = none →
        (resourceNotebookInstanceUpdate conn d tr).trace
          = tr ++ [Call.DescribeNotebookInstance (some d.id),
              Call.UpdateNotebookInstance (updateInput d), Call.waitStopped d.id,
              Call.DescribeNotebookInstance (some d.id)])) := by
  have hne : NotebookInstanceStatusStopped ≠ NotebookInstanceStatusInService := by decide
  have hU : resourceNotebookInstanceUpdate conn d tr =
      match conn.UpdateNotebookInstance (tr ++ [Call.DescribeNotebookInstance (some d.id)])
          (updateInput d) with
      | some err =>
        { diags := sdkdiag.AppendErrorf []
            ("updating SageMaker AI Notebook Instance (" ++ d.id ++ "): " ++ err.text),
          d := d,
          trace := tr ++ [Call.DescribeNotebookInstance (some d.id),
            Call.UpdateNotebookInstance (updateInput d)] }
      | none =>
        match conn.waitNotebookInstanceStopped
            (tr ++ [Call.DescribeNotebookInstance (some d.id),
              Call.UpdateNotebookInstance (updateInput d)]) d.id with
        | some err =>
          { diags := sdkdiag.AppendErrorf []
              ("waiting for SageMaker AI Notebook Instance (" ++ d.id ++ ") to stop: "
                ++ err.text),
            d := d,
            trace := tr ++ [Call.DescribeNotebookInstance (some d.id),
              Call.UpdateNotebookInstance (updateInput d), Call.waitStopped d.id] }
        | none =>
          { resourceNotebookInstanceRead conn d
              (tr ++ [Call.DescribeNotebookInstance (some d.id),
                Call.UpdateNotebookInstance (updateInput d), Call.waitStopped d.id]) with
            diags := [] ++ (resourceNotebookInstanceRead conn d
              (tr ++ [Call.DescribeNotebookInstance (some d.id),
                Call.UpdateNotebookInstance (updateInput d), Call.waitStopped d.id])).diags } := by
    simp only [resourceNotebookInstanceUpdate, hchg, if_true]
    rw [findNotebookInstanceByName_of_fst hfetch]
    simp only [hstopped, ne_eq, not_true_eq_false, if_false, hne, Client.sendUpdate,
      waitNotebookInstanceStopped]
    rcases conn.UpdateNotebookInstance (tr ++ [Call.DescribeNotebookInstance (some d.id)])
        (updateInput d) with _ | e
    · simp only [List.append_assoc, List.singleton_append]
      rcases conn.waitNotebookInstanceStopped
          (tr ++ [Call.DescribeNotebookInstance (some d.id),
            Call.UpdateNotebookInstance (updateInput d)]) d.id with _ | e2
      · simp
      · simp
    · simp
  rw [hU]
  rcases conn.UpdateNotebookInstance (tr ++ [Call.DescribeNotebookInstance (some d.id)])
      (updateInput d) with _ | e
  · rcases conn.waitNotebookInstanceStopped
        (tr ++ [Call.DescribeNotebookInstance (some d.id),
          Call.UpdateNotebookInstance (updateInput d)]) d.id with _ | e2
    · simp [resourceNotebookInstanceRead_trace, Call.isStop, Call.isStart]
    · simp [Call.isStop, Call.isStart, sdkdiag.AppendErrorf]
  · simp [Call.isStop, Call.isStart, sdkdiag.AppendErrorf]

end sagemaker

namespace sagemaker

/-- C2, at a stopped notebook whose volume is grown. -/
theorem update_stopped_skips_stop_and_start_witness :
    (resourceNotebookInstanceUpdate stoppedClient sampleData []).trace
      = [Call.DescribeNotebookInstance (some "nb"),
          Call.UpdateNotebookInstance (updateInput sampleData), Call.waitStopped "nb",
          Call.DescribeNotebookInstance (some "nb")] :=
  (update_stopped_skips_stop_and_start stoppedClient sampleData []
    (sampleOutput "nb" NotebookInstanceStatusStopped) (by decide) rfl rfl).2.2.2 rfl |>.2 rfl

/-- C3. Whatever status the pre-update fetch reports, when the stop step, the update request
and the wait for Stopped that follows it succeed, a start request is issued if and only if
that status was InService: in that case the request after the wait is the start request of
`startNotebookInstance`, otherwise the only request after the wait is the describe of the
final read. -/
theorem update_starts_iff_was_in_service (conn : Client) (d : ResourceData)
    (tr tr2 : List Call) (o : DescribeNotebookInstanceOutput)
    (hchg : d.HasChangesExceptTags = true)
    (hfetch : (findNotebookInstanceByName conn d.id tr).1 = .ok o)
    (hstop : (if o.NotebookInstanceStatus ≠ NotebookInstanceStatusStopped then
        stopNotebookInstance conn d.id (tr ++ [Call.DescribeNotebookInstance (some d.id)])
      else (none, tr ++ [Call.DescribeNotebookInstance (some d.id)])) = (none, tr2))
    (hupd : conn.UpdateNotebookInstance tr2 (updateInput d) = none)
    (hwait : conn.waitNotebookInstanceStopped
      (tr2 ++ [Call.UpdateNotebookInstance (updateInput d)]) d.id = none) :
    ((∃ c ∈ (resourceNotebookInstanceUpdate conn d tr).trace.drop tr.length, c.isStart = true)
      ↔ o.NotebookInstanceStatus = NotebookInstanceStatusInService) ∧
    (o.NotebookInstanceStatus = NotebookInstanceStatusInService →
      tr2 ++ [Call.UpdateNotebookInstance (updateInput d), Call.waitStopped d.id,
          Call.StartNotebookInstance (some d.id)]
        <+: (resourceNotebookInstanceUpdate conn d tr).trace) ∧
    (o.NotebookInstanceStatus ≠ NotebookInstanceStatusInService →
      (resourceNotebookInstanceUpdate conn d tr).trace
        = tr2 ++ [Call.UpdateNotebookInstance (updateInput d), Call.waitStopped d.id,
            Call.DescribeNotebookInstance (some d.id)]) := by
  -- the history up to the stop step holds no start request
  have hext : Extends (fun c => c.isStart = false) tr tr2 := by
    have h0 : Extends (fun c : Call => c.isStart = false) tr
        (tr ++ [Call.DescribeNotebookInstance (some d.id)]) := Extends.snoc _ _ rfl
    split at hstop
    · have h1 := stopNotebookInstance_extends (fun c => c.isStart = false) conn d.id
        (tr ++ [Call.DescribeNotebookInstance (some d.id)]) rfl rfl rfl
      rw [hstop] at h1
      exact h0.trans h1
    · simp only [Prod.mk.injEq, true_and] at hstop
      rw [← hstop]
      exact h0
  obtain ⟨s2, rfl, hs2⟩ := hext
  have hU : (resourceNotebookInstanceUpdate conn d tr).trace =
      if o.NotebookInstanceStatus = NotebookInstanceStatusInService then
        (match startNotebookInstance conn d.id
            (tr ++ s2 ++ [Call.UpdateNotebookInstance (updateInput d)]
              ++ [Call.waitStopped d.id]) with
          | (some _, tr5) => tr5
          | (none, tr5) => tr5 ++ [Call.DescribeNotebookInstance (some d.id)])
      else
        tr ++ s2 ++ [Call.UpdateNotebookInstance (updateInput d)]
          ++ [Call.waitStopped d.id] ++ [Call.DescribeNotebookInstance (some d.id)] := by
    simp only [resourceNotebookInstanceUpdate, hchg, if_true]
    rw [findNotebookInstanceByName_of_fst hfetch]
    simp only [hstop, Client.sendUpdate, hupd, waitNotebookInstanceStopped, hwait]
    by_cases hin : o.NotebookInstanceStatus = NotebookInstanceStatusInService
    · simp only [hin, if_true]
      generalize startNotebookInstance conn d.id
        (tr ++ s2 ++ [Call.UpdateNotebookInstance (updateInput d)]
          ++ [Call.waitStopped d.id]) = p
      rcases p with ⟨_ | e, tr5⟩
      · simp [resourceNotebookInstanceRead_trace]
      · simp
    · simp [hin, resourceNotebookInstanceRead_trace]
  by_cases hin : o.NotebookInstanceStatus = NotebookInstanceStatusInService
  · have hfirst := startNotebookInstance_first conn d.id
      (tr ++ s2 ++ [Call.UpdateNotebookInstance (updateInput d)] ++ [Call.waitStopped d.id])
    have hpre : tr ++ s2 ++ [Call.UpdateNotebookInstance (updateInput d)]
        ++ [Call.waitStopped d.id] ++ [Call.StartNotebookInstance (some d.id)]
        <+: (resourceNotebookInstanceUpdate conn d tr).trace := by
      rw [hU]
      simp only [hin, if_true]
      generalize startNotebookInstance conn d.id
        (tr ++ s2 ++ [Call.UpdateNotebookInstance (updateInput d)]
          ++ [Call.waitStopped d.id]) = p at hfirst
      rcases p with ⟨_ | e, tr5⟩
      · exact hfirst.trans (List.prefix_append _ _)
      · exact hfirst
    refine ⟨⟨fun _ => hin, fun _ => ?_⟩, fun _ => by simpa using hpre, fun h => absurd hin h⟩
    obtain ⟨rest, hrest⟩ := hpre
    refine ⟨Call.StartNotebookInstance (some d.id), ?_, rfl⟩
    rw [← hrest]
    simp
  · refine ⟨⟨fun ⟨c, hc, hstart⟩ => ?_, fun h => absurd h hin⟩, fun h => absurd h hin,
      fun _ => by rw [hU]; simp [hin]⟩
    rw [hU] at hc
    simp only [hin, if_false, List.append_assoc, List.drop_left, List.mem_append,
      List.mem_singleton] at hc
    rcases hc with hc | hc | hc | hc
    · rw [hs2 c hc] at hstart
      cases hstart
    · subst hc; cases hstart
    · subst hc; cases hstart
    · subst hc; cases hstart

end sagemaker

namespace sagemaker

/-- C3, at a running notebook: the update issues a start request. -/
theorem update_starts_iff_was_in_service_witness :
    ∃ c ∈ (resourceNotebookInstanceUpdate runningClient sampleData []).trace.drop 0,
      c.isStart = true :=
  (update_starts_iff_was_in_service runningClient sampleData []
    [Call.DescribeNotebookInstance (some "nb"), Call.DescribeNotebookInstance (some "nb"),
      Call.StopNotebookInstance (some "nb"), Call.waitStopped "nb"]
    (sampleOutput "nb" NotebookInstanceStatusInService)
    (by decide) rfl (by decide) rfl rfl).1.2 rfl

/-! ## Starting a notebook instance -/

/-- C4 (the code at the failing input). The remote system rejects the start request, and
`startNotebookInstance` still returns nil: the error of the retried body is not a timeout,
so it is neither retried nor returned, and the wait for InService that follows succeeds. -/
theorem startNotebookInstance_drops_start_error :
    failingStartClient.StartNotebookInstance [] (some "nb")
      = some (.api "InternalFailure" "try again later") ∧
    startNotebookInstance failingStartClient "nb" []
      = (none, [Call.StartNotebookInstance (some "nb"), Call.waitInService "nb"]) := by
  decide

/-- Whenever the first start request of the retry loop fails and the wait for InService
that follows succeeds, `startNotebookInstance` returns nil. -/
theorem startNotebookInstance_nil_after_start_error (conn : Client) (id : String)
    (tr : List Call) (e : Error) (n : Nat)
    (hattempts : conn.startRetryAttempts = n + 1)
    (hstart : conn.StartNotebookInstance tr (some id) = some e)
    (hin : conn.waitNotebookInstanceInService
      (tr ++ [Call.StartNotebookInstance (some id)]) id = none) :
    startNotebookInstance conn id tr
      = (none, tr ++ [Call.StartNotebookInstance (some id), Call.waitInService id]) := by
  simp [startNotebookInstance, hattempts, retry.RetryContext, startNotebookInstanceAttempt,
    Client.sendStart, hstart, retry.NonRetryableError, tfresource.TimedOut,
    waitNotebookInstanceInService, hin]

/-! ## Not-Found in delete and read -/

/-- C5. When the fetch of `resourceNotebookInstanceDelete` reports Not-Found, the function
returns no diagnostics and its only request is that describe: no stop, no delete, no wait. -/
theorem delete_absent_returns_without_requests (conn : Client) (d : ResourceData)
    (tr : List Call) (e : Error)
    (hfetch : (findNotebookInstanceByName conn d.id tr).1 = .error e)
    (hnotFound : tfresource.NotFound (some e) = true) :
    (resourceNotebookInstanceDelete conn d tr).diags = [] ∧
    (resourceNotebookInstanceDelete conn d tr).trace
      = tr ++ [Call.DescribeNotebookInstance (some d.id)] ∧
    (∀ c ∈ (resourceNotebookInstanceDelete conn d tr).trace.drop tr.length,
      c.isStop = false ∧ c.isDelete = false ∧ c.isWait = false) ∧
    (resourceNotebookInstanceDelete conn d tr).d = d := by
  have h : resourceNotebookInstanceDelete conn d tr
      = { diags := [], d := d, trace := tr ++ [Call.DescribeNotebookInstance (some d.id)] } := by
    simp only [resourceNotebookInstanceDelete]
    rw [findNotebookInstanceByName_of_fst hfetch]
    simp [errOf, hnotFound]
  rw [h]
  simp [Call.isStop, Call.isDelete, Call.isWait]

/-- C5, at a remote system that holds no notebook instance. -/
theorem delete_absent_returns_without_requests_witness :
    (resourceNotebookInstanceDelete absentClient sampleData []).diags = [] ∧
    (resourceNotebookInstanceDelete absentClient sampleData []).trace
      = [Call.DescribeNotebookInstance (some "nb")] :=
  have h := delete_absent_returns_without_requests absentClient sampleData []
    (.notFound (.api "ValidationException" "RecordNotFound: no such notebook instance"))
    rfl (by decide)
  ⟨h.1, h.2.1⟩

end sagemaker

namespace s3

theorem findBucketPolicy_trace (meta : AWSClient) (conn : Bool) (bucket : String)
    (tr : List Call) :
    (findBucketPolicy meta conn bucket tr).2 = tr ++ [Call.GetBucketPolicy conn (some bucket)] := by
  simp only [findBucketPolicy]
  repeat' split
  all_goals rfl

theorem findBucketPolicy_of_fst {meta : AWSClient} {conn : Bool} {bucket : String}
    {tr : List Call} {res : Except Error String}
    (h : (findBucketPolicy meta conn bucket tr).1 = res) :
    findBucketPolicy meta conn bucket tr
      = (res, tr ++ [Call.GetBucketPolicy conn (some bucket)]) :=
  Prod.ext h (findBucketPolicy_trace meta conn bucket tr)

end s3

/-- C6. When the find reports Not-Found, `resourceNotebookInstanceRead` and
`resourceBucketPolicyRead` behave alike: for a resource that is not new they set the ID to
the empty string and return no diagnostics; for a new resource they return one error
diagnostic (reading ... followed by the error text) and leave the resource data, the ID
included, unchanged. -/
theorem read_not_found (conn : sagemaker.Client) (d : sagemaker.ResourceData)
    (tr : List sagemaker.Call) (e : Error)
    (meta : s3.AWSClient) (b : s3.ResourceData) (btr : List s3.Call) (be : Error)
    (hfind : (sagemaker.findNotebookInstanceByName conn d.id tr).1 = .error e)
    (hnotFound : tfresource.NotFound (some e) = true)
    (hbfind : (s3.findBucketPolicy meta (meta.isDirectoryBucket b.id) b.id btr).1 = .error be)
    (hbnotFound : tfresource.NotFound (some be) = true) :
    (d.isNewResource = false →
      (sagemaker.resourceNotebookInstanceRead conn d tr).d = d.SetId "" ∧
      (sagemaker.resourceNotebookInstanceRead conn d tr).d.id = "" ∧
      (sagemaker.resourceNotebookInstanceRead conn d tr).diags = []) ∧
    (d.isNewResource = true →
      (sagemaker.resourceNotebookInstanceRead conn d tr).diags
        = [{ severity := .Error,
             summary := "reading SageMaker AI Notebook Instance (" ++ d.id ++ "): " ++ e.text }] ∧
      (sagemaker.resourceNotebookInstanceRead conn d tr).d = d ∧
      (sagemaker.resourceNotebookInstanceRead conn d tr).d.id = d.id) ∧
    (b.isNewResource = false →
      (s3.resourceBucketPolicyRead meta b btr).d = b.SetId "" ∧
      (s3.resourceBucketPolicyRead meta b btr).d.id = "" ∧
      (s3.resourceBucketPolicyRead meta b btr).diags = []) ∧
    (b.isNewResource = true →
      (s3.resourceBucketPolicyRead meta b btr).diags
        = [{ severity := .Error,
             summary := "reading S3 Bucket Policy (" ++ b.id ++ "): " ++ be.text }] ∧
      (s3.resourceBucketPolicyRead meta b btr).d = b ∧
      (s3.resourceBucketPolicyRead meta b btr).d.id = b.id) := by
  have hb : (if meta.isDirectoryBucket b.id = true then true else false)
      = meta.isDirectoryBucket b.id := by
    cases meta.isDirectoryBucket b.id <;> rfl
  refine ⟨fun hnew => ?_, fun hnew => ?_, fun hnew => ?_, fun hnew => ?_⟩
  · simp only [sagemaker.resourceNotebookInstanceRead]
    rw [sagemaker.findNotebookInstanceByName_of_fst hfind]
    simp [sagemaker.errOf, hnotFound, hnew, sagemaker.ResourceData.SetId]
  · simp only [sagemaker.resourceNotebookInstanceRead]
    rw [sagemaker.findNotebookInstanceByName_of_fst hfind]
    simp [sagemaker.errOf, hnew, sdkdiag.AppendErrorf]
  · simp only [s3.resourceBucketPolicyRead, hb]
    rw [s3.findBucketPolicy_of_fst hbfind]
    simp [s3.errOf, hbnotFound, hnew, s3.ResourceData.SetId]
  · simp only [s3.resourceBucketPolicyRead, hb]
    rw [s3.findBucketPolicy_of_fst hbfind]
    simp [s3.errOf, hnew, sdkdiag.AppendErrorf]

/-- C6, at a notebook instance and a bucket policy that are gone, read once as existing
resources and once right after creation. -/
theorem read_not_found_witness :
    (sagemaker.resourceNotebookInstanceRead sagemaker.absentClient sagemaker.sampleData []).d.id
      = "" ∧
    (s3.resourceBucketPolicyRead s3.noPolicyClient s3.sampleNewData []).diags
      = [{ severity := .Error,
           summary := "reading S3 Bucket Policy (my-bucket): couldn't find resource" }] :=
  have h := read_not_found sagemaker.absentClient sagemaker.sampleData []
    (.notFound (.api "ValidationException" "RecordNotFound: no such notebook instance"))
    s3.noPolicyClient s3.sampleNewData [] (.notFound (.api "NoSuchBucketPolicy" "no policy"))
    rfl (by decide) rfl (by decide)
  ⟨(h.1 rfl).2.1, (h.2.2.2 rfl).1⟩

/-! ## Messages of the error diagnostics -/

namespace sagemaker

theorem strContains_append_mid (a handle b c : String) :
    strContains (a ++ handle ++ b ++ c) handle := by
  unfold strContains
  refine ⟨a.data, b.data ++ c.data, ?_⟩
  simp [String.data_append]

theorem strContains_append_last (a c : String) : strContains (a ++ c) c := by
  unfold strContains
  refine ⟨a.data, [], ?_⟩
  simp [String.data_append]

theorem strContains_append_first (a c : String) : strContains (a ++ c) a := by
  unfold strContains
  refine ⟨[], c.data, ?_⟩
  simp [String.data_append]

set_option maxRecDepth 20000 in
/-- C7 (as stated, refuted). When the remote system rejects `CreateNotebookInstance`, the
error diagnostic of `resourceNotebookInstanceCreate` reads
`creating SageMaker AI Notebook Instance: ` followed by the error text: it names the
operation and the cause, but the notebook instance name `nb` does not occur in it.
Likewise, when the field writer refuses the fetched
`instance_metadata_service_configuration`, the error diagnostic of
`resourceNotebookInstanceRead` for the resource `nb` reads
`setting instance_metadata_service_configuration: ` followed by the error text, and the
resource ID does not occur in it. -/
theorem create_error_without_handle_counterexample :
    sampleNewData.new.name = "nb" ∧
    (resourceNotebookInstanceCreate failingCreateClient sampleNewData []).diags
      = [{ severity := .Error,
           summary := "creating SageMaker AI Notebook Instance: "
             ++ "api error ResourceLimitExceeded: quota reached" }] ∧
    (∃ diag ∈ (resourceNotebookInstanceCreate failingCreateClient sampleNewData []).diags,
      diag.severity = .Error ∧ ¬ strContains diag.summary sampleNewData.new.name) ∧
    sampleData.id = "nb" ∧
    (resourceNotebookInstanceRead refusingWriterClient sampleData []).diags
      = [{ severity := .Error,
           summary := "setting instance_metadata_service_configuration: "
             ++ (Error.errorString "value refused").text }] ∧
    ∃ diag ∈ (resourceNotebookInstanceRead refusingWriterClient sampleData []).diags,
      diag.severity = .Error ∧ ¬ strContains diag.summary sampleData.id := by
  refine ⟨rfl, by decide, ⟨_, List.mem_singleton.mpr rfl, rfl, by decide⟩, rfl, by decide,
    ⟨_, List.mem_singleton.mpr rfl, rfl, by decide⟩⟩

/-! ## Creating a notebook instance -/

/-- C8. `resourceNotebookInstanceCreate` reads only after the wait for InService has
succeeded.  When `CreateNotebookInstance` fails, the create request is the only request
and one error diagnostic is returned; when the wait fails, the requests are the create and
the wait and one error diagnostic is returned; a describe is issued only if both succeeded,
and then it follows the wait and is keyed by the new ID. -/
theorem create_reads_only_after_wait (conn : Client) (d : ResourceData) (tr : List Call) :
    (∀ e, conn.CreateNotebookInstance tr (createInput conn d) = some e →
      (resourceNotebookInstanceCreate conn d tr).diags
        = [{ severity := .Error,
             summary := "creating SageMaker AI Notebook Instance: " ++ e.text }] ∧
      (resourceNotebookInstanceCreate conn d tr).trace
        = tr ++ [Call.CreateNotebookInstance (createInput conn d)]) ∧
    (conn.CreateNotebookInstance tr (createInput conn d) = none →
      ∀ e, conn.waitNotebookInstanceInService
          (tr ++ [Call.CreateNotebookInstance (createInput conn d)]) d.new.name = some e →
      (resourceNotebookInstanceCreate conn d tr).diags
        = [{ severity := .Error,
             summary := "waiting for SageMaker AI Notebook Instance (" ++ d.new.name
               ++ ") create: " ++ e.text }] ∧
      (resourceNotebookInstanceCreate conn d tr).trace
        = tr ++ [Call.CreateNotebookInstance (createInput conn d),
            Call.waitInService d.new.name]) ∧
    (conn.CreateNotebookInstance tr (createInput conn d) = none →
      conn.waitNotebookInstanceInService
          (tr ++ [Call.CreateNotebookInstance (createInput conn d)]) d.new.name = none →
      (resourceNotebookInstanceCreate conn d tr).trace
        = tr ++ [Call.CreateNotebookInstance (createInput conn d),
            Call.waitInService d.new.name,
            Call.DescribeNotebookInstance (some d.new.name)]) ∧
    ((∃ c ∈ (resourceNotebookInstanceCreate conn d tr).trace.drop tr.length,
        c.isDescribe = true) →
      conn.CreateNotebookInstance tr (createInput conn d) = none ∧
      conn.waitNotebookInstanceInService
          (tr ++ [Call.CreateNotebookInstance (createInput conn d)]) d.new.name = none) := by
  cases hc : conn.CreateNotebookInstance tr (createInput conn d) with
  | some e =>
    simp [resourceNotebookInstanceCreate, Client.sendCreate, hc, sdkdiag.AppendErrorf,
      Call.isDescribe]
  | none =>
    cases hw : conn.waitNotebookInstanceInService
        (tr ++ [Call.CreateNotebookInstance (createInput conn d)]) d.new.name with
    | some e2 =>
      simp [resourceNotebookInstanceCreate, Client.sendCreate, waitNotebookInstanceInService,
        ResourceData.SetId, hc, hw, sdkdiag.AppendErrorf, Call.isDescribe]
    | none =>
      simp [resourceNotebookInstanceCreate, Client.sendCreate, waitNotebookInstanceInService,
        ResourceData.SetId, hc, hw, resourceNotebookInstanceRead_trace]

/-- C8, at a remote system that rejects the create request and at one whose wait for
InService fails: no describe is issued. -/
theorem create_reads_only_after_wait_witness :
    (resourceNotebookInstanceCreate failingCreateClient sampleNewData []).trace
      = [Call.CreateNotebookInstance (createInput failingCreateClient sampleNewData)] ∧
    (resourceNotebookInstanceCreate neverInServiceClient sampleNewData []).trace
      = [Call.CreateNotebookInstance (createInput neverInServiceClient sampleNewData),
          Call.waitInService "nb"] :=
  ⟨((create_reads_only_after_wait failingCreateClient sampleNewData []).1 _ rfl).2,
   ((create_reads_only_after_wait neverInServiceClient sampleNewData []).2.1 rfl _ rfl).2⟩

end sagemaker

/-! ## The key of the requests -/

namespace sagemaker

/-- Every request of `resourceNotebookInstanceUpdate` is one of: a describe, a stop, a start
or a wait keyed by the resource ID, or the update request built from the resource data. -/
theorem resourceNotebookInstanceUpdate_extends (P : Call → Prop) (conn : Client)
    (d : ResourceData) (tr : List Call)
    (hD : P (Call.DescribeNotebookInstance (some d.id)))
    (hS : P (Call.StopNotebookInstance (some d.id)))
    (hWs : P (Call.waitStopped d.id))
    (hU : P (Call.UpdateNotebookInstance (updateInput d)))
    (hstart : ∀ c, startCalls d.id c → P c) :
    Extends P tr (resourceNotebookInstanceUpdate conn d tr).trace := by
  have hread : ∀ t, Extends P t (resourceNotebookInstanceRead conn d t).trace := by
    intro t
    rw [resourceNotebookInstanceRead_trace]
    exact Extends.snoc _ _ hD
  simp only [resourceNotebookInstanceUpdate]
  split
  · rw [findNotebookInstanceByName_eq]
    have h1 : Extends P tr (tr ++ [Call.DescribeNotebookInstance (some d.id)]) :=
      Extends.snoc _ _ hD
    rcases (findNotebookInstanceByName conn d.id tr).1 with err | notebook
    · exact h1
    · simp only [Client.sendUpdate, waitNotebookInstanceStopped]
      have h2 : Extends P (tr ++ [Call.DescribeNotebookInstance (some d.id)])
          (if notebook.NotebookInstanceStatus ≠ NotebookInstanceStatusStopped then
            stopNotebookInstance conn d.id (tr ++ [Call.DescribeNotebookInstance (some d.id)])
          else (none, tr ++ [Call.DescribeNotebookInstance (some d.id)])).2 := by
        split
        · exact stopNotebookInstance_extends P conn d.id _ hD hS hWs
        · exact Extends.refl _ _
      generalize (if notebook.NotebookInstanceStatus ≠ NotebookInstanceStatusStopped then
            stopNotebookInstance conn d.id (tr ++ [Call.DescribeNotebookInstance (some d.id)])
          else (none, tr ++ [Call.DescribeNotebookInstance (some d.id)])) = p2 at h2 ⊢
      rcases p2 with ⟨_ | e2, tr2⟩
      · have h3 : Extends P tr (tr2 ++ [Call.UpdateNotebookInstance (updateInput d)]) :=
          (h1.trans h2).trans (Extends.snoc _ _ hU)
        simp only []
        rcases conn.UpdateNotebookInstance tr2 (updateInput d) with _ | e3
        · simp only []
          have h4 : Extends P tr (tr2 ++ [Call.UpdateNotebookInstance (updateInput d)]
              ++ [Call.waitStopped d.id]) := h3.trans (Extends.snoc _ _ hWs)
          rcases conn.waitNotebookInstanceStopped
              (tr2 ++ [Call.UpdateNotebookInstance (updateInput d)]) d.id with _ | e4
          · simp only []
            have h5 : Extends P (tr2 ++ [Call.UpdateNotebookInstance (updateInput d)]
                ++ [Call.waitStopped d.id])
                (if notebook.NotebookInstanceStatus = NotebookInstanceStatusInService then
                  startNotebookInstance conn d.id
                    (tr2 ++ [Call.UpdateNotebookInstance (updateInput d)]
                      ++ [Call.waitStopped d.id])
                else (none, tr2 ++ [Call.UpdateNotebookInstance (updateInput d)]
                      ++ [Call.waitStopped d.id])).2 := by
              split
              · exact (startNotebookInstance_extends conn d.id _).mono hstart
              · exact Extends.refl _ _
            generalize (if notebook.NotebookInstanceStatus = NotebookInstanceStatusInService then
                  startNotebookInstance conn d.id
                    (tr2 ++ [Call.UpdateNotebookInstance (updateInput d)]
                      ++ [Call.waitStopped d.id])
                else (none, tr2 ++ [Call.UpdateNotebookInstance (updateInput d)]
                      ++ [Call.waitStopped d.id])) = p5 at h5 ⊢
            rcases p5 with ⟨_ | e5, tr5⟩
            · exact (h4.trans h5).trans (hread tr5)
            · exact h4.trans h5
          · exact h4
        · exact h3
      · exact h1.trans h2
  · exact hread tr

/-- Every request of `resourceNotebookInstanceDelete` is a describe, a stop, a delete or a
wait keyed by the resource ID. -/
theorem resourceNotebookInstanceDelete_extends (P : Call → Prop) (conn : Client)
    (d : ResourceData) (tr : List Call)
    (hD : P (Call.DescribeNotebookInstance (some d.id)))
    (hS : P (Call.StopNotebookInstance (some d.id)))
    (hWs : P (Call.waitStopped d.id))
    (hDel : P (Call.DeleteNotebookInstance (some d.id)))
    (hWd : P (Call.waitDeleted d.id)) :
    Extends P tr (resourceNotebookInstanceDelete conn d tr).trace := by
  simp only [resourceNotebookInstanceDelete]
  rw [findNotebookInstanceByName_eq]
  have h1 : Extends P tr (tr ++ [Call.DescribeNotebookInstance (some d.id)]) :=
    Extends.snoc _ _ hD
  simp only []
  split
  · exact h1
  · rcases (findNotebookInstanceByName conn d.id tr).1 with err | notebook
    · exact h1
    · simp only [Client.sendDelete, waitNotebookInstanceDeleted]
      have h2 : Extends P (tr ++ [Call.DescribeNotebookInstance (some d.id)])
          (if notebook.NotebookInstanceStatus = NotebookInstanceStatusInService then
            stopNotebookInstance conn d.id (tr ++ [Call.DescribeNotebookInstance (some d.id)])
          else (none, tr ++ [Call.DescribeNotebookInstance (some d.id)])).2 := by
        split
        · exact stopNotebookInstance_extends P conn d.id _ hD hS hWs
        · exact Extends.refl _ _
      generalize (if notebook.NotebookInstanceStatus = NotebookInstanceStatusInService then
            stopNotebookInstance conn d.id (tr ++ [Call.DescribeNotebookInstance (some d.id)])
          else (none, tr ++ [Call.DescribeNotebookInstance (some d.id)])) = p2 at h2 ⊢
      rcases p2 with ⟨_ | e2, tr2⟩
      · have h3 : Extends P tr (tr2 ++ [Call.DeleteNotebookInstance (some d.id)]) :=
          (h1.trans h2).trans (Extends.snoc _ _ hDel)
        simp only []
        rcases conn.DeleteNotebookInstance tr2 (some d.id) with _ | e3
        · simp only []
          have h4 : Extends P tr (tr2 ++ [Call.DeleteNotebookInstance (some d.id)]
              ++ [Call.waitDeleted d.id]) := h3.trans (Extends.snoc _ _ hWd)
          rcases conn.waitNotebookInstanceDeleted
              (tr2 ++ [Call.DeleteNotebookInstance (some d.id)]) d.id with _ | e4
          · exact h4
          · exact h4
        · exact h3
      · exact h1.trans h2

end sagemaker

namespace sagemaker

/-- The update request is keyed by the `name` attribute of the resource data. -/
theorem updateInput_name (d : ResourceData) :
    (updateInput d).NotebookInstanceName = some d.new.name := by
  unfold updateInput
  lift_lets
  intro i0 i1 i2 l i3 i4 i5 i6 i7 i8
  have h0 : i0.NotebookInstanceName = some d.new.name := rfl
  have h1 : i1.NotebookInstanceName = some d.new.name := by
    simp only [i1]; split_ifs <;> exact h0
  have h2 : i2.NotebookInstanceName = some d.new.name := by
    simp only [i2]; split_ifs <;> exact h1
  have h3 : i3.NotebookInstanceName = some d.new.name := by
    simp only [i3]; split_ifs <;> exact h2
  have h4 : i4.NotebookInstanceName = some d.new.name := by
    simp only [i4]; split_ifs <;> exact h3
  have h5 : i5.NotebookInstanceName = some d.new.name := by
    simp only [i5]; split_ifs <;> exact h4
  have h6 : i6.NotebookInstanceName = some d.new.name := by
    simp only [i6]; split_ifs <;> exact h5
  have h7 : i7.NotebookInstanceName = some d.new.name := by
    simp only [i7]; split_ifs <;> exact h6
  simp only [i8]; split_ifs <;> exact h7

/-- C9 (as stated, refuted). For a resource whose ID is `nb-id` and whose `name` attribute
is `nb-name`, the `UpdateNotebookInstance` request of the update is keyed by `nb-name`,
not by the ID. -/
theorem update_request_keyed_by_name_counterexample :
    sampleRenamedData.id = "nb-id" ∧
    ∃ c ∈ (resourceNotebookInstanceUpdate runningClient sampleRenamedData []).trace,
      c.key = some "nb-name" ∧ c.key ≠ some sampleRenamedData.id :=
  ⟨rfl, Call.UpdateNotebookInstance (updateInput sampleRenamedData), by decide, by decide,
    by decide⟩

/-- C9 (amended). Every request of the delete, and every request of the update other than
`UpdateNotebookInstance` (describe, stop, start and each wait), is keyed by the resource ID;
the `UpdateNotebookInstance` request is keyed by the `name` attribute.  So all requests of
the update are keyed by the resource ID whenever the `name` attribute equals the ID. -/
theorem requests_keyed_by_id_except_update (conn : Client) (d : ResourceData)
    (tr : List Call) :
    (∀ c ∈ (resourceNotebookInstanceDelete conn d tr).trace.drop tr.length,
      c.key = some d.id) ∧
    (∀ c ∈ (resourceNotebookInstanceUpdate conn d tr).trace.drop tr.length,
      (c.isUpdate = false → c.key = some d.id) ∧
      (c.isUpdate = true → c.key = some d.new.name)) ∧
    (d.new.name = d.id →
      ∀ c ∈ (resourceNotebookInstanceUpdate conn d tr).trace.drop tr.length,
        c.key = some d.id) := by
  have hupd := (resourceNotebookInstanceUpdate_extends
    (fun c => (c.isUpdate = false → c.key = some d.id) ∧
      (c.isUpdate = true → c.key = some d.new.name)) conn d tr
    (by simp [Call.isUpdate, Call.key]) (by simp [Call.isUpdate, Call.key])
    (by simp [Call.isUpdate, Call.key])
    (by simp [Call.isUpdate, Call.key, updateInput_name])
    (by
      rintro c (rfl | rfl | rfl) <;> simp [Call.isUpdate, Call.key])).drop
  refine ⟨?_, hupd, fun hname c hc => ?_⟩
  · exact (resourceNotebookInstanceDelete_extends (fun c => c.key = some d.id) conn d tr
      rfl rfl rfl rfl rfl).drop
  · have h := hupd c hc
    cases hu : c.isUpdate with
    | false => exact h.1 hu
    | true => rw [← hname]; exact h.2 hu

/-- C9 (amended), at the resource whose name differs from its ID: the stop request of
the update is keyed by the ID, the update request by the name. -/
theorem requests_keyed_by_id_except_update_witness :
    (Call.StopNotebookInstance (some "nb-id")).key = some sampleRenamedData.id ∧
    (Call.UpdateNotebookInstance (updateInput sampleRenamedData)).key
      = some sampleRenamedData.new.name :=
  have h := (requests_keyed_by_id_except_update runningClient sampleRenamedData []).2.1
  ⟨(h (Call.StopNotebookInstance (some "nb-id")) (by decide)).1 rfl,
   (h (Call.UpdateNotebookInstance (updateInput sampleRenamedData)) (by decide)).2 rfl⟩

end sagemaker

/-! ## Deleting a bucket policy -/

namespace s3

/-- C10. `resourceBucketPolicyDelete` issues `DeleteBucketPolicy` first.  When that fails
with the error code NoSuchBucket it returns no diagnostics and the delete request stays
its only request (no wait); for every other error it returns one error diagnostic; and
when the request succeeds it returns no diagnostics exactly when the retry-until-Not-Found
wait on `findBucketPolicy` ends without error. -/
theorem bucket_policy_delete_outcomes (meta : AWSClient) (d : ResourceData) (tr : List Call) :
    (tfawserr.ErrCodeEquals
        (meta.DeleteBucketPolicy tr (meta.isDirectoryBucket d.id) (some d.id))
        [errCodeNoSuchBucket] = true →
      resourceBucketPolicyDelete meta d tr
        = { diags := [], d := d,
            trace := tr ++ [Call.DeleteBucketPolicy (meta.isDirectoryBucket d.id) (some d.id)] }) ∧
    (∀ e, meta.DeleteBucketPolicy tr (meta.isDirectoryBucket d.id) (some d.id) = some e →
      tfawserr.ErrCodeEquals (some e) [errCodeNoSuchBucket] = false →
      resourceBucketPolicyDelete meta d tr
        = { diags := [{ severity := .Error,
                        summary := "deleting S3 Bucket Policy (" ++ d.id ++ "): " ++ e.text }],
            d := d,
            trace := tr ++ [Call.DeleteBucketPolicy (meta.isDirectoryBucket d.id) (some d.id)] }) ∧
    (meta.DeleteBucketPolicy tr (meta.isDirectoryBucket d.id) (some d.id) = none →
      ((resourceBucketPolicyDelete meta d tr).diags = [] ↔
        (meta.RetryUntilNotFound
          (fun t => findBucketPolicy meta (meta.isDirectoryBucket d.id) d.id t)
          (tr ++ [Call.DeleteBucketPolicy (meta.isDirectoryBucket d.id) (some d.id)])).1
          = none)) := by
  have hb : (if meta.isDirectoryBucket d.id = true then true else false)
      = meta.isDirectoryBucket d.id := by
    cases meta.isDirectoryBucket d.id <;> rfl
  refine ⟨fun h => ?_, fun e he hcode => ?_, fun hok => ?_⟩
  · simp [resourceBucketPolicyDelete, h]
  · simp [resourceBucketPolicyDelete, he, hcode, sdkdiag.AppendErrorf]
  · simp only [resourceBucketPolicyDelete, hb, hok, tfawserr.ErrCodeEquals]
    generalize meta.RetryUntilNotFound
      (fun t => findBucketPolicy meta (meta.isDirectoryBucket d.id) d.id t)
      (tr ++ [Call.DeleteBucketPolicy (meta.isDirectoryBucket d.id) (some d.id)]) = p
    rcases p with ⟨_ | e, tr2⟩ <;> simp [sdkdiag.AppendErrorf]

/-- C10, at a bucket that is gone, at a denied delete, at a policy that disappears after
the delete and at one that stays readable. -/
theorem bucket_policy_delete_outcomes_witness :
    (resourceBucketPolicyDelete noBucketClient sampleData []).diags = [] ∧
    (resourceBucketPolicyDelete noBucketClient sampleData []).trace
      = [Call.DeleteBucketPolicy false (some "my-bucket")] ∧
    (resourceBucketPolicyDelete deniedClient sampleData []).diags
      = [{ severity := .Error,
           summary := "deleting S3 Bucket Policy (my-bucket): api error AccessDenied: not allowed" }] ∧
    (resourceBucketPolicyDelete policyClient sampleData []).diags = [] ∧
    (resourceBucketPolicyDelete lingeringClient sampleData []).diags ≠ [] :=
  have h1 := (bucket_policy_delete_outcomes noBucketClient sampleData []).1 (by decide)
  have h2 := (bucket_policy_delete_outcomes deniedClient sampleData []).2.1 _ rfl (by decide)
  have h3 := (bucket_policy_delete_outcomes policyClient sampleData []).2.2 rfl
  have h4 := (bucket_policy_delete_outcomes lingeringClient sampleData []).2.2 rfl
  ⟨by rw [h1], by rw [h1]; rfl, by rw [h2]; rfl, h3.mpr (by decide),
    fun h => absurd (h4.mp h) (by decide)⟩

end s3

/-! ## Putting a bucket policy -/

namespace s3

/-- The read leaves the ID as it is, except that for a resource that is not new it clears
the ID when the find reports Not-Found. -/
theorem resourceBucketPolicyRead_id (meta : AWSClient) (d : ResourceData) (tr : List Call) :
    (resourceBucketPolicyRead meta d tr).d.id = d.id ∨
    ((resourceBucketPolicyRead meta d tr).d.id = "" ∧ d.isNewResource = false ∧
      tfresource.NotFound
        (errOf (findBucketPolicy meta (meta.isDirectoryBucket d.id) d.id tr).1) = true) := by
  have hb : (if meta.isDirectoryBucket d.id = true then true else false)
      = meta.isDirectoryBucket d.id := by
    cases meta.isDirectoryBucket d.id <;> rfl
  simp only [resourceBucketPolicyRead, hb]
  rw [findBucketPolicy_of_fst rfl]
  simp only []
  cases hnew : d.isNewResource with
  | true =>
    left
    simp only [Bool.not_true, Bool.false_and, Bool.false_eq_true, if_false]
    repeat' split
    all_goals rfl
  | false =>
    cases hnf : tfresource.NotFound
        (errOf (findBucketPolicy meta (meta.isDirectoryBucket d.id) d.id tr).1) with
    | true =>
      right
      simp [ResourceData.SetId]
    | false =>
      left
      simp only [Bool.not_false, Bool.true_and, Bool.false_eq_true, if_false]
      repeat' split
      all_goals rfl

end s3

namespace s3

/-- C11 (as stated, refuted). For an existing resource whose put succeeds, the read that
ends `resourceBucketPolicyPut` finds no policy and clears the ID: the handle `my-bucket`
assigned at creation is not left unchanged. -/
theorem bucket_policy_put_clears_id_counterexample :
    sampleData.isNewResource = false ∧
    sampleData.id = "my-bucket" ∧
    (resourceBucketPolicyPut noPolicyClient sampleData []).trace
      = [Call.PutBucketPolicy false (some "my-bucket") (some "{}"),
          Call.GetBucketPolicy false (some "my-bucket")] ∧
    (resourceBucketPolicyPut noPolicyClient sampleData []).diags = [] ∧
    (resourceBucketPolicyPut noPolicyClient sampleData []).d.id = "" ∧
    (resourceBucketPolicyPut noPolicyClient sampleData []).d.id ≠ sampleData.id := by
  decide

/-- C11 (amended). `resourceBucketPolicyPut` assigns the ID (the configured bucket) and runs
the retry-while-Not-Found check on `findBucketPolicy` exactly when the policy document
normalizes, the put succeeds and the resource is new; then the ID it returns is the bucket.
When the normalization or the put fails it returns the resource data unchanged with one
error diagnostic.  For an existing resource it hands the unchanged resource data to the
read, so the ID stays as it was unless that read reports Not-Found and clears it.  Whenever
the resource is not new or the put failed, the outcome does not depend on the
retry-while-Not-Found helper. -/
theorem bucket_policy_put_assigns_id_when_new (meta : AWSClient) (d : ResourceData)
    (tr : List Call) :
    (∀ e, meta.NormalizeJsonString d.policy = .error e →
      ∀ h, resourceBucketPolicyPut { meta with RetryWhenNotFound := h } d tr
        = { diags := [{ severity := .Error, summary := e.text }], d := d, trace := tr }) ∧
    (∀ policy perr tr1, meta.NormalizeJsonString d.policy = .ok policy →
      meta.RetryWhenAWSErrCodeEquals
        (fun t => (meta.PutBucketPolicy t (meta.isDirectoryBucket d.bucket) (some d.bucket)
            (some policy),
          t ++ [Call.PutBucketPolicy (meta.isDirectoryBucket d.bucket) (some d.bucket)
            (some policy)]))
        [errCodeMalformedPolicy, errCodeNoSuchBucket] tr = (perr, tr1) →
      (∀ e, perr = some e →
        ∀ h, resourceBucketPolicyPut { meta with RetryWhenNotFound := h } d tr
          = { diags := [{ severity := .Error,
                          summary := "putting S3 Bucket (" ++ d.bucket ++ ") Policy: "
                            ++ e.text }],
              d := d, trace := tr1 }) ∧
      (perr = none → d.isNewResource = false →
        (∀ h, resourceBucketPolicyPut { meta with RetryWhenNotFound := h } d tr
          = resourceBucketPolicyRead meta d tr1) ∧
        ((resourceBucketPolicyPut meta d tr).d.id = d.id ∨
          ((resourceBucketPolicyPut meta d tr).d.id = "" ∧
            tfresource.NotFound
              (errOf (findBucketPolicy meta (meta.isDirectoryBucket d.id) d.id tr1).1)
              = true))) ∧
      (perr = none → d.isNewResource = true →
        (resourceBucketPolicyPut meta d tr).d.id = d.bucket ∧
        resourceBucketPolicyPut meta d tr =
          match meta.RetryWhenNotFound
              (fun t => findBucketPolicy meta (meta.isDirectoryBucket d.bucket) d.bucket t)
              tr1 with
          | (some err, tr2) =>
            { diags := [{ severity := .Error,
                          summary := "waiting for S3 Bucket Policy (" ++ d.bucket
                            ++ ") create: " ++ err.text }],
              d := d.SetId d.bucket, trace := tr2 }
          | (none, tr2) => resourceBucketPolicyRead meta (d.SetId d.bucket) tr2)) := by
  have hb : (if meta.isDirectoryBucket d.bucket = true then true else false)
      = meta.isDirectoryBucket d.bucket := by
    cases meta.isDirectoryBucket d.bucket <;> rfl
  refine ⟨fun e he h => ?_, fun policy perr tr1 hnorm hput => ⟨fun e hperr h => ?_,
    fun hperr hnew => ⟨fun h => ?_, ?_⟩, fun hperr hnew => ?_⟩⟩
  · simp [resourceBucketPolicyPut, he, sdkdiag.AppendFromErr]
  · subst hperr
    simp [resourceBucketPolicyPut, hnorm, hb, hput, sdkdiag.AppendErrorf]
  · subst hperr
    simp only [resourceBucketPolicyPut, hnorm, hb, hput, hnew]
    simp [resourceBucketPolicyRead, findBucketPolicy]
  · subst hperr
    have hP : resourceBucketPolicyPut meta d tr = resourceBucketPolicyRead meta d tr1 := by
      simp only [resourceBucketPolicyPut, hnorm, hb, hput, hnew]
      simp
    rw [hP]
    rcases resourceBucketPolicyRead_id meta d tr1 with h | ⟨h1, -, h2⟩
    · exact Or.inl h
    · exact Or.inr ⟨h1, h2⟩
  · subst hperr
    have hP : resourceBucketPolicyPut meta d tr =
        match meta.RetryWhenNotFound
            (fun t => findBucketPolicy meta (meta.isDirectoryBucket d.bucket) d.bucket t)
            tr1 with
        | (some err, tr2) =>
          { diags := [{ severity := .Error,
                        summary := "waiting for S3 Bucket Policy (" ++ d.bucket
                          ++ ") create: " ++ err.text }],
            d := d.SetId d.bucket, trace := tr2 }
        | (none, tr2) => resourceBucketPolicyRead meta (d.SetId d.bucket) tr2 := by
      simp only [resourceBucketPolicyPut, hnorm, hb, hput, hnew, if_true]
      generalize meta.RetryWhenNotFound
        (fun t => findBucketPolicy meta (meta.isDirectoryBucket d.bucket) d.bucket t) tr1 = p
      rcases p with ⟨_ | e, tr2⟩ <;> simp [sdkdiag.AppendErrorf, ResourceData.SetId]
    refine ⟨?_, hP⟩
    rw [hP]
    generalize meta.RetryWhenNotFound
      (fun t => findBucketPolicy meta (meta.isDirectoryBucket d.bucket) d.bucket t) tr1 = p
    rcases p with ⟨_ | e, tr2⟩
    · rcases resourceBucketPolicyRead_id meta (d.SetId d.bucket) tr2 with h | ⟨-, h, -⟩
      · exact h
      · simp [ResourceData.SetId, hnew] at h
    · rfl

end s3

namespace s3

/-- C11 (amended), at the create of a bucket policy: the ID returned is the bucket. -/
theorem bucket_policy_put_assigns_id_when_new_witness :
    sampleUnsetData.id = "" ∧
    (resourceBucketPolicyPut lingeringClient sampleUnsetData []).d.id = "my-bucket" :=
  ⟨rfl, (((bucket_policy_put_assigns_id_when_new lingeringClient sampleUnsetData []).2
    "{}" none [Call.PutBucketPolicy false (some "my-bucket") (some "{}")] rfl rfl).2.2
    rfl rfl).1⟩

end s3

/-! ## The state waiter -/

namespace waiter

/-- C12. A wait specification whose target and failure statuses share a status cannot be
made into a waiter: the construction ends with the configuration error, and a wait asked
for with that specification invokes the fetch function zero times. -/
theorem overlapping_specification_rejected (spec : WaitSpecification)
    (fetch : Nat → FetchResult) (cancelAt : Option Nat) (s : Status)
    (htarget : s ∈ spec.target) (hfailure : s ∈ spec.failure) :
    newWaiter spec = .error .ConfigurationError ∧
    waitFor spec fetch cancelAt = (.error .ConfigurationError, 0) := by
  have h : spec.target.any (fun s => decide (s ∈ spec.failure)) = true :=
    List.any_eq_true.mpr ⟨s, htarget, by simpa using hfailure⟩
  have hn : newWaiter spec = .error .ConfigurationError := by
    simp [newWaiter, h]
  exact ⟨hn, by simp [waitFor, hn]⟩

/-- C12, at a specification that lists Failed on both sides. -/
theorem overlapping_specification_rejected_witness :
    waitFor overlappingSpecification (fetchPendingThen 0 (.status "InService")) none
      = (.error .ConfigurationError, 0) :=
  (overlapping_specification_rejected overlappingSpecification _ none "Failed"
    (by decide) (by decide)).2

/-- A constructed waiter has no status that is both target and failure. -/
theorem newWaiter_ok {spec : WaitSpecification} {w : Waiter} (h : newWaiter spec = .ok w) :
    w.spec = spec ∧ ∀ s, s ∈ spec.failure → s ∉ spec.target := by
  unfold newWaiter at h
  split at h
  · cases h
  · rename_i hany
    injection h with h
    subst h
    refine ⟨rfl, fun s hf ht => hany ?_⟩
    exact List.any_eq_true.mpr ⟨s, ht, by simpa using hf⟩

/-- The polling loop passes over results that are statuses outside both sets, as long as
polls remain and the wait is not cancelled. -/
theorem pollLoop_pending (spec : WaitSpecification) (fetch : Nat → FetchResult)
    (cancelAt : Option Nat) (k : Nat) :
    ∀ remaining calls,
      (∀ j, j < k → Pending spec (fetch (calls + j))) →
      (∀ j, j < k → cancelled cancelAt (calls + j) = false) →
      pollLoop spec fetch cancelAt (remaining + k) calls
        = pollLoop spec fetch cancelAt remaining (calls + k) := by
  induction k with
  | zero => intro remaining calls _ _; rfl
  | succ k ih =>
    intro remaining calls hp hc
    obtain ⟨s, hs, hnt, hnf⟩ := hp 0 (Nat.succ_pos k)
    have hc0 := hc 0 (Nat.succ_pos k)
    simp only [Nat.add_zero] at hs hc0
    have hstep : pollLoop spec fetch cancelAt (remaining + k + 1) calls
        = pollLoop spec fetch cancelAt (remaining + k) (calls + 1) := by
      rw [pollLoop]
      simp [hc0, hs, hnt, hnf]
    rw [← Nat.add_assoc, hstep, ih remaining (calls + 1)]
    · rw [Nat.add_assoc, Nat.add_comm 1 k]
    · intro j hj
      have := hp (j + 1) (Nat.succ_lt_succ hj)
      rwa [Nat.add_assoc, Nat.add_comm 1 j]
    · intro j hj
      have := hc (j + 1) (Nat.succ_lt_succ hj)
      rwa [Nat.add_assoc, Nat.add_comm 1 j]

end waiter

namespace waiter

/-- The poll that follows `k` pending results, made within the timeout and before any
cancellation, is decided by its own result. -/
theorem wait_after_pending (spec : WaitSpecification) (w : Waiter)
    (fetch : Nat → FetchResult) (cancelAt : Option Nat) (k : Nat)
    (hw : newWaiter spec = .ok w) (hbudget : k + 1 ≤ maxPolls spec)
    (hcancel : ∀ j, j < k + 1 → cancelled cancelAt j = false)
    (hpending : ∀ j, j < k → Pending spec (fetch j)) :
    w.wait fetch cancelAt =
      match fetch k with
      | .notFound => (.error .NotFound, k + 1)
      | .status s =>
        if s ∈ spec.target then (.ok s, k + 1)
        else if s ∈ spec.failure then (.error (.TerminalFailure s), k + 1)
        else pollLoop spec fetch cancelAt (maxPolls spec - (k + 1)) (k + 1) := by
  obtain ⟨hspec, -⟩ := newWaiter_ok hw
  have hsplit : maxPolls spec = (maxPolls spec - (k + 1) + 1) + k := by omega
  unfold Waiter.wait
  rw [hspec]
  conv_lhs => rw [hsplit]
  rw [pollLoop_pending spec fetch cancelAt k (maxPolls spec - (k + 1) + 1) 0
    (fun j hj => by simpa using hpending j hj)
    (fun j hj => by simpa using hcancel j (Nat.lt_succ_of_lt hj))]
  rw [pollLoop]
  simp [hcancel k (Nat.lt_succ_self k)]

/-- C13 (as stated, refuted). With a timeout of two polls, a fetch function whose first two
results are Pending and whose third result is the failure status Failed is invoked twice
and the wait ends with Timeout, not with Terminal-Failure after three invocations. -/
theorem terminal_failure_beyond_timeout_counterexample :
    newWaiter sampleSpecification = .ok { spec := sampleSpecification } ∧
    (∀ j, j < 2 → Pending sampleSpecification (fetchPendingThen 2 (.status "Failed") j)) ∧
    fetchPendingThen 2 (.status "Failed") 2 = .status "Failed" ∧
    "Failed" ∈ sampleSpecification.failure ∧
    waitFor sampleSpecification (fetchPendingThen 2 (.status "Failed")) none
      = (.error .Timeout, 2) ∧
    waitFor sampleSpecification (fetchPendingThen 2 (.status "Failed")) none
      ≠ (.error (.TerminalFailure "Failed"), 3) := by
  refine ⟨rfl, ?_, rfl, by decide, rfl, ?_⟩
  · intro j hj
    refine ⟨"Pending", ?_, by decide, by decide⟩
    have hne : j ≠ 2 := by omega
    simp [fetchPendingThen, hne]
  · have h : waitFor sampleSpecification (fetchPendingThen 2 (.status "Failed")) none
        = (.error .Timeout, 2) := rfl
    rw [h]
    intro hcontra
    cases hcontra

/-- C13 (amended). For every N of at least one such that N polls fit into the timeout and
the wait is not cancelled before its N-th poll, and for every fetch function whose first
N-1 results are statuses outside the target and the failure statuses and whose N-th
result is a failure status, the waiter returns Terminal-Failure for that status after
exactly N invocations of the fetch function. -/
theorem terminal_failure_after_n_fetches (spec : WaitSpecification) (w : Waiter)
    (fetch : Nat → FetchResult) (cancelAt : Option Nat) (N : Nat) (sf : Status)
    (hw : newWaiter spec = .ok w) (hN : 1 ≤ N) (hbudget : N ≤ maxPolls spec)
    (hcancel : ∀ j, j < N → cancelled cancelAt j = false)
    (hpending : ∀ j, j < N - 1 → Pending spec (fetch j))
    (hfail : fetch (N - 1) = .status sf) (hsf : sf ∈ spec.failure) :
    w.wait fetch cancelAt = (.error (.TerminalFailure sf), N) ∧
    waitFor spec fetch cancelAt = (.error (.TerminalFailure sf), N) := by
  obtain ⟨k, rfl⟩ : ∃ k, N = k + 1 := ⟨N - 1, by omega⟩
  simp only [Nat.add_sub_cancel] at hpending hfail
  have hnt : sf ∉ spec.target := (newWaiter_ok hw).2 sf hsf
  have h := wait_after_pending spec w fetch cancelAt k hw hbudget hcancel hpending
  rw [hfail] at h
  simp only [hnt, hsf, if_false, if_true] at h
  exact ⟨h, by simp [waitFor, hw, h]⟩

/-- C13 (amended), at a failure on the second of two polls. -/
theorem terminal_failure_after_n_fetches_witness :
    waitFor sampleSpecification (fetchPendingThen 1 (.status "Failed")) none
      = (.error (.TerminalFailure "Failed"), 2) :=
  (terminal_failure_after_n_fetches sampleSpecification { spec := sampleSpecification }
    (fetchPendingThen 1 (.status "Failed")) none 2 "Failed" rfl (by decide) (by decide)
    (fun _ _ => rfl)
    (fun j hj => ⟨"Pending", by
      have hj0 : j = 0 := by omega
      subst hj0
      rfl, by decide, by decide⟩)
    rfl (by decide)).2

end waiter

namespace waiter

/-- C14. No error value passes both the Not-Found test (`tfresource.NotFound`, used by the
delete) and the Timed-Out test (`tfresource.TimedOut`, used by `startNotebookInstance`).
A wait whose fetch function reports Not-Found at a poll made within the timeout and before
any cancellation, after pending results only, ends with the Not-Found condition at that
poll; this condition differs from Timeout and from Terminal-Failure, and the error that
carries it passes the Not-Found test and fails the Timed-Out test, while the error of a
Timeout passes only the Timed-Out test and the error of a Terminal-Failure neither. -/
theorem not_found_distinct_from_timeout :
    (∀ e : Error,
      ¬ (tfresource.NotFound (some e) = true ∧ tfresource.TimedOut (some e) = true)) ∧
    (∀ (spec : WaitSpecification) (w : Waiter) (fetch : Nat → FetchResult)
        (cancelAt : Option Nat) (N : Nat),
      newWaiter spec = .ok w → 1 ≤ N → N ≤ maxPolls spec →
      (∀ j, j < N → cancelled cancelAt j = false) →
      (∀ j, j < N - 1 → Pending spec (fetch j)) →
      fetch (N - 1) = .notFound →
      w.wait fetch cancelAt = (.error .NotFound, N)) ∧
    (Condition.NotFound ≠ Condition.Timeout ∧
      ∀ s, Condition.NotFound ≠ Condition.TerminalFailure s) ∧
    (tfresource.NotFound (some Condition.NotFound.toError) = true ∧
      tfresource.TimedOut (some Condition.NotFound.toError) = false) ∧
    (tfresource.NotFound (some Condition.Timeout.toError) = false ∧
      tfresource.TimedOut (some Condition.Timeout.toError) = true) ∧
    (∀ s, tfresource.NotFound (some (Condition.TerminalFailure s).toError) = false ∧
      tfresource.TimedOut (some (Condition.TerminalFailure s).toError) = false) := by
  refine ⟨?_, ?_, ⟨by decide, fun s h => by cases h⟩, ⟨rfl, rfl⟩, ⟨rfl, rfl⟩,
    fun s => ⟨rfl, rfl⟩⟩
  · rintro e ⟨h1, h2⟩
    cases e <;> simp [tfresource.TimedOut] at h2
    simp [tfresource.NotFound, tfresource.isNotFoundError] at h1
  · intro spec w fetch cancelAt N hw hN hbudget hcancel hpending hnf
    obtain ⟨k, rfl⟩ : ∃ k, N = k + 1 := ⟨N - 1, by omega⟩
    simp only [Nat.add_sub_cancel] at hpending hnf
    have h := wait_after_pending spec w fetch cancelAt k hw hbudget hcancel hpending
    rw [hnf] at h
    exact h

/-- C14, at a wait whose second poll reports Not-Found. -/
theorem not_found_distinct_from_timeout_witness :
    ({ spec := sampleSpecification } : Waiter).wait (fetchPendingThen 1 .notFound) none
      = (.error .NotFound, 2) :=
  not_found_distinct_from_timeout.2.1 sampleSpecification { spec := sampleSpecification }
    (fetchPendingThen 1 .notFound) none 2 rfl (by decide) (by decide)
    (fun _ _ => rfl)
    (fun j hj => ⟨"Pending", by
      have hj0 : j = 0 := by omega
      subst hj0
      rfl, by decide, by decide⟩)
    rfl

end waiter

/-! ## Starting and stopping a notebook instance -/

namespace sagemaker

/-- C15. Whatever the start requests and the waits for started answer, a nil result of
`startNotebookInstance` means that its last step was a wait for InService and that this
wait succeeded. -/
theorem startNotebookInstance_nil_only_after_in_service (conn : Client) (id : String)
    (tr : List Call) (hnil : (startNotebookInstance conn id tr).1 = none) :
    ∃ tr1, Extends (startCalls id) tr tr1 ∧
      (startNotebookInstance conn id tr).2 = tr1 ++ [Call.waitInService id] ∧
      conn.waitNotebookInstanceInService tr1 id = none := by
  have hp := retry.RetryContext_extends (startCalls id)
    (startNotebookInstanceAttempt conn id (some id))
    (startNotebookInstanceAttempt_extends conn id) conn.startRetryAttempts none tr
  simp only [startNotebookInstance] at hnil ⊢
  generalize retry.RetryContext conn.startRetryAttempts
    (startNotebookInstanceAttempt conn id (some id)) none tr = p at hp hnil ⊢
  rcases p with ⟨err, tr1⟩
  simp only [Client.sendStart, waitNotebookInstanceStarted, waitNotebookInstanceInService]
    at hnil ⊢
  simp only at hp
  by_cases ht : tfresource.TimedOut err = true
  · simp only [ht, if_true] at hnil ⊢
    cases hs : conn.StartNotebookInstance tr1 (some id) with
    | some e => simp [hs] at hnil
    | none =>
      simp only [hs] at hnil ⊢
      cases hw : conn.waitNotebookInstanceStarted
          (tr1 ++ [Call.StartNotebookInstance (some id)]) id with
      | some e => simp [hw] at hnil
      | none =>
        simp only [hw] at hnil ⊢
        cases hi : conn.waitNotebookInstanceInService
            (tr1 ++ [Call.StartNotebookInstance (some id)] ++ [Call.waitStarted id]) id with
        | some e =>
          rw [hi] at hnil
          simp at hnil
        | none =>
          refine ⟨tr1 ++ [Call.StartNotebookInstance (some id)] ++ [Call.waitStarted id],
            ?_, by simp [hi], hi⟩
          exact (hp.trans (Extends.snoc _ _ (Or.inl rfl))).trans
            (Extends.snoc _ _ (Or.inr (Or.inl rfl)))
  · simp only [ht] at hnil ⊢
    cases hi : conn.waitNotebookInstanceInService tr1 id with
    | some e => simp [hi] at hnil
    | none => exact ⟨tr1, hp, by simp [hi], hi⟩

/-- C15, at a well-behaved remote system. -/
theorem startNotebookInstance_nil_only_after_in_service_witness :
    ∃ tr1, (startNotebookInstance runningClient "nb" []).2 = tr1 ++ [Call.waitInService "nb"] ∧
      runningClient.waitNotebookInstanceInService tr1 "nb" = none :=
  have ⟨tr1, _, h2, h3⟩ :=
    startNotebookInstance_nil_only_after_in_service runningClient "nb" [] rfl
  ⟨tr1, h2, h3⟩

end sagemaker

namespace sagemaker

/-- C17. `stopNotebookInstance` describes the notebook first.  When the fetch reports
Not-Found or the status Stopped it returns nil and issues nothing else; any other fetch
error is returned as it is, again with no further request.  When the fetch succeeds with
another status the next request is the stop request: its error is returned at once,
otherwise the wait for Stopped follows and nil is returned exactly when that wait
succeeded.  So a stop request is issued if and only if the fetch succeeded with a status
other than Stopped. -/
theorem stopNotebookInstance_cases (conn : Client) (id : String) (tr : List Call) :
    (∀ e, (findNotebookInstanceByName conn id tr).1 = .error e →
      (tfresource.NotFound (some e) = true →
        stopNotebookInstance conn id tr
          = (none, tr ++ [Call.DescribeNotebookInstance (some id)])) ∧
      (tfresource.NotFound (some e) = false →
        stopNotebookInstance conn id tr
          = (some e, tr ++ [Call.DescribeNotebookInstance (some id)]))) ∧
    (∀ o, (findNotebookInstanceByName conn id tr).1 = .ok o →
      (o.NotebookInstanceStatus = NotebookInstanceStatusStopped →
        stopNotebookInstance conn id tr
          = (none, tr ++ [Call.DescribeNotebookInstance (some id)])) ∧
      (o.NotebookInstanceStatus ≠ NotebookInstanceStatusStopped →
        (∀ e, conn.StopNotebookInstance (tr ++ [Call.DescribeNotebookInstance (some id)])
            (some id) = some e →
          stopNotebookInstance conn id tr
            = (some (.errorString ("stopping: " ++ e.text)),
                tr ++ [Call.DescribeNotebookInstance (some id),
                  Call.StopNotebookInstance (some id)])) ∧
        (conn.StopNotebookInstance (tr ++ [Call.DescribeNotebookInstance (some id)])
            (some id) = none →
          (∀ e, conn.waitNotebookInstanceStopped
              (tr ++ [Call.DescribeNotebookInstance (some id),
                Call.StopNotebookInstance (some id)]) id = some e →
            stopNotebookInstance conn id tr
              = (some (.errorString ("stopping: waiting for completion: " ++ e.text)),
                  tr ++ [Call.DescribeNotebookInstance (some id),
                    Call.StopNotebookInstance (some id), Call.waitStopped id])) ∧
          (conn.waitNotebookInstanceStopped
              (tr ++ [Call.DescribeNotebookInstance (some id),
                Call.StopNotebookInstance (some id)]) id = none →
            stopNotebookInstance conn id tr
              = (none,
                  tr ++ [Call.DescribeNotebookInstance (some id),
                    Call.StopNotebookInstance (some id), Call.waitStopped id]))))) ∧
    ((∃ c ∈ (stopNotebookInstance conn id tr).2.drop tr.length, c.isStop = true) ↔
      ∃ o, (findNotebookInstanceByName conn id tr).1 = .ok o ∧
        o.NotebookInstanceStatus ≠ NotebookInstanceStatusStopped) := by
  have hE : ∀ e, (findNotebookInstanceByName conn id tr).1 = .error e →
      stopNotebookInstance conn id tr
        = (if tfresource.NotFound (some e) = true then none else some e,
            tr ++ [Call.DescribeNotebookInstance (some id)]) := by
    intro e he
    simp only [stopNotebookInstance]
    rw [findNotebookInstanceByName_of_fst he]
    simp only []
    split <;> rfl
  have hS : ∀ o, (findNotebookInstanceByName conn id tr).1 = .ok o →
      o.NotebookInstanceStatus = NotebookInstanceStatusStopped →
      stopNotebookInstance conn id tr
        = (none, tr ++ [Call.DescribeNotebookInstance (some id)]) := by
    intro o ho hst
    simp only [stopNotebookInstance]
    rw [findNotebookInstanceByName_of_fst ho]
    simp [hst]
  have hN : ∀ o, (findNotebookInstanceByName conn id tr).1 = .ok o →
      o.NotebookInstanceStatus ≠ NotebookInstanceStatusStopped →
      stopNotebookInstance conn id tr
        = match conn.StopNotebookInstance (tr ++ [Call.DescribeNotebookInstance (some id)])
            (some id) with
          | some e =>
            (some (.errorString ("stopping: " ++ e.text)),
              tr ++ [Call.DescribeNotebookInstance (some id),
                Call.StopNotebookInstance (some id)])
          | none =>
            match conn.waitNotebookInstanceStopped
                (tr ++ [Call.DescribeNotebookInstance (some id),
                  Call.StopNotebookInstance (some id)]) id with
            | some e =>
              (some (.errorString ("stopping: waiting for completion: " ++ e.text)),
                tr ++ [Call.DescribeNotebookInstance (some id),
                  Call.StopNotebookInstance (some id), Call.waitStopped id])
            | none =>
              (none, tr ++ [Call.DescribeNotebookInstance (some id),
                Call.StopNotebookInstance (some id), Call.waitStopped id]) := by
    intro o ho hst
    simp only [stopNotebookInstance]
    rw [findNotebookInstanceByName_of_fst ho]
    simp only [hst, if_false, Client.sendStop, waitNotebookInstanceStopped]
    cases hs : conn.StopNotebookInstance (tr ++ [Call.DescribeNotebookInstance (some id)])
        (some id) with
    | some e => simp
    | none =>
      simp only [List.append_assoc, List.singleton_append]
      cases hw : conn.waitNotebookInstanceStopped
          (tr ++ [Call.DescribeNotebookInstance (some id),
            Call.StopNotebookInstance (some id)]) id with
      | some e => simp
      | none => simp
  refine ⟨fun e he => ⟨fun hnf => ?_, fun hnf => ?_⟩,
    fun o ho => ⟨hS o ho, fun hst => ⟨fun e hs => ?_, fun hs => ⟨fun e hw => ?_, fun hw => ?_⟩⟩⟩,
    ⟨?_, ?_⟩⟩
  · rw [hE e he]; simp [hnf]
  · rw [hE e he]; simp [hnf]
  · rw [hN o ho hst, hs]
  · rw [hN o ho hst, hs, hw]
  · rw [hN o ho hst, hs, hw]
  · rintro ⟨c, hc, hstop⟩
    rcases hres : (findNotebookInstanceByName conn id tr).1 with e | o
    · rw [hE e hres] at hc
      simp only [List.drop_left, List.mem_singleton] at hc
      subst hc
      cases hstop
    · refine ⟨o, rfl, fun hst => ?_⟩
      rw [hS o hres hst] at hc
      simp only [List.drop_left, List.mem_singleton] at hc
      subst hc
      cases hstop
  · rintro ⟨o, ho, hst⟩
    refine ⟨Call.StopNotebookInstance (some id), ?_, rfl⟩
    rw [hN o ho hst]
    cases conn.StopNotebookInstance (tr ++ [Call.DescribeNotebookInstance (some id)])
        (some id) with
    | some e => simp
    | none =>
      cases conn.waitNotebookInstanceStopped
          (tr ++ [Call.DescribeNotebookInstance (some id),
            Call.StopNotebookInstance (some id)]) id with
      | some e => simp
      | none => simp

/-- C17, at a running notebook, at a stopped one and at one that is gone. -/
theorem stopNotebookInstance_cases_witness :
    stopNotebookInstance runningClient "nb" []
      = (none, [Call.DescribeNotebookInstance (some "nb"),
          Call.StopNotebookInstance (some "nb"), Call.waitStopped "nb"]) ∧
    stopNotebookInstance stoppedClient "nb" []
      = (none, [Call.DescribeNotebookInstance (some "nb")]) ∧
    stopNotebookInstance absentClient "nb" []
      = (none, [Call.DescribeNotebookInstance (some "nb")]) :=
  ⟨((((stopNotebookInstance_cases runningClient "nb" []).2.1
      (sampleOutput "nb" NotebookInstanceStatusInService) rfl).2 (by decide)).2 rfl).2 rfl,
   ((stopNotebookInstance_cases stoppedClient "nb" []).2.1
      (sampleOutput "nb" NotebookInstanceStatusStopped) rfl).1 rfl,
   ((stopNotebookInstance_cases absentClient "nb" []).1
      (.notFound (.api "ValidationException" "RecordNotFound: no such notebook instance"))
      rfl).1 (by decide)⟩

end sagemaker

namespace sagemaker

/-- C19. In the body that `startNotebookInstance` retries, an error of the start request
is made non-retryable and ends the loop with that error after the start request; an error
of the wait for started is made retryable, so that a loop with an attempt left issues the
start request again; and a successful wait ends the loop with nil after the start request
and the wait, with no further start request. -/
theorem startNotebookInstanceAttempt_classification (conn : Client) (id : String)
    (t : List Call) (n : Nat) (r : Option Error) :
    (∀ e, conn.StartNotebookInstance t (some id) = some e →
      startNotebookInstanceAttempt conn id (some id) t
        = (some { Err := .errorString ("starting: " ++ e.text), Retryable := false },
            t ++ [Call.StartNotebookInstance (some id)]) ∧
      retry.RetryContext (n + 1) (startNotebookInstanceAttempt conn id (some id)) r t
        = (some (.errorString ("starting: " ++ e.text)),
            t ++ [Call.StartNotebookInstance (some id)])) ∧
    (conn.StartNotebookInstance t (some id) = none →
      (∀ e, conn.waitNotebookInstanceStarted (t ++ [Call.StartNotebookInstance (some id)]) id
          = some e →
        startNotebookInstanceAttempt conn id (some id) t
          = (some { Err := .errorString ("starting: waiting for completion: " ++ e.text),
                    Retryable := true },
              t ++ [Call.StartNotebookInstance (some id), Call.waitStarted id]) ∧
        retry.RetryContext (n + 1) (startNotebookInstanceAttempt conn id (some id)) r t
          = retry.RetryContext n (startNotebookInstanceAttempt conn id (some id))
              (some (.errorString ("starting: waiting for completion: " ++ e.text)))
              (t ++ [Call.StartNotebookInstance (some id), Call.waitStarted id]) ∧
        t ++ [Call.StartNotebookInstance (some id), Call.waitStarted id,
            Call.StartNotebookInstance (some id)]
          <+: (retry.RetryContext (n + 2) (startNotebookInstanceAttempt conn id (some id))
                r t).2) ∧
      (conn.waitNotebookInstanceStarted (t ++ [Call.StartNotebookInstance (some id)]) id
          = none →
        startNotebookInstanceAttempt conn id (some id) t
          = (none, t ++ [Call.StartNotebookInstance (some id), Call.waitStarted id]) ∧
        retry.RetryContext (n + 1) (startNotebookInstanceAttempt conn id (some id)) r t
          = (none, t ++ [Call.StartNotebookInstance (some id), Call.waitStarted id]))) := by
  refine ⟨fun e hs => ?_, fun hs => ⟨fun e hw => ?_, fun hw => ?_⟩⟩
  · have ha : startNotebookInstanceAttempt conn id (some id) t
        = (some { Err := .errorString ("starting: " ++ e.text), Retryable := false },
            t ++ [Call.StartNotebookInstance (some id)]) := by
      simp [startNotebookInstanceAttempt, Client.sendStart, hs, retry.NonRetryableError]
    refine ⟨ha, ?_⟩
    rw [retry.RetryContext, ha]
    simp
  · have ha : ∀ t', t' = t → startNotebookInstanceAttempt conn id (some id) t'
        = (some { Err := .errorString ("starting: waiting for completion: " ++ e.text),
                  Retryable := true },
            t ++ [Call.StartNotebookInstance (some id), Call.waitStarted id]) := by
      rintro t' rfl
      simp [startNotebookInstanceAttempt, Client.sendStart, hs, waitNotebookInstanceStarted,
        hw, retry.RetryableError]
    have hstep : ∀ m r', retry.RetryContext (m + 1)
          (startNotebookInstanceAttempt conn id (some id)) r' t
        = retry.RetryContext m (startNotebookInstanceAttempt conn id (some id))
            (some (.errorString ("starting: waiting for completion: " ++ e.text)))
            (t ++ [Call.StartNotebookInstance (some id), Call.waitStarted id]) := by
      intro m r'
      rw [retry.RetryContext, ha t rfl]
      simp
    refine ⟨ha t rfl, hstep n r, ?_⟩
    rw [hstep (n + 1) r, retry.RetryContext]
    rcases startNotebookInstanceAttempt_trace conn id
      (t ++ [Call.StartNotebookInstance (some id), Call.waitStarted id]) with h | h
    · have hpre : t ++ [Call.StartNotebookInstance (some id), Call.waitStarted id,
          Call.StartNotebookInstance (some id)]
          <+: (startNotebookInstanceAttempt conn id (some id)
            (t ++ [Call.StartNotebookInstance (some id), Call.waitStarted id])).2 := by
        rw [h]; simp
      rcases hft : startNotebookInstanceAttempt conn id (some id)
        (t ++ [Call.StartNotebookInstance (some id), Call.waitStarted id]) with ⟨res, t1⟩
      rw [hft] at hpre
      cases res with
      | none => exact hpre
      | some rerr =>
        by_cases hr : rerr.Retryable = true
        · simp only [hr, if_true]
          exact hpre.trans (retry.RetryContext_extends (startCalls id) _
            (startNotebookInstanceAttempt_extends conn id) n _ t1).isPrefix
        · simp only [hr]
          exact hpre
    · have hpre : t ++ [Call.StartNotebookInstance (some id), Call.waitStarted id,
          Call.StartNotebookInstance (some id)]
          <+: (startNotebookInstanceAttempt conn id (some id)
            (t ++ [Call.StartNotebookInstance (some id), Call.waitStarted id])).2 := by
        rw [h]
        exact ⟨[Call.waitStarted id], by simp⟩
      rcases hft : startNotebookInstanceAttempt conn id (some id)
        (t ++ [Call.StartNotebookInstance (some id), Call.waitStarted id]) with ⟨res, t1⟩
      rw [hft] at hpre
      cases res with
      | none => exact hpre
      | some rerr =>
        by_cases hr : rerr.Retryable = true
        · simp only [hr, if_true]
          exact hpre.trans (retry.RetryContext_extends (startCalls id) _
            (startNotebookInstanceAttempt_extends conn id) n _ t1).isPrefix
        · simp only [hr]
          exact hpre
  · have ha : startNotebookInstanceAttempt conn id (some id) t
        = (none, t ++ [Call.StartNotebookInstance (some id), Call.waitStarted id]) := by
      simp [startNotebookInstanceAttempt, Client.sendStart, hs, waitNotebookInstanceStarted, hw]
    refine ⟨ha, ?_⟩
    rw [retry.RetryContext, ha]

end sagemaker

namespace sagemaker

/-- C19, at a remote system whose waits for started fail and at one that rejects the start
request: the first issues the start request twice, the second once. -/
theorem startNotebookInstanceAttempt_classification_witness :
    [Call.StartNotebookInstance (some "nb"), Call.waitStarted "nb",
        Call.StartNotebookInstance (some "nb")]
      <+: (retry.RetryContext 2
            (startNotebookInstanceAttempt neverStartedClient "nb" (some "nb")) none []).2 ∧
    retry.RetryContext 1 (startNotebookInstanceAttempt failingStartClient "nb" (some "nb"))
        none []
      = (some (.errorString "starting: api error InternalFailure: try again later"),
          [Call.StartNotebookInstance (some "nb")]) :=
  ⟨(((startNotebookInstanceAttempt_classification neverStartedClient "nb" [] 0 none).2
      rfl).1 _ rfl).2.2,
   ((startNotebookInstanceAttempt_classification failingStartClient "nb" [] 0 none).1
      _ rfl).2⟩

/-! ## The order of the steps of the update and of the delete -/

theorem updateStopStep_extends (P : Call → Prop) (conn : Client) (d : ResourceData)
    (status : NotebookInstanceStatus) (tr1 : List Call)
    (hD : P (Call.DescribeNotebookInstance (some d.id)))
    (hS : P (Call.StopNotebookInstance (some d.id)))
    (hW : P (Call.waitStopped d.id)) :
    Extends P tr1 (updateStopStep conn d status tr1).2 := by
  unfold updateStopStep
  split
  · exact stopNotebookInstance_extends P conn d.id _ hD hS hW
  · exact Extends.refl _ _

theorem deleteStopStep_extends (P : Call → Prop) (conn : Client) (d : ResourceData)
    (status : NotebookInstanceStatus) (tr1 : List Call)
    (hD : P (Call.DescribeNotebookInstance (some d.id)))
    (hS : P (Call.StopNotebookInstance (some d.id)))
    (hW : P (Call.waitStopped d.id)) :
    Extends P tr1 (deleteStopStep conn d status tr1).2 := by
  unfold deleteStopStep
  split
  · exact stopNotebookInstance_extends P conn d.id _ hD hS hW
  · exact Extends.refl _ _

/-- The update of a non-tag change after a successful fetch, step by step. -/
theorem resourceNotebookInstanceUpdate_eq (conn : Client) (d : ResourceData) (tr : List Call)
    (o : DescribeNotebookInstanceOutput)
    (hchg : d.HasChangesExceptTags = true)
    (hfetch : (findNotebookInstanceByName conn d.id tr).1 = .ok o) :
    resourceNotebookInstanceUpdate conn d tr =
      match updateStopStep conn d o.NotebookInstanceStatus
          (tr ++ [Call.DescribeNotebookInstance (some d.id)]) with
      | (some err, tr2) =>
        { diags := [{ severity := .Error,
                      summary := "updating SageMaker AI Notebook Instance (" ++ d.id ++ "): "
                        ++ err.text }],
          d := d, trace := tr2 }
      | (none, tr2) =>
        match conn.UpdateNotebookInstance tr2 (updateInput d) with
        | some err =>
          { diags := [{ severity := .Error,
                        summary := "updating SageMaker AI Notebook Instance (" ++ d.id ++ "): "
                          ++ err.text }],
            d := d, trace := tr2 ++ [Call.UpdateNotebookInstance (updateInput d)] }
        | none =>
          match conn.waitNotebookInstanceStopped
              (tr2 ++ [Call.UpdateNotebookInstance (updateInput d)]) d.id with
          | some err =>
            { diags := [{ severity := .Error,
                          summary := "waiting for SageMaker AI Notebook Instance (" ++ d.id
                            ++ ") to stop: " ++ err.text }],
              d := d,
              trace := tr2 ++ [Call.UpdateNotebookInstance (updateInput d),
                Call.waitStopped d.id] }
          | none =>
            match updateStartStep conn d o.NotebookInstanceStatus
                (tr2 ++ [Call.UpdateNotebookInstance (updateInput d),
                  Call.waitStopped d.id]) with
            | (some err, tr5) =>
              { diags := [{ severity := .Error,
                            summary := "updating SageMaker AI Notebook Instance (" ++ d.id
                              ++ "): " ++ err.text }],
                d := d, trace := tr5 }
            | (none, tr5) => resourceNotebookInstanceRead conn d tr5 := by
  simp only [resourceNotebookInstanceUpdate, hchg, if_true]
  rw [findNotebookInstanceByName_of_fst hfetch]
  simp only [updateStopStep, updateStartStep, Client.sendUpdate, waitNotebookInstanceStopped,
    sdkdiag.AppendErrorf, List.nil_append]
  generalize (if o.NotebookInstanceStatus ≠ NotebookInstanceStatusStopped then
      stopNotebookInstance conn d.id (tr ++ [Call.DescribeNotebookInstance (some d.id)])
    else (none, tr ++ [Call.DescribeNotebookInstance (some d.id)])) = p2
  rcases p2 with ⟨_ | e2, tr2⟩
  · simp only []
    cases conn.UpdateNotebookInstance tr2 (updateInput d) with
    | some e3 => rfl
    | none =>
      simp only []
      cases conn.waitNotebookInstanceStopped
          (tr2 ++ [Call.UpdateNotebookInstance (updateInput d)]) d.id with
      | some e4 => simp
      | none => simp only [List.append_assoc, List.singleton_append]
  · rfl

end sagemaker

namespace sagemaker

/-- C16. The steps of `resourceNotebookInstanceUpdate` for a non-tag change run in the order
fetch, stop step, update request, wait for Stopped, start step, read, and the first step
that fails ends the update: the function then returns one error diagnostic and its history
ends with the requests of that step.  So the update request is issued only if the fetch
and the stop step succeeded, and a start request only if, besides, the update request and
the wait for Stopped that follows it succeeded and the fetched status was InService. -/
theorem update_steps_gated (conn : Client) (d : ResourceData) (tr : List Call)
    (hchg : d.HasChangesExceptTags = true) :
    (∀ e, (findNotebookInstanceByName conn d.id tr).1 = .error e →
      (resourceNotebookInstanceUpdate conn d tr).diags
        = [{ severity := .Error,
             summary := "updating SageMaker AI Notebook Instance (" ++ d.id ++ "): "
               ++ e.text }] ∧
      (resourceNotebookInstanceUpdate conn d tr).trace
        = tr ++ [Call.DescribeNotebookInstance (some d.id)]) ∧
    (∀ o p2, (findNotebookInstanceByName conn d.id tr).1 = .ok o →
      updateStopStep conn d o.NotebookInstanceStatus
        (tr ++ [Call.DescribeNotebookInstance (some d.id)]) = p2 →
      (∀ e, p2.1 = some e →
        (resourceNotebookInstanceUpdate conn d tr).diags
          = [{ severity := .Error,
               summary := "updating SageMaker AI Notebook Instance (" ++ d.id ++ "): "
                 ++ e.text }] ∧
        (resourceNotebookInstanceUpdate conn d tr).trace = p2.2) ∧
      (p2.1 = none →
        (∀ e, conn.UpdateNotebookInstance p2.2 (updateInput d) = some e →
          (resourceNotebookInstanceUpdate conn d tr).diags
            = [{ severity := .Error,
                 summary := "updating SageMaker AI Notebook Instance (" ++ d.id ++ "): "
                   ++ e.text }] ∧
          (resourceNotebookInstanceUpdate conn d tr).trace
            = p2.2 ++ [Call.UpdateNotebookInstance (updateInput d)]) ∧
        (conn.UpdateNotebookInstance p2.2 (updateInput d) = none →
          (∀ e, conn.waitNotebookInstanceStopped
              (p2.2 ++ [Call.UpdateNotebookInstance (updateInput d)]) d.id = some e →
            (resourceNotebookInstanceUpdate conn d tr).diags
              = [{ severity := .Error,
                   summary := "waiting for SageMaker AI Notebook Instance (" ++ d.id
                     ++ ") to stop: " ++ e.text }] ∧
            (resourceNotebookInstanceUpdate conn d tr).trace
              = p2.2 ++ [Call.UpdateNotebookInstance (updateInput d),
                  Call.waitStopped d.id]) ∧
          (conn.waitNotebookInstanceStopped
              (p2.2 ++ [Call.UpdateNotebookInstance (updateInput d)]) d.id = none →
            ∀ p5, updateStartStep conn d o.NotebookInstanceStatus
                (p2.2 ++ [Call.UpdateNotebookInstance (updateInput d),
                  Call.waitStopped d.id]) = p5 →
              (∀ e, p5.1 = some e →
                (resourceNotebookInstanceUpdate conn d tr).diags
                  = [{ severity := .Error,
                       summary := "updating SageMaker AI Notebook Instance (" ++ d.id
                         ++ "): " ++ e.text }] ∧
                (resourceNotebookInstanceUpdate conn d tr).trace = p5.2) ∧
              (p5.1 = none →
                resourceNotebookInstanceUpdate conn d tr
                  = resourceNotebookInstanceRead conn d p5.2))))) ∧
    ((∃ c ∈ (resourceNotebookInstanceUpdate conn d tr).trace.drop tr.length,
        c.isUpdate = true) →
      ∃ o, (findNotebookInstanceByName conn d.id tr).1 = .ok o ∧
        (updateStopStep conn d o.NotebookInstanceStatus
          (tr ++ [Call.DescribeNotebookInstance (some d.id)])).1 = none) ∧
    ((∃ c ∈ (resourceNotebookInstanceUpdate conn d tr).trace.drop tr.length,
        c.isStart = true) →
      ∃ o, (findNotebookInstanceByName conn d.id tr).1 = .ok o ∧
        o.NotebookInstanceStatus = NotebookInstanceStatusInService ∧
        (updateStopStep conn d o.NotebookInstanceStatus
          (tr ++ [Call.DescribeNotebookInstance (some d.id)])).1 = none ∧
        conn.UpdateNotebookInstance
          (updateStopStep conn d o.NotebookInstanceStatus
            (tr ++ [Call.DescribeNotebookInstance (some d.id)])).2 (updateInput d) = none ∧
        conn.waitNotebookInstanceStopped
          ((updateStopStep conn d o.NotebookInstanceStatus
            (tr ++ [Call.DescribeNotebookInstance (some d.id)])).2
            ++ [Call.UpdateNotebookInstance (updateInput d)]) d.id = none) := by
  have hE : ∀ e, (findNotebookInstanceByName conn d.id tr).1 = .error e →
      resourceNotebookInstanceUpdate conn d tr
        = { diags := [{ severity := .Error,
                        summary := "updating SageMaker AI Notebook Instance (" ++ d.id
                          ++ "): " ++ e.text }],
            d := d, trace := tr ++ [Call.DescribeNotebookInstance (some d.id)] } := by
    intro e he
    simp only [resourceNotebookInstanceUpdate, hchg, if_true]
    rw [findNotebookInstanceByName_of_fst he]
    rfl
  -- the history of the stop step holds neither an update nor a start request
  have hext : ∀ status, Extends (fun c : Call => c.isUpdate = false ∧ c.isStart = false) tr
      (updateStopStep conn d status (tr ++ [Call.DescribeNotebookInstance (some d.id)])).2 :=
    fun status => (Extends.snoc _ _ ⟨rfl, rfl⟩).trans
      (updateStopStep_extends _ conn d status _ ⟨rfl, rfl⟩ ⟨rfl, rfl⟩ ⟨rfl, rfl⟩)
  refine ⟨fun e he => by rw [hE e he]; exact ⟨rfl, rfl⟩, ?_, ?_, ?_⟩
  · rintro o ⟨e2, tr2⟩ ho hp2
    have hU := resourceNotebookInstanceUpdate_eq conn d tr o hchg ho
    rw [hp2] at hU
    refine ⟨fun e he => ?_, fun hnone => ⟨fun e hu => ?_, fun hu => ⟨fun e hw => ?_,
      fun hw p5 hp5 => ⟨fun e he5 => ?_, fun he5 => ?_⟩⟩⟩⟩
    · simp only at he; subst he; rw [hU]; simp
    · simp only at hnone hu; subst hnone; rw [hU]; simp [hu]
    · simp only at hnone hu hw; subst hnone; rw [hU]; simp [hu, hw]
    · simp only at hnone hu hw hp5; subst hnone
      rcases p5 with ⟨e5, tr5⟩
      simp only at he5; subst he5
      rw [hU]; simp [hu, hw, hp5]
    · simp only at hnone hu hw hp5; subst hnone
      rcases p5 with ⟨e5, tr5⟩
      simp only at he5; subst he5
      rw [hU]; simp [hu, hw, hp5]
  · rintro ⟨c, hc, hcu⟩
    rcases hres : (findNotebookInstanceByName conn d.id tr).1 with e | o
    · rw [hE e hres] at hc
      simp only [List.drop_left, List.mem_singleton] at hc
      subst hc; cases hcu
    · refine ⟨o, rfl, ?_⟩
      have hU := resourceNotebookInstanceUpdate_eq conn d tr o hchg hres
      have hx := (hext o.NotebookInstanceStatus).drop
      rcases hp2 : updateStopStep conn d o.NotebookInstanceStatus
        (tr ++ [Call.DescribeNotebookInstance (some d.id)]) with ⟨_ | e2, tr2⟩
      · rfl
      · rw [hp2] at hU hx
        rw [hU] at hc
        have := (hx c hc).1
        rw [this] at hcu; cases hcu
  · rintro ⟨c, hc, hcs⟩
    rcases hres : (findNotebookInstanceByName conn d.id tr).1 with e | o
    · rw [hE e hres] at hc
      simp only [List.drop_left, List.mem_singleton] at hc
      subst hc; cases hcs
    · refine ⟨o, rfl, ?_⟩
      have hU := resourceNotebookInstanceUpdate_eq conn d tr o hchg hres
      have hx := hext o.NotebookInstanceStatus
      rcases hp2 : updateStopStep conn d o.NotebookInstanceStatus
        (tr ++ [Call.DescribeNotebookInstance (some d.id)]) with ⟨_ | e2, tr2⟩
      · rw [hp2] at hU hx
        simp only at hU hx
        cases hu : conn.UpdateNotebookInstance tr2 (updateInput d) with
        | some e3 =>
          exfalso
          rw [hU] at hc
          simp only [hu] at hc
          rcases hx.mem_drop_append _ hc with h | h
          · rw [h.2] at hcs; cases hcs
          · simp only [List.mem_singleton] at h
            subst h; cases hcs
        | none =>
          cases hw : conn.waitNotebookInstanceStopped
              (tr2 ++ [Call.UpdateNotebookInstance (updateInput d)]) d.id with
          | some e4 =>
            exfalso
            rw [hU] at hc
            simp only [hu, hw] at hc
            rcases hx.mem_drop_append _ hc with h | h
            · rw [h.2] at hcs; cases hcs
            · simp only [List.mem_cons, List.mem_singleton, List.not_mem_nil, or_false] at h
              rcases h with h | h <;> (subst h; cases hcs)
          | none =>
            by_cases hin : o.NotebookInstanceStatus = NotebookInstanceStatusInService
            · exact ⟨hin, rfl, rfl, rfl⟩
            · exfalso
              rw [hU] at hc
              simp only [hu, hw, updateStartStep, hin, if_false,
                resourceNotebookInstanceRead_trace, List.append_assoc] at hc
              rcases hx.mem_drop_append _ hc with h | h
              · rw [h.2] at hcs; cases hcs
              · simp only [List.cons_append, List.nil_append, List.mem_cons,
                  List.mem_singleton, List.not_mem_nil, or_false] at h
                rcases h with h | h | h <;> (subst h; cases hcs)
      · exfalso
        rw [hp2] at hU hx
        rw [hU] at hc
        have := (hx.drop c hc).2
        rw [this] at hcs; cases hcs

end sagemaker

namespace sagemaker

/-- C16, at a remote system that rejects the stop request: the update ends with one error
diagnostic after the stop request, and issues neither the update nor a start request. -/
theorem update_steps_gated_witness :
    (resourceNotebookInstanceUpdate failingStopClient sampleData []).diags
      = [{ severity := .Error,
           summary := "updating SageMaker AI Notebook Instance (nb): stopping: "
             ++ "api error ThrottlingException: rate exceeded" }] ∧
    (resourceNotebookInstanceUpdate failingStopClient sampleData []).trace
      = [Call.DescribeNotebookInstance (some "nb"), Call.DescribeNotebookInstance (some "nb"),
          Call.StopNotebookInstance (some "nb")] :=
  (((update_steps_gated failingStopClient sampleData [] (by decide)).2.1
    (sampleOutput "nb" NotebookInstanceStatusInService)
    (some (.errorString "stopping: api error ThrottlingException: rate exceeded"),
      [Call.DescribeNotebookInstance (some "nb"), Call.DescribeNotebookInstance (some "nb"),
        Call.StopNotebookInstance (some "nb")])
    rfl (by decide)).1 _ rfl)

/-- The delete after a successful fetch, step by step. -/
theorem resourceNotebookInstanceDelete_eq (conn : Client) (d : ResourceData) (tr : List Call)
    (o : DescribeNotebookInstanceOutput)
    (hfetch : (findNotebookInstanceByName conn d.id tr).1 = .ok o) :
    resourceNotebookInstanceDelete conn d tr =
      match deleteStopStep conn d o.NotebookInstanceStatus
          (tr ++ [Call.DescribeNotebookInstance (some d.id)]) with
      | (some err, tr2) =>
        { diags := [{ severity := .Error,
                      summary := "stopping SageMaker AI Notebook Instance (" ++ d.id ++ "): "
                        ++ err.text }],
          d := d, trace := tr2 }
      | (none, tr2) =>
        match conn.DeleteNotebookInstance tr2 (some d.id) with
        | some err =>
          { diags := [{ severity := .Error,
                        summary := "deleting SageMaker AI Notebook Instance (" ++ d.id ++ "): "
                          ++ err.text }],
            d := d, trace := tr2 ++ [Call.DeleteNotebookInstance (some d.id)] }
        | none =>
          match conn.waitNotebookInstanceDeleted
              (tr2 ++ [Call.DeleteNotebookInstance (some d.id)]) d.id with
          | some err =>
            { diags := [{ severity := .Error,
                          summary := "waiting for SageMaker AI Notebook Instance (" ++ d.id
                            ++ ") delete: " ++ err.text }],
              d := d,
              trace := tr2 ++ [Call.DeleteNotebookInstance (some d.id),
                Call.waitDeleted d.id] }
          | none =>
            { diags := [], d := d,
              trace := tr2 ++ [Call.DeleteNotebookInstance (some d.id),
                Call.waitDeleted d.id] } := by
  simp only [resourceNotebookInstanceDelete]
  rw [findNotebookInstanceByName_of_fst hfetch]
  simp only [errOf, tfresource.NotFound, Bool.false_eq_true, if_false, deleteStopStep,
    Client.sendDelete, waitNotebookInstanceDeleted, sdkdiag.AppendErrorf, List.nil_append]
  generalize (if o.NotebookInstanceStatus = NotebookInstanceStatusInService then
      stopNotebookInstance conn d.id (tr ++ [Call.DescribeNotebookInstance (some d.id)])
    else (none, tr ++ [Call.DescribeNotebookInstance (some d.id)])) = p2
  rcases p2 with ⟨_ | e2, tr2⟩
  · simp only []
    cases conn.DeleteNotebookInstance tr2 (some d.id) with
    | some e3 => rfl
    | none =>
      simp only []
      cases conn.waitNotebookInstanceDeleted
          (tr2 ++ [Call.DeleteNotebookInstance (some d.id)]) d.id with
      | some e4 => simp
      | none => simp
  · rfl

end sagemaker

namespace sagemaker

/-- C20. When the fetch of `resourceNotebookInstanceDelete` finds the notebook, the stop
step runs `stopNotebookInstance` (whose first request is a second describe) if and only
if the fetched status is InService.  An error of the stop step ends the delete with one
error diagnostic and without a delete request; otherwise the delete request follows, whose
error ends the delete without a wait; otherwise the wait for deleted follows.  So a delete
request is issued only after a successful stop step, the wait is made only after a
successful delete request, and no diagnostic is returned exactly when the stop step, the
delete request and the wait all succeeded. -/
theorem delete_steps_gated (conn : Client) (d : ResourceData) (tr : List Call)
    (o : DescribeNotebookInstanceOutput) (p2 : Option Error × List Call)
    (hfetch : (findNotebookInstanceByName conn d.id tr).1 = .ok o)
    (hp2 : deleteStopStep conn d o.NotebookInstanceStatus
      (tr ++ [Call.DescribeNotebookInstance (some d.id)]) = p2) :
    (o.NotebookInstanceStatus = NotebookInstanceStatusInService →
      p2 = stopNotebookInstance conn d.id (tr ++ [Call.DescribeNotebookInstance (some d.id)])) ∧
    (o.NotebookInstanceStatus ≠ NotebookInstanceStatusInService →
      p2 = (none, tr ++ [Call.DescribeNotebookInstance (some d.id)])) ∧
    ((tr ++ [Call.DescribeNotebookInstance (some d.id),
          Call.DescribeNotebookInstance (some d.id)]
        <+: (resourceNotebookInstanceDelete conn d tr).trace) ↔
      o.NotebookInstanceStatus = NotebookInstanceStatusInService) ∧
    (∀ e, p2.1 = some e →
      (resourceNotebookInstanceDelete conn d tr).diags
        = [{ severity := .Error,
             summary := "stopping SageMaker AI Notebook Instance (" ++ d.id ++ "): "
               ++ e.text }] ∧
      (resourceNotebookInstanceDelete conn d tr).trace = p2.2 ∧
      ∀ c ∈ (resourceNotebookInstanceDelete conn d tr).trace.drop tr.length,
        c.isDelete = false ∧ c ≠ Call.waitDeleted d.id) ∧
    (p2.1 = none →
      (∀ e, conn.DeleteNotebookInstance p2.2 (some d.id) = some e →
        (resourceNotebookInstanceDelete conn d tr).diags
          = [{ severity := .Error,
               summary := "deleting SageMaker AI Notebook Instance (" ++ d.id ++ "): "
                 ++ e.text }] ∧
        (resourceNotebookInstanceDelete conn d tr).trace
          = p2.2 ++ [Call.DeleteNotebookInstance (some d.id)]) ∧
      (conn.DeleteNotebookInstance p2.2 (some d.id) = none →
        (resourceNotebookInstanceDelete conn d tr).trace
          = p2.2 ++ [Call.DeleteNotebookInstance (some d.id), Call.waitDeleted d.id] ∧
        (∀ e, conn.waitNotebookInstanceDeleted
            (p2.2 ++ [Call.DeleteNotebookInstance (some d.id)]) d.id = some e →
          (resourceNotebookInstanceDelete conn d tr).diags
            = [{ severity := .Error,
                 summary := "waiting for SageMaker AI Notebook Instance (" ++ d.id
                   ++ ") delete: " ++ e.text }]) ∧
        (conn.waitNotebookInstanceDeleted
            (p2.2 ++ [Call.DeleteNotebookInstance (some d.id)]) d.id = none →
          (resourceNotebookInstanceDelete conn d tr).diags = []))) ∧
    ((resourceNotebookInstanceDelete conn d tr).diags = [] ↔
      p2.1 = none ∧ conn.DeleteNotebookInstance p2.2 (some d.id) = none ∧
        conn.waitNotebookInstanceDeleted
          (p2.2 ++ [Call.DeleteNotebookInstance (some d.id)]) d.id = none) := by
  have hU := resourceNotebookInstanceDelete_eq conn d tr o hfetch
  rw [hp2] at hU
  have hx : Extends (fun c : Call => c.isDelete = false ∧ c ≠ Call.waitDeleted d.id) tr p2.2 := by
    rw [← hp2]
    exact (Extends.snoc _ _ ⟨rfl, by simp⟩).trans
      (deleteStopStep_extends _ conn d _ _ ⟨rfl, by simp⟩ ⟨rfl, by simp⟩ ⟨rfl, by simp⟩)
  have hpre : tr ++ [Call.DescribeNotebookInstance (some d.id)] <+: p2.2 := by
    rw [← hp2]
    exact (deleteStopStep_extends (fun _ => True) conn d _ _ trivial trivial trivial).isPrefix
  refine ⟨fun hin => ?_, fun hin => ?_, ⟨fun hpfx => ?_, fun hin => ?_⟩, ?_, ?_, ?_⟩
  · rw [← hp2]; simp [deleteStopStep, hin]
  · rw [← hp2]; simp [deleteStopStep, hin]
  · -- a second describe shows that the stop step ran
    by_contra hin
    have h2 : p2 = (none, tr ++ [Call.DescribeNotebookInstance (some d.id)]) := by
      rw [← hp2]; simp [deleteStopStep, hin]
    subst h2
    rw [hU] at hpfx
    simp only [] at hpfx
    cases hdel : conn.DeleteNotebookInstance
        (tr ++ [Call.DescribeNotebookInstance (some d.id)]) (some d.id) with
    | some e3 =>
      simp only [hdel] at hpfx
      simp at hpfx
    | none =>
      simp only [hdel] at hpfx
      cases hw : conn.waitNotebookInstanceDeleted
          (tr ++ [Call.DescribeNotebookInstance (some d.id)]
            ++ [Call.DeleteNotebookInstance (some d.id)]) d.id with
      | some e4 =>
        simp only [hw] at hpfx
        simp at hpfx
      | none =>
        simp only [hw] at hpfx
        simp at hpfx
  · have h2 : p2 = stopNotebookInstance conn d.id
        (tr ++ [Call.DescribeNotebookInstance (some d.id)]) := by
      rw [← hp2]; simp [deleteStopStep, hin]
    have hstop : tr ++ [Call.DescribeNotebookInstance (some d.id),
        Call.DescribeNotebookInstance (some d.id)] <+: p2.2 := by
      rw [h2]
      rcases stopNotebookInstance_trace conn d.id
        (tr ++ [Call.DescribeNotebookInstance (some d.id)]) with h | h | h <;>
        (rw [h]; simp)
    rw [hU]
    rcases p2 with ⟨_ | e2, tr2⟩
    · simp only [] at hstop ⊢
      cases conn.DeleteNotebookInstance tr2 (some d.id) with
      | some e3 => exact hstop.trans (List.prefix_append _ _)
      | none =>
        simp only []
        cases conn.waitNotebookInstanceDeleted
            (tr2 ++ [Call.DeleteNotebookInstance (some d.id)]) d.id with
        | some e4 => exact hstop.trans (List.prefix_append _ _)
        | none => exact hstop.trans (List.prefix_append _ _)
    · exact hstop
  · intro e he
    rcases p2 with ⟨e2, tr2⟩
    simp only at he; subst he
    rw [hU]
    exact ⟨rfl, rfl, hx.drop⟩
  · intro hnone
    rcases p2 with ⟨e2, tr2⟩
    simp only at hnone; subst hnone
    rw [hU]
    simp only []
    refine ⟨fun e hd => by simp [hd], fun hd => ?_⟩
    simp only [hd]
    cases hw : conn.waitNotebookInstanceDeleted
        (tr2 ++ [Call.DeleteNotebookInstance (some d.id)]) d.id with
    | some e4 => simp
    | none => simp
  · rw [hU]
    rcases p2 with ⟨_ | e2, tr2⟩
    · simp only []
      cases hd : conn.DeleteNotebookInstance tr2 (some d.id) with
      | some e3 => simp
      | none =>
        simp only []
        cases hw : conn.waitNotebookInstanceDeleted
            (tr2 ++ [Call.DeleteNotebookInstance (some d.id)]) d.id with
        | some e4 => simp
        | none => simp
    · simp

end sagemaker

namespace sagemaker

/-- C20, at a running notebook: the delete stops it, deletes it, waits, and returns no
diagnostic. -/
theorem delete_steps_gated_witness :
    (resourceNotebookInstanceDelete runningClient sampleData []).diags = [] ∧
    (resourceNotebookInstanceDelete runningClient sampleData []).trace
      = [Call.DescribeNotebookInstance (some "nb"), Call.DescribeNotebookInstance (some "nb"),
          Call.StopNotebookInstance (some "nb"), Call.waitStopped "nb",
          Call.DeleteNotebookInstance (some "nb"), Call.waitDeleted "nb"] :=
  have h := delete_steps_gated runningClient sampleData []
    (sampleOutput "nb" NotebookInstanceStatusInService)
    (none, [Call.DescribeNotebookInstance (some "nb"),
      Call.DescribeNotebookInstance (some "nb"), Call.StopNotebookInstance (some "nb"),
      Call.waitStopped "nb"])
    rfl (by decide)
  ⟨h.2.2.2.2.2.mpr ⟨rfl, rfl, rfl⟩, ((h.2.2.2.2.1 rfl).2 rfl).1⟩

end sagemaker

namespace sagemaker

/-- C21. `findNotebookInstanceByName` maps the answer of `DescribeNotebookInstance`: an
error with code ValidationException whose message contains "RecordNotFound" becomes a
Not-Found error that wraps it; every other error is returned as it is; a nil output with
no error becomes the empty-result error; otherwise the output is returned with a nil
error.  The returned output is non-nil exactly when the returned error is nil, and the
pair of returned values is the result the other functions of the resource work with. -/
theorem findNotebookInstanceByName_maps_describe_result (conn : Client) (name : String)
    (tr : List Call) :
    (∀ err, conn.DescribeNotebookInstance tr (some name) = .error err →
      (tfawserr.ErrMessageContains (some err) ErrCodeValidationException "RecordNotFound"
          = true →
        (findNotebookInstanceByNameValues conn name tr).1 = (none, some (.notFound err)) ∧
        tfresource.NotFound (findNotebookInstanceByNameValues conn name tr).1.2 = true) ∧
      (tfawserr.ErrMessageContains (some err) ErrCodeValidationException "RecordNotFound"
          = false →
        (findNotebookInstanceByNameValues conn name tr).1 = (none, some err))) ∧
    (conn.DescribeNotebookInstance tr (some name) = .ok none →
      (findNotebookInstanceByNameValues conn name tr).1
        = (none, some tfresource.NewEmptyResultError)) ∧
    (∀ output, conn.DescribeNotebookInstance tr (some name) = .ok (some output) →
      (findNotebookInstanceByNameValues conn name tr).1 = (some output, none)) ∧
    ((findNotebookInstanceByNameValues conn name tr).1.1 ≠ none ↔
      (findNotebookInstanceByNameValues conn name tr).1.2 = none) ∧
    errOf (findNotebookInstanceByName conn name tr).1
      = (findNotebookInstanceByNameValues conn name tr).1.2 ∧
    (∀ output, (findNotebookInstanceByName conn name tr).1 = .ok output ↔
      (findNotebookInstanceByNameValues conn name tr).1.1 = some output) ∧
    (findNotebookInstanceByName conn name tr).2
      = (findNotebookInstanceByNameValues conn name tr).2 := by
  simp only [findNotebookInstanceByNameValues, findNotebookInstanceByName, Client.sendDescribe]
  cases h : conn.DescribeNotebookInstance tr (some name) with
  | error e =>
    cases hc : tfawserr.ErrMessageContains (some e) ErrCodeValidationException "RecordNotFound"
    · simp [hc, errOf]
    · simp [hc, errOf, tfresource.NotFound, tfresource.isNotFoundError]
  | ok o =>
    cases o with
    | none => simp [errOf]
    | some o => simp [errOf]

/-- C21, at a notebook that is gone, at a refused request and at a running notebook. -/
theorem findNotebookInstanceByName_maps_describe_result_witness :
    (findNotebookInstanceByNameValues absentClient "nb" []).1
      = (none, some (.notFound
          (.api "ValidationException" "RecordNotFound: no such notebook instance"))) ∧
    (findNotebookInstanceByNameValues deniedDescribeClient "nb" []).1
      = (none, some (.api "AccessDeniedException" "not authorized")) ∧
    (findNotebookInstanceByNameValues emptyDescribeClient "nb" []).1
      = (none, some tfresource.NewEmptyResultError) ∧
    (findNotebookInstanceByNameValues runningClient "nb" []).1
      = (some (sampleOutput "nb" NotebookInstanceStatusInService), none) :=
  ⟨(((findNotebookInstanceByName_maps_describe_result absentClient "nb" []).1
      (.api "ValidationException" "RecordNotFound: no such notebook instance") rfl).1
      (by decide)).1,
   ((findNotebookInstanceByName_maps_describe_result deniedDescribeClient "nb" []).1
      (.api "AccessDeniedException" "not authorized") rfl).2 (by decide),
   (findNotebookInstanceByName_maps_describe_result emptyDescribeClient "nb" []).2.1 rfl,
   (findNotebookInstanceByName_maps_describe_result runningClient "nb" []).2.2.1
      (sampleOutput "nb" NotebookInstanceStatusInService) rfl⟩

end sagemaker

namespace s3

/-- C22. `findBucketPolicy` returns a Not-Found error that wraps the error of
`GetBucketPolicy` when that error has the code NoSuchBucket or NoSuchBucketPolicy, and
returns every other error as it is; it returns the empty-result error when the output or
its `Policy` field is nil, and otherwise the policy string with a nil error.  Whenever the
returned error is not nil the returned string is empty.  The pair of returned values is
the result the other functions of the resource work with. -/
theorem findBucketPolicy_maps_get_result (meta : AWSClient) (conn : Bool) (bucket : String)
    (tr : List Call) :
    (∀ err, meta.GetBucketPolicy tr conn (some bucket) = .error err →
      (tfawserr.ErrCodeEquals (some err) [errCodeNoSuchBucket, errCodeNoSuchBucketPolicy]
          = true →
        (findBucketPolicyValues meta conn bucket tr).1 = ("", some (.notFound err)) ∧
        tfresource.NotFound (findBucketPolicyValues meta conn bucket tr).1.2 = true) ∧
      (tfawserr.ErrCodeEquals (some err) [errCodeNoSuchBucket, errCodeNoSuchBucketPolicy]
          = false →
        (findBucketPolicyValues meta conn bucket tr).1 = ("", some err))) ∧
    (∀ code message, (code = errCodeNoSuchBucket ∨ code = errCodeNoSuchBucketPolicy) →
      tfawserr.ErrCodeEquals (some (.api code message))
        [errCodeNoSuchBucket, errCodeNoSuchBucketPolicy] = true) ∧
    (meta.GetBucketPolicy tr conn (some bucket) = .ok none →
      (findBucketPolicyValues meta conn bucket tr).1
        = ("", some tfresource.NewEmptyResultError)) ∧
    (∀ output, meta.GetBucketPolicy tr conn (some bucket) = .ok (some output) →
      (output.Policy = none →
        (findBucketPolicyValues meta conn bucket tr).1
          = ("", some tfresource.NewEmptyResultError)) ∧
      (∀ policy, output.Policy = some policy →
        (findBucketPolicyValues meta conn bucket tr).1 = (policy, none))) ∧
    ((findBucketPolicyValues meta conn bucket tr).1.2 ≠ none →
      (findBucketPolicyValues meta conn bucket tr).1.1 = "") ∧
    errOf (findBucketPolicy meta conn bucket tr).1
      = (findBucketPolicyValues meta conn bucket tr).1.2 ∧
    (∀ policy, (findBucketPolicy meta conn bucket tr).1 = .ok policy ↔
      (findBucketPolicyValues meta conn bucket tr).1 = (policy, none)) ∧
    (findBucketPolicy meta conn bucket tr).2 = (findBucketPolicyValues meta conn bucket tr).2 := by
  refine ⟨?_, ?_, ?_⟩
  · intro err h
    simp only [findBucketPolicyValues, h]
    cases hc : tfawserr.ErrCodeEquals (some err) [errCodeNoSuchBucket, errCodeNoSuchBucketPolicy]
    · simp
    · simp [tfresource.NotFound, tfresource.isNotFoundError]
  · rintro code message (h | h) <;>
      simp [h, tfawserr.ErrCodeEquals, Error.asAPIError]
  · simp only [findBucketPolicyValues, findBucketPolicy]
    cases h : meta.GetBucketPolicy tr conn (some bucket) with
    | error e =>
      cases hc : tfawserr.ErrCodeEquals (some e) [errCodeNoSuchBucket, errCodeNoSuchBucketPolicy]
      · simp [hc, errOf]
      · simp [hc, errOf]
    | ok o =>
      cases o with
      | none => simp [errOf]
      | some o =>
        cases hp : o.Policy with
        | none => simp [errOf, hp]
        | some p => simp [errOf, hp, sagemaker.ToString]

/-- C22, at a bucket that has no policy, at one that does not exist, at a denied request,
at an answer without output, at an output without policy and at a bucket with a policy. -/
theorem findBucketPolicy_maps_get_result_witness :
    (findBucketPolicyValues noPolicyClient false "b" []).1
      = ("", some (.notFound (.api "NoSuchBucketPolicy" "no policy"))) ∧
    (findBucketPolicyValues noBucketClient false "b" []).1
      = ("", some (.notFound (.api "NoSuchBucket" "no bucket"))) ∧
    (findBucketPolicyValues deniedGetClient false "b" []).1
      = ("", some (.api "AccessDenied" "not allowed")) ∧
    (findBucketPolicyValues emptyOutputClient false "b" []).1
      = ("", some tfresource.NewEmptyResultError) ∧
    (findBucketPolicyValues emptyPolicyClient false "b" []).1
      = ("", some tfresource.NewEmptyResultError) ∧
    (findBucketPolicyValues policyClient false "b" []).1 = ("{}", none) ∧
    (findBucketPolicyValues noPolicyClient false "b" []).1.1 = "" :=
  ⟨(((findBucketPolicy_maps_get_result noPolicyClient false "b" []).1
      (.api "NoSuchBucketPolicy" "no policy") rfl).1 (by decide)).1,
   (((findBucketPolicy_maps_get_result noBucketClient false "b" []).1
      (.api "NoSuchBucket" "no bucket") rfl).1 (by decide)).1,
   ((findBucketPolicy_maps_get_result deniedGetClient false "b" []).1
      (.api "AccessDenied" "not allowed") rfl).2 (by decide),
   (findBucketPolicy_maps_get_result emptyOutputClient false "b" []).2.2.1 rfl,
   ((findBucketPolicy_maps_get_result emptyPolicyClient false "b" []).2.2.2.1
      { Policy := none } rfl).1 rfl,
   ((findBucketPolicy_maps_get_result policyClient false "b" []).2.2.2.1
      { Policy := some "{}" } rfl).2 "{}" rfl,
   (findBucketPolicy_maps_get_result noPolicyClient false "b" []).2.2.2.2.1 (by decide)⟩

end s3

namespace sagemaker

theorem resourceNotebookInstanceRead_id_of_new (conn : Client) (d : ResourceData)
    (tr : List Call) (hnew : d.isNewResource = true) :
    (resourceNotebookInstanceRead conn d tr).d.id = d.id := by
  simp only [resourceNotebookInstanceRead]
  rw [findNotebookInstanceByName_eq]
  rcases (findNotebookInstanceByName conn d.id tr).1 with err | o
  · simp [hnew]
  · cases hset : conn.setInstanceMetadataServiceConfiguration
        (flattenNotebookInstanceMetadataServiceConfiguration
          o.InstanceMetadataServiceConfiguration) <;>
      simp [hnew, ResourceData.SetMetadataServiceConfiguration, hset]

/-- C23. `resourceNotebookInstanceCreate` assigns the resource ID, to the configured name,
exactly when `CreateNotebookInstance` succeeded, whatever the following wait does.  When
the create request fails the resource data are left as they were, so the ID stays unset,
and the history ends with the create request: no wait is performed.  When the wait for
InService fails the resource data are those with the ID set to the name, although an
error diagnostic is returned.  When the wait succeeds the read is run on the data with the
ID set to the name and, the resource being new, leaves the ID at the name.  So for a new
resource whose ID is not yet the name, the ID is the name afterwards if and only if the
create request succeeded. -/
theorem create_assigns_id_iff_create_succeeded (conn : Client) (d : ResourceData)
    (tr : List Call) :
    (∀ e, conn.CreateNotebookInstance tr (createInput conn d) = some e →
      (resourceNotebookInstanceCreate conn d tr).d = d ∧
      (resourceNotebookInstanceCreate conn d tr).trace
        = tr ++ [Call.CreateNotebookInstance (createInput conn d)] ∧
      (∀ c ∈ (resourceNotebookInstanceCreate conn d tr).trace.drop tr.length,
        c.isWait = false)) ∧
    (conn.CreateNotebookInstance tr (createInput conn d) = none →
      (∀ e, conn.waitNotebookInstanceInService
          (tr ++ [Call.CreateNotebookInstance (createInput conn d)]) d.new.name = some e →
        (resourceNotebookInstanceCreate conn d tr).d = d.SetId d.new.name ∧
        (resourceNotebookInstanceCreate conn d tr).d.id = d.new.name ∧
        (resourceNotebookInstanceCreate conn d tr).diags
          = [{ severity := .Error,
               summary := "waiting for SageMaker AI Notebook Instance (" ++ d.new.name
                 ++ ") create: " ++ e.text }]) ∧
      (conn.waitNotebookInstanceInService
          (tr ++ [Call.CreateNotebookInstance (createInput conn d)]) d.new.name = none →
        (resourceNotebookInstanceCreate conn d tr).d
          = (resourceNotebookInstanceRead conn (d.SetId d.new.name)
              (tr ++ [Call.CreateNotebookInstance (createInput conn d),
                Call.waitInService d.new.name])).d ∧
        (d.isNewResource = true →
          (resourceNotebookInstanceCreate conn d tr).d.id = d.new.name))) ∧
    (d.isNewResource = true → d.id ≠ d.new.name →
      ((resourceNotebookInstanceCreate conn d tr).d.id = d.new.name ↔
        conn.CreateNotebookInstance tr (createInput conn d) = none)) := by
  have hF : ∀ e, conn.CreateNotebookInstance tr (createInput conn d) = some e →
      resourceNotebookInstanceCreate conn d tr
        = { diags := sdkdiag.AppendErrorf []
              ("creating SageMaker AI Notebook Instance: " ++ e.text),
            d := d, trace := tr ++ [Call.CreateNotebookInstance (createInput conn d)] } := by
    intro e he
    simp [resourceNotebookInstanceCreate, Client.sendCreate, he]
  have hW : conn.CreateNotebookInstance tr (createInput conn d) = none →
      ∀ e, conn.waitNotebookInstanceInService
          (tr ++ [Call.CreateNotebookInstance (createInput conn d)]) d.new.name = some e →
      resourceNotebookInstanceCreate conn d tr
        = { diags := sdkdiag.AppendErrorf []
              ("waiting for SageMaker AI Notebook Instance (" ++ d.new.name
                 ++ ") create: " ++ e.text),
            d := d.SetId d.new.name,
            trace := tr ++ [Call.CreateNotebookInstance (createInput conn d),
              Call.waitInService d.new.name] } := by
    intro hc e he
    simp [resourceNotebookInstanceCreate, Client.sendCreate, hc, waitNotebookInstanceInService,
      ResourceData.SetId, he]
  have hR : conn.CreateNotebookInstance tr (createInput conn d) = none →
      conn.waitNotebookInstanceInService
          (tr ++ [Call.CreateNotebookInstance (createInput conn d)]) d.new.name = none →
      (resourceNotebookInstanceCreate conn d tr).d
        = (resourceNotebookInstanceRead conn (d.SetId d.new.name)
            (tr ++ [Call.CreateNotebookInstance (createInput conn d),
              Call.waitInService d.new.name])).d := by
    intro hc hw
    simp [resourceNotebookInstanceCreate, Client.sendCreate, hc, waitNotebookInstanceInService,
      ResourceData.SetId, hw]
  have hId : conn.CreateNotebookInstance tr (createInput conn d) = none →
      d.isNewResource = true → (resourceNotebookInstanceCreate conn d tr).d.id = d.new.name := by
    intro hc hnew
    cases hw : conn.waitNotebookInstanceInService
        (tr ++ [Call.CreateNotebookInstance (createInput conn d)]) d.new.name with
    | some e => rw [hW hc e hw]; rfl
    | none =>
      rw [hR hc hw, resourceNotebookInstanceRead_id_of_new _ _ _ (by simpa [ResourceData.SetId] using hnew)]
      rfl
  refine ⟨?_, ?_, ?_⟩
  · intro e he
    rw [hF e he]
    refine ⟨rfl, rfl, ?_⟩
    intro c hc
    simp at hc
    subst hc
    rfl
  · intro hc
    refine ⟨?_, ?_⟩
    · intro e he
      rw [hW hc e he]
      exact ⟨rfl, rfl, rfl⟩
    · intro hw
      exact ⟨hR hc hw, hId hc⟩
  · intro hnew hne
    constructor
    · intro hid
      cases hc : conn.CreateNotebookInstance tr (createInput conn d) with
      | none => rfl
      | some e =>
        rw [hF e hc] at hid
        exact absurd hid hne
    · intro hc
      exact hId hc hnew

/-- C23, at a rejected create request, at a wait that fails and at a create that goes
through. -/
theorem create_assigns_id_iff_create_succeeded_witness :
    (resourceNotebookInstanceCreate failingCreateClient sampleNewData []).d.id = "" ∧
    (resourceNotebookInstanceCreate neverInServiceClient sampleNewData []).d.id = "nb" ∧
    (resourceNotebookInstanceCreate neverInServiceClient sampleNewData []).diags ≠ [] ∧
    (resourceNotebookInstanceCreate runningClient sampleNewData []).d.id = "nb" :=
  ⟨by
    rw [((create_assigns_id_iff_create_succeeded failingCreateClient sampleNewData []).1
      _ rfl).1]
    rfl,
   ((create_assigns_id_iff_create_succeeded neverInServiceClient sampleNewData []).2.1
      rfl).1 _ rfl |>.2.1,
   by
    rw [(((create_assigns_id_iff_create_succeeded neverInServiceClient sampleNewData []).2.1
      rfl).1 _ rfl).2.2]
    decide,
   (create_assigns_id_iff_create_succeeded runningClient sampleNewData []).2.2 rfl
      (by decide) |>.2 rfl⟩

end sagemaker

namespace sagemaker

theorem HasChangesExceptTags_of_tags_only (d : ResourceData)
    (htags : { d.old with tags := d.new.tags, tags_all := d.new.tags_all } = d.new) :
    d.HasChangesExceptTags = false := by
  simp only [ResourceData.HasChangesExceptTags, decide_eq_false_iff_not, not_not]
  rw [← htags]

/-- C24. When the only attributes that changed are `tags` and `tags_all`,
`resourceNotebookInstanceUpdate` only performs the final read: its outcome is that of
`resourceNotebookInstanceRead`, the one request it adds to the history is the describe of
that read, and so it issues no stop, update or start request and performs no wait.  A
running notebook is not stopped by a change of tags alone. -/
theorem update_tags_only_performs_only_read (conn : Client) (d : ResourceData)
    (tr : List Call)
    (htags : { d.old with tags := d.new.tags, tags_all := d.new.tags_all } = d.new) :
    resourceNotebookInstanceUpdate conn d tr = resourceNotebookInstanceRead conn d tr ∧
    (resourceNotebookInstanceUpdate conn d tr).trace
      = tr ++ [Call.DescribeNotebookInstance (some d.id)] ∧
    (∀ c ∈ (resourceNotebookInstanceUpdate conn d tr).trace.drop tr.length,
      c.isStop = false ∧ c.isUpdate = false ∧ c.isStart = false ∧ c.isWait = false ∧
      c.isMutating = false) := by
  have hU : resourceNotebookInstanceUpdate conn d tr = resourceNotebookInstanceRead conn d tr := by
    simp [resourceNotebookInstanceUpdate, HasChangesExceptTags_of_tags_only d htags]
  rw [hU, resourceNotebookInstanceRead_trace]
  refine ⟨rfl, rfl, ?_⟩
  intro c hc
  simp at hc
  subst hc
  exact ⟨rfl, rfl, rfl, rfl, rfl⟩

/-- C24, at a running notebook whose tags change: one describe, nothing else. -/
theorem update_tags_only_performs_only_read_witness :
    (resourceNotebookInstanceUpdate runningClient sampleTaggedData []).trace
      = [Call.DescribeNotebookInstance (some "nb")] :=
  (update_tags_only_performs_only_read runningClient sampleTaggedData [] (by decide)).2.1

end sagemaker

/-! ## The fields of the update and create requests -/

namespace sagemaker

theorem updateInput_AdditionalCodeRepositories (d : ResourceData) :
    (updateInput d).AdditionalCodeRepositories
      = (if d.old.additional_code_repositories ≠ d.new.additional_code_repositories then
          (if d.new.additional_code_repositories ≠ [] then d.new.additional_code_repositories
            else [])
        else []) := by
  unfold updateInput
  lift_lets
  intro i0 i1 i2 l i3 i4 i5 i6 i7 i8
  have h0 : i0.AdditionalCodeRepositories = [] := rfl
  have h1 : i1.AdditionalCodeRepositories
      = (if d.old.additional_code_repositories ≠ d.new.additional_code_repositories then
          (if d.new.additional_code_repositories ≠ [] then d.new.additional_code_repositories
            else [])
        else []) := by
    simp only [i1]; split_ifs <;> rfl
  have e2 : i2.AdditionalCodeRepositories = i1.AdditionalCodeRepositories := by
    simp only [i2]; split_ifs <;> rfl
  have h2 := e2.trans h1
  have e3 : i3.AdditionalCodeRepositories = i2.AdditionalCodeRepositories := by
    simp only [i3]; split_ifs <;> rfl
  have h3 := e3.trans h2
  have e4 : i4.AdditionalCodeRepositories = i3.AdditionalCodeRepositories := by
    simp only [i4]; split_ifs <;> rfl
  have h4 := e4.trans h3
  have e5 : i5.AdditionalCodeRepositories = i4.AdditionalCodeRepositories := by
    simp only [i5]; split_ifs <;> rfl
  have h5 := e5.trans h4
  have e6 : i6.AdditionalCodeRepositories = i5.AdditionalCodeRepositories := by
    simp only [i6]; split_ifs <;> rfl
  have h6 := e6.trans h5
  have e7 : i7.AdditionalCodeRepositories = i6.AdditionalCodeRepositories := by
    simp only [i7]; split_ifs <;> rfl
  have h7 := e7.trans h6
  have e8 : i8.AdditionalCodeRepositories = i7.AdditionalCodeRepositories := by
    simp only [i8]; split_ifs <;> rfl
  have h8 := e8.trans h7
  exact h8

theorem updateInput_DisassociateAdditionalCodeRepositories (d : ResourceData) :
    (updateInput d).DisassociateAdditionalCodeRepositories
      = (if d.old.additional_code_repositories ≠ d.new.additional_code_repositories then
          (if d.new.additional_code_repositories ≠ [] then none else some true)
        else none) := by
  unfold updateInput
  lift_lets
  intro i0 i1 i2 l i3 i4 i5 i6 i7 i8
  have h0 : i0.DisassociateAdditionalCodeRepositories = none := rfl
  have h1 : i1.DisassociateAdditionalCodeRepositories
      = (if d.old.additional_code_repositories ≠ d.new.additional_code_repositories then
          (if d.new.additional_code_repositories ≠ [] then none else some true)
        else none) := by
    simp only [i1]; split_ifs <;> rfl
  have e2 : i2.DisassociateAdditionalCodeRepositories = i1.DisassociateAdditionalCodeRepositories := by
    simp only [i2]; split_ifs <;> rfl
  have h2 := e2.trans h1
  have e3 : i3.DisassociateAdditionalCodeRepositories = i2.DisassociateAdditionalCodeRepositories := by
    simp only [i3]; split_ifs <;> rfl
  have h3 := e3.trans h2
  have e4 : i4.DisassociateAdditionalCodeRepositories = i3.DisassociateAdditionalCodeRepositories := by
    simp only [i4]; split_ifs <;> rfl
  have h4 := e4.trans h3
  have e5 : i5.DisassociateAdditionalCodeRepositories = i4.DisassociateAdditionalCodeRepositories := by
    simp only [i5]; split_ifs <;> rfl
  have h5 := e5.trans h4
  have e6 : i6.DisassociateAdditionalCodeRepositories = i5.DisassociateAdditionalCodeRepositories := by
    simp only [i6]; split_ifs <;> rfl
  have h6 := e6.trans h5
  have e7 : i7.DisassociateAdditionalCodeRepositories = i6.DisassociateAdditionalCodeRepositories := by
    simp only [i7]; split_ifs <;> rfl
  have h7 := e7.trans h6
  have e8 : i8.DisassociateAdditionalCodeRepositories = i7.DisassociateAdditionalCodeRepositories := by
    simp only [i8]; split_ifs <;> rfl
  have h8 := e8.trans h7
  exact h8

theorem updateInput_DefaultCodeRepository (d : ResourceData) :
    (updateInput d).DefaultCodeRepository
      = (if d.old.default_code_repository ≠ d.new.default_code_repository then
          (if d.new.default_code_repository ≠ "" then some d.new.default_code_repository
            else none)
        else none) := by
  unfold updateInput
  lift_lets
  intro i0 i1 i2 l i3 i4 i5 i6 i7 i8
  have h0 : i0.DefaultCodeRepository = none := rfl
  have h1 : i1.DefaultCodeRepository = none := by
    simp only [i1]; split_ifs <;> exact h0
  have h2 : i2.DefaultCodeRepository
      = (if d.old.default_code_repository ≠ d.new.default_code_repository then
          (if d.new.default_code_repository ≠ "" then some d.new.default_code_repository
            else none)
        else none) := by
    simp only [i2]; split_ifs <;> first | rfl | exact h1
  have e3 : i3.DefaultCodeRepository = i2.DefaultCodeRepository := by
    simp only [i3]; split_ifs <;> rfl
  have h3 := e3.trans h2
  have e4 : i4.DefaultCodeRepository = i3.DefaultCodeRepository := by
    simp only [i4]; split_ifs <;> rfl
  have h4 := e4.trans h3
  have e5 : i5.DefaultCodeRepository = i4.DefaultCodeRepository := by
    simp only [i5]; split_ifs <;> rfl
  have h5 := e5.trans h4
  have e6 : i6.DefaultCodeRepository = i5.DefaultCodeRepository := by
    simp only [i6]; split_ifs <;> rfl
  have h6 := e6.trans h5
  have e7 : i7.DefaultCodeRepository = i6.DefaultCodeRepository := by
    simp only [i7]; split_ifs <;> rfl
  have h7 := e7.trans h6
  have e8 : i8.DefaultCodeRepository = i7.DefaultCodeRepository := by
    simp only [i8]; split_ifs <;> rfl
  have h8 := e8.trans h7
  exact h8

theorem updateInput_DisassociateDefaultCodeRepository (d : ResourceData) :
    (updateInput d).DisassociateDefaultCodeRepository
      = (if d.old.default_code_repository ≠ d.new.default_code_repository then
          (if d.new.default_code_repository ≠ "" then none else some true)
        else none) := by
  unfold updateInput
  lift_lets
  intro i0 i1 i2 l i3 i4 i5 i6 i7 i8
  have h0 : i0.DisassociateDefaultCodeRepository = none := rfl
  have h1 : i1.DisassociateDefaultCodeRepository = none := by
    simp only [i1]; split_ifs <;> exact h0
  have h2 : i2.DisassociateDefaultCodeRepository
      = (if d.old.default_code_repository ≠ d.new.default_code_repository then
          (if d.new.default_code_repository ≠ "" then none else some true)
        else none) := by
    simp only [i2]; split_ifs <;> first | rfl | exact h1
  have e3 : i3.DisassociateDefaultCodeRepository = i2.DisassociateDefaultCodeRepository := by
    simp only [i3]; split_ifs <;> rfl
  have h3 := e3.trans h2
  have e4 : i4.DisassociateDefaultCodeRepository = i3.DisassociateDefaultCodeRepository := by
    simp only [i4]; split_ifs <;> rfl
  have h4 := e4.trans h3
  have e5 : i5.DisassociateDefaultCodeRepository = i4.DisassociateDefaultCodeRepository := by
    simp only [i5]; split_ifs <;> rfl
  have h5 := e5.trans h4
  have e6 : i6.DisassociateDefaultCodeRepository = i5.DisassociateDefaultCodeRepository := by
    simp only [i6]; split_ifs <;> rfl
  have h6 := e6.trans h5
  have e7 : i7.DisassociateDefaultCodeRepository = i6.DisassociateDefaultCodeRepository := by
    simp only [i7]; split_ifs <;> rfl
  have h7 := e7.trans h6
  have e8 : i8.DisassociateDefaultCodeRepository = i7.DisassociateDefaultCodeRepository := by
    simp only [i8]; split_ifs <;> rfl
  have h8 := e8.trans h7
  exact h8

theorem updateInput_LifecycleConfigName (d : ResourceData) :
    (updateInput d).LifecycleConfigName
      = (if d.old.lifecycle_config_name ≠ d.new.lifecycle_config_name then
          (if d.new.lifecycle_config_name ≠ "" then some d.new.lifecycle_config_name
            else none)
        else none) := by
  unfold updateInput
  lift_lets
  intro i0 i1 i2 l i3 i4 i5 i6 i7 i8
  have h0 : i0.LifecycleConfigName = none := rfl
  have h1 : i1.LifecycleConfigName = none := by
    simp only [i1]; split_ifs <;> exact h0
  have h2 : i2.LifecycleConfigName = none := by
    simp only [i2]; split_ifs <;> exact h1
  have h3 : i3.LifecycleConfigName = none := by
    simp only [i3]; split_ifs <;> exact h2
  have h4 : i4.LifecycleConfigName = none := by
    simp only [i4]; split_ifs <;> exact h3
  have h5 : i5.LifecycleConfigName
      = (if d.old.lifecycle_config_name ≠ d.new.lifecycle_config_name then
          (if d.new.lifecycle_config_name ≠ "" then some d.new.lifecycle_config_name
            else none)
        else none) := by
    simp only [i5]; split_ifs <;> first | rfl | exact h4
  have e6 : i6.LifecycleConfigName = i5.LifecycleConfigName := by
    simp only [i6]; split_ifs <;> rfl
  have h6 := e6.trans h5
  have e7 : i7.LifecycleConfigName = i6.LifecycleConfigName := by
    simp only [i7]; split_ifs <;> rfl
  have h7 := e7.trans h6
  have e8 : i8.LifecycleConfigName = i7.LifecycleConfigName := by
    simp only [i8]; split_ifs <;> rfl
  have h8 := e8.trans h7
  exact h8

theorem updateInput_DisassociateLifecycleConfig (d : ResourceData) :
    (updateInput d).DisassociateLifecycleConfig
      = (if d.old.lifecycle_config_name ≠ d.new.lifecycle_config_name then
          (if d.new.lifecycle_config_name ≠ "" then none else some true)
        else none) := by
  unfold updateInput
  lift_lets
  intro i0 i1 i2 l i3 i4 i5 i6 i7 i8
  have h0 : i0.DisassociateLifecycleConfig = none := rfl
  have h1 : i1.DisassociateLifecycleConfig = none := by
    simp only [i1]; split_ifs <;> exact h0
  have h2 : i2.DisassociateLifecycleConfig = none := by
    simp only [i2]; split_ifs <;> exact h1
  have h3 : i3.DisassociateLifecycleConfig = none := by
    simp only [i3]; split_ifs <;> exact h2
  have h4 : i4.DisassociateLifecycleConfig = none := by
    simp only [i4]; split_ifs <;> exact h3
  have h5 : i5.DisassociateLifecycleConfig
      = (if d.old.lifecycle_config_name ≠ d.new.lifecycle_config_name then
          (if d.new.lifecycle_config_name ≠ "" then none else some true)
        else none) := by
    simp only [i5]; split_ifs <;> first | rfl | exact h4
  have e6 : i6.DisassociateLifecycleConfig = i5.DisassociateLifecycleConfig := by
    simp only [i6]; split_ifs <;> rfl
  have h6 := e6.trans h5
  have e7 : i7.DisassociateLifecycleConfig = i6.DisassociateLifecycleConfig := by
    simp only [i7]; split_ifs <;> rfl
  have h7 := e7.trans h6
  have e8 : i8.DisassociateLifecycleConfig = i7.DisassociateLifecycleConfig := by
    simp only [i8]; split_ifs <;> rfl
  have h8 := e8.trans h7
  exact h8

theorem updateInput_VolumeSizeInGB (d : ResourceData) :
    (updateInput d).VolumeSizeInGB
      = (if d.old.volume_size ≠ d.new.volume_size then some (int32 d.new.volume_size) else none) := by
  unfold updateInput
  lift_lets
  intro i0 i1 i2 l i3 i4 i5 i6 i7 i8
  have h0 : i0.VolumeSizeInGB = none := rfl
  have h1 : i1.VolumeSizeInGB = none := by
    simp only [i1]; split_ifs <;> exact h0
  have h2 : i2.VolumeSizeInGB = none := by
    simp only [i2]; split_ifs <;> exact h1
  have h3 : i3.VolumeSizeInGB = none := by
    simp only [i3]; split_ifs <;> exact h2
  have h4 : i4.VolumeSizeInGB = none := by
    simp only [i4]; split_ifs <;> exact h3
  have h5 : i5.VolumeSizeInGB = none := by
    simp only [i5]; split_ifs <;> exact h4
  have h6 : i6.VolumeSizeInGB = none := by
    simp only [i6]; split_ifs <;> exact h5
  have h7 : i7.VolumeSizeInGB = none := by
    simp only [i7]; split_ifs <;> exact h6
  have h8 : i8.VolumeSizeInGB
      = (if d.old.volume_size ≠ d.new.volume_size then some (int32 d.new.volume_size) else none) := by
    simp only [i8]; split_ifs <;> first | rfl | exact h7
  exact h8

end sagemaker

namespace sagemaker

/-- C25. Every `UpdateNotebookInstance` request of `resourceNotebookInstanceUpdate`
carries the input built from the resource data, and in that input, for each of
`additional_code_repositories`, `default_code_repository` and `lifecycle_config_name`:
when the attribute is unchanged neither its value field nor its disassociate flag is set;
when it changed to a non-empty value the value field holds the new value and the flag is
not set; when it changed to the empty value the disassociate flag is true and the value
field is not set.  The value field and the flag of one attribute are never both set. -/
theorem updateInput_value_or_disassociate (conn : Client) (d : ResourceData)
    (tr : List Call) :
    (∀ c ∈ (resourceNotebookInstanceUpdate conn d tr).trace.drop tr.length, ∀ input,
      c = Call.UpdateNotebookInstance input → input = updateInput d) ∧
    ((d.old.additional_code_repositories = d.new.additional_code_repositories →
        (updateInput d).AdditionalCodeRepositories = [] ∧
        (updateInput d).DisassociateAdditionalCodeRepositories = none) ∧
      (d.old.additional_code_repositories ≠ d.new.additional_code_repositories →
        d.new.additional_code_repositories ≠ [] →
        (updateInput d).AdditionalCodeRepositories = d.new.additional_code_repositories ∧
        (updateInput d).DisassociateAdditionalCodeRepositories = none) ∧
      (d.old.additional_code_repositories ≠ d.new.additional_code_repositories →
        d.new.additional_code_repositories = [] →
        (updateInput d).DisassociateAdditionalCodeRepositories = some true ∧
        (updateInput d).AdditionalCodeRepositories = []) ∧
      ¬ ((updateInput d).AdditionalCodeRepositories ≠ [] ∧
        (updateInput d).DisassociateAdditionalCodeRepositories ≠ none)) ∧
    ((d.old.default_code_repository = d.new.default_code_repository →
        (updateInput d).DefaultCodeRepository = none ∧
        (updateInput d).DisassociateDefaultCodeRepository = none) ∧
      (d.old.default_code_repository ≠ d.new.default_code_repository →
        d.new.default_code_repository ≠ "" →
        (updateInput d).DefaultCodeRepository = some d.new.default_code_repository ∧
        (updateInput d).DisassociateDefaultCodeRepository = none) ∧
      (d.old.default_code_repository ≠ d.new.default_code_repository →
        d.new.default_code_repository = "" →
        (updateInput d).DisassociateDefaultCodeRepository = some true ∧
        (updateInput d).DefaultCodeRepository = none) ∧
      ¬ ((updateInput d).DefaultCodeRepository ≠ none ∧
        (updateInput d).DisassociateDefaultCodeRepository ≠ none)) ∧
    ((d.old.lifecycle_config_name = d.new.lifecycle_config_name →
        (updateInput d).LifecycleConfigName = none ∧
        (updateInput d).DisassociateLifecycleConfig = none) ∧
      (d.old.lifecycle_config_name ≠ d.new.lifecycle_config_name →
        d.new.lifecycle_config_name ≠ "" →
        (updateInput d).LifecycleConfigName = some d.new.lifecycle_config_name ∧
        (updateInput d).DisassociateLifecycleConfig = none) ∧
      (d.old.lifecycle_config_name ≠ d.new.lifecycle_config_name →
        d.new.lifecycle_config_name = "" →
        (updateInput d).DisassociateLifecycleConfig = some true ∧
        (updateInput d).LifecycleConfigName = none) ∧
      ¬ ((updateInput d).LifecycleConfigName ≠ none ∧
        (updateInput d).DisassociateLifecycleConfig ≠ none)) := by
  refine ⟨?_, ?_, ?_, ?_⟩
  · refine Extends.drop (resourceNotebookInstanceUpdate_extends
      (fun c => ∀ input, c = Call.UpdateNotebookInstance input → input = updateInput d)
      conn d tr ?_ ?_ ?_ ?_ ?_)
    · intro input h; cases h
    · intro input h; cases h
    · intro input h; cases h
    · intro input h; cases h; rfl
    · rintro c (rfl | rfl | rfl) input h <;> cases h
  · rw [updateInput_AdditionalCodeRepositories, updateInput_DisassociateAdditionalCodeRepositories]
    by_cases h1 : d.old.additional_code_repositories = d.new.additional_code_repositories <;>
      by_cases h2 : d.new.additional_code_repositories = [] <;> simp [h1, h2]
  · rw [updateInput_DefaultCodeRepository, updateInput_DisassociateDefaultCodeRepository]
    by_cases h1 : d.old.default_code_repository = d.new.default_code_repository <;>
      by_cases h2 : d.new.default_code_repository = "" <;> simp [h1, h2]
  · rw [updateInput_LifecycleConfigName, updateInput_DisassociateLifecycleConfig]
    by_cases h1 : d.old.lifecycle_config_name = d.new.lifecycle_config_name <;>
      by_cases h2 : d.new.lifecycle_config_name = "" <;> simp [h1, h2]

/-- C25, at a resource that gets an additional code repository, loses its default code
repository and keeps its lifecycle configuration. -/
theorem updateInput_value_or_disassociate_witness :
    ((updateInput sampleRepositoriesData).AdditionalCodeRepositories = ["repo-b"] ∧
      (updateInput sampleRepositoriesData).DisassociateAdditionalCodeRepositories = none) ∧
    ((updateInput sampleRepositoriesData).DisassociateDefaultCodeRepository = some true ∧
      (updateInput sampleRepositoriesData).DefaultCodeRepository = none) ∧
    ((updateInput sampleRepositoriesData).LifecycleConfigName = none ∧
      (updateInput sampleRepositoriesData).DisassociateLifecycleConfig = none) :=
  ⟨(updateInput_value_or_disassociate runningClient sampleRepositoriesData []).2.1.2.1
      (by decide) (by decide),
   (updateInput_value_or_disassociate runningClient sampleRepositoriesData []).2.2.1.2.2.1
      (by decide) (by decide),
   (updateInput_value_or_disassociate runningClient sampleRepositoriesData []).2.2.2.1 rfl⟩

end sagemaker

namespace sagemaker

theorem createInput_VolumeSizeInGB (conn : Client) (d : ResourceData) :
    (createInput conn d).VolumeSizeInGB
      = (if d.new.volume_size ≠ 0 then some (int32 d.new.volume_size) else none) := by
  unfold createInput
  lift_lets
  intro name l i0 i1 i2 i3 i4 i5 i6 i7 i8 i9
  have h0 : i0.VolumeSizeInGB = none := rfl
  have h1 : i1.VolumeSizeInGB = none := by
    simp only [i1]; split_ifs <;> exact h0
  have h2 : i2.VolumeSizeInGB = none := by
    simp only [i2]; split_ifs <;> exact h1
  have h3 : i3.VolumeSizeInGB = none := by
    simp only [i3]; split_ifs <;> exact h2
  have h4 : i4.VolumeSizeInGB = none := by
    simp only [i4]; split_ifs <;> exact h3
  have h5 : i5.VolumeSizeInGB = none := by
    simp only [i5]; split_ifs <;> exact h4
  have h6 : i6.VolumeSizeInGB = none := by
    simp only [i6]; split_ifs <;> exact h5
  have h7 : i7.VolumeSizeInGB = none := by
    simp only [i7]; split_ifs <;> exact h6
  have h8 : i8.VolumeSizeInGB = none := by
    simp only [i8]; split_ifs <;> exact h7
  show i9.VolumeSizeInGB = _
  simp only [i9]; split_ifs <;> first | rfl | exact h8

theorem int32_of_range (v : Int) (hlo : -2 ^ 31 ≤ v) (hhi : v < 2 ^ 31) : int32 v = v := by
  unfold int32
  norm_num at hlo hhi ⊢
  omega

theorem int32_range (v : Int) : -2 ^ 31 ≤ int32 v ∧ int32 v < 2 ^ 31 := by
  unfold int32
  norm_num
  omega

theorem int32_modEq (v : Int) : (int32 v - v) % 2 ^ 32 = 0 := by
  unfold int32
  norm_num
  omega

theorem resourceNotebookInstanceCreate_first_request (conn : Client) (d : ResourceData)
    (tr : List Call) :
    ∃ rest, (resourceNotebookInstanceCreate conn d tr).trace
      = tr ++ Call.CreateNotebookInstance (createInput conn d) :: rest := by
  simp only [resourceNotebookInstanceCreate, Client.sendCreate]
  cases conn.CreateNotebookInstance tr (createInput conn d) with
  | some e => exact ⟨[], rfl⟩
  | none =>
    simp only [waitNotebookInstanceInService]
    cases conn.waitNotebookInstanceInService
        (tr ++ [Call.CreateNotebookInstance (createInput conn d)])
        (d.SetId d.new.name).id with
    | some e => exact ⟨[Call.waitInService (d.SetId d.new.name).id], by simp⟩
    | none =>
      simp only [resourceNotebookInstanceRead_trace]
      exact ⟨[Call.waitInService (d.SetId d.new.name).id,
        Call.DescribeNotebookInstance (some (d.SetId d.new.name).id)], by simp⟩

end sagemaker

namespace sagemaker

/-- C26. The predicate given to `customdiff.ForceNewIfChange` for `volume_size`,
`new.(int) < old.(int)`, is true exactly when the new size is below the old one, for all
integers; and so the `CustomizeDiff` rule forces a new resource on a change of
`volume_size` exactly when the volume shrinks: growing it, or leaving it as it is, does
not. -/
theorem volumeSizeForcesNew_iff_shrinks (old new : Int) :
    (volumeSizeShrinks old new = true ↔ new < old) ∧
    (volumeSizeForcesNew old new = true ↔ new < old) ∧
    (volumeSizeForcesNew old new = false ↔ old ≤ new) := by
  have h1 : volumeSizeShrinks old new = true ↔ new < old := by
    simp [volumeSizeShrinks]
  have h2 : volumeSizeForcesNew old new = true ↔ new < old := by
    unfold volumeSizeForcesNew customdiff.ForceNewIfChange
    split_ifs with h
    · exact h1
    · have : old = new := not_not.mp h
      subst this
      simp
  refine ⟨h1, h2, ?_⟩
  rw [← not_lt, ← h2]
  simp

end sagemaker

namespace sagemaker

/-- C27 (as stated, refuted). An existing notebook with a volume of 5 GB, between 0 and
2^31, gets another instance type while the volume stays as it is: the
`UpdateNotebookInstance` request that the update issues carries no `VolumeSizeInGB`, not
the configured 5. -/
theorem update_request_without_volume_counterexample :
    (0 < sampleRetypedData.new.volume_size ∧ sampleRetypedData.new.volume_size < 2 ^ 31) ∧
    Call.UpdateNotebookInstance (updateInput sampleRetypedData)
      ∈ (resourceNotebookInstanceUpdate runningClient sampleRetypedData []).trace ∧
    (updateInput sampleRetypedData).VolumeSizeInGB = none ∧
    (updateInput sampleRetypedData).VolumeSizeInGB
      ≠ some sampleRetypedData.new.volume_size :=
  ⟨⟨by decide, by decide⟩, by decide, by decide, by decide⟩

/-- C27 (amended). The first request of `resourceNotebookInstanceCreate` is the create
request built from the resource data.  For every configured `volume_size` v with
0 < v < 2^31 the create request carries `VolumeSizeInGB` equal to v, and so does the
update request when `volume_size` changed; an update request for an unchanged
`volume_size` carries no `VolumeSizeInGB`.  No bound is checked: for v ≥ 2^31 the value
sent, by the create request and by the update request of a changed `volume_size`, is v
wrapped modulo 2^32 into the signed 32-bit range, which differs from v. -/
theorem volume_size_sent_as_int32 (conn : Client) (d : ResourceData) (tr : List Call) :
    (∃ rest, (resourceNotebookInstanceCreate conn d tr).trace
      = tr ++ Call.CreateNotebookInstance (createInput conn d) :: rest) ∧
    (0 < d.new.volume_size → d.new.volume_size < 2 ^ 31 →
      (createInput conn d).VolumeSizeInGB = some d.new.volume_size ∧
      (d.old.volume_size ≠ d.new.volume_size →
        (updateInput d).VolumeSizeInGB = some d.new.volume_size)) ∧
    (d.old.volume_size = d.new.volume_size → (updateInput d).VolumeSizeInGB = none) ∧
    (2 ^ 31 ≤ d.new.volume_size →
      (createInput conn d).VolumeSizeInGB = some (int32 d.new.volume_size) ∧
      (d.old.volume_size ≠ d.new.volume_size →
        (updateInput d).VolumeSizeInGB = some (int32 d.new.volume_size)) ∧
      int32 d.new.volume_size = (d.new.volume_size + 2 ^ 31) % 2 ^ 32 - 2 ^ 31 ∧
      -2 ^ 31 ≤ int32 d.new.volume_size ∧ int32 d.new.volume_size < 2 ^ 31 ∧
      (int32 d.new.volume_size - d.new.volume_size) % 2 ^ 32 = 0 ∧
      int32 d.new.volume_size ≠ d.new.volume_size) := by
  refine ⟨resourceNotebookInstanceCreate_first_request conn d tr, ?_, ?_, ?_⟩
  · intro hlo hhi
    have h32 : int32 d.new.volume_size = d.new.volume_size :=
      int32_of_range _ (by norm_num at hhi ⊢; omega) hhi
    rw [createInput_VolumeSizeInGB, updateInput_VolumeSizeInGB, h32]
    refine ⟨by simp [ne_of_gt hlo], ?_⟩
    intro hchg
    simp [hchg]
  · intro h
    rw [updateInput_VolumeSizeInGB]
    simp [h]
  · intro hbig
    have hne : d.new.volume_size ≠ 0 := by norm_num at hbig; omega
    rw [createInput_VolumeSizeInGB, updateInput_VolumeSizeInGB]
    refine ⟨by simp [hne], ?_, rfl, (int32_range _).1, (int32_range _).2, int32_modEq _, ?_⟩
    · intro hchg
      simp [hchg]
    · have := (int32_range d.new.volume_size).2
      intro h
      rw [h] at this
      norm_num at hbig this
      omega

/-- C27 (amended), at a create with a volume of 10 GB, at an update that grows the volume
from 5 to 10 GB, at an update that leaves the volume alone and at a create with a volume
of 2^31 GB, which is sent as -2^31. -/
theorem volume_size_sent_as_int32_witness :
    (createInput runningClient sampleNewData).VolumeSizeInGB = some 10 ∧
    (updateInput sampleData).VolumeSizeInGB = some 10 ∧
    (updateInput sampleRetypedData).VolumeSizeInGB = none ∧
    (createInput runningClient sampleHugeData).VolumeSizeInGB = some (int32 2147483648) ∧
    int32 2147483648 = -2147483648 :=
  ⟨((volume_size_sent_as_int32 runningClient sampleNewData []).2.1 (by decide)
      (by decide)).1,
   ((volume_size_sent_as_int32 runningClient sampleData []).2.1 (by decide)
      (by decide)).2 (by decide),
   (volume_size_sent_as_int32 runningClient sampleRetypedData []).2.2.1 rfl,
   ((volume_size_sent_as_int32 runningClient sampleHugeData []).2.2.2 (by decide)).1,
   by decide⟩

end sagemaker

namespace sagemaker

/-- C28. `expandNotebookInstanceMetadataServiceConfiguration` and
`flattenNotebookInstanceMetadataServiceConfiguration` are inverse to each other on
well-formed values: expanding the flattened form of a configuration whose
`MinimumInstanceMetadataServiceVersion` is set gives the configuration back, and
flattening the expanded form of a one-element list that holds a block gives the list back.
Expand returns nil for the empty list and for a list whose first element is nil; flatten
returns the empty list for nil and never more than one element. -/
theorem expand_flatten_inverse :
    (∀ c : InstanceMetadataServiceConfiguration,
      c.MinimumInstanceMetadataServiceVersion ≠ none →
      expandNotebookInstanceMetadataServiceConfiguration
        ((flattenNotebookInstanceMetadataServiceConfiguration (some c)).map some) = some c) ∧
    (∀ l : List (Option MetadataServiceConfigurationBlock), ∀ m, l = [some m] →
      (flattenNotebookInstanceMetadataServiceConfiguration
        (expandNotebookInstanceMetadataServiceConfiguration l)).map some = l) ∧
    expandNotebookInstanceMetadataServiceConfiguration [] = none ∧
    (∀ rest, expandNotebookInstanceMetadataServiceConfiguration (none :: rest) = none) ∧
    flattenNotebookInstanceMetadataServiceConfiguration none = [] ∧
    (∀ config, (flattenNotebookInstanceMetadataServiceConfiguration config).length ≤ 1) := by
  refine ⟨?_, ?_, rfl, fun _ => rfl, rfl, ?_⟩
  · rintro ⟨v⟩ hv
    cases v with
    | none => exact absurd rfl hv
    | some v => rfl
  · rintro l m rfl
    rfl
  · intro config
    cases config with
    | none => simp [flattenNotebookInstanceMetadataServiceConfiguration]
    | some c => simp [flattenNotebookInstanceMetadataServiceConfiguration]

/-- C28, at the configuration and the block that ask for version 2. -/
theorem expand_flatten_inverse_witness :
    expandNotebookInstanceMetadataServiceConfiguration
        ((flattenNotebookInstanceMetadataServiceConfiguration
          (some { MinimumInstanceMetadataServiceVersion := some "2" })).map some)
      = some { MinimumInstanceMetadataServiceVersion := some "2" } ∧
    (flattenNotebookInstanceMetadataServiceConfiguration
        (expandNotebookInstanceMetadataServiceConfiguration
          [some { minimum_instance_metadata_service_version := "2" }])).map some
      = [some { minimum_instance_metadata_service_version := "2" }] :=
  ⟨expand_flatten_inverse.1 { MinimumInstanceMetadataServiceVersion := some "2" } (by decide),
   expand_flatten_inverse.2.1 _ { minimum_instance_metadata_service_version := "2" } rfl⟩

end sagemaker

/-! ## The registration tables of the EKS service package -/

namespace eks

theorem typeNames_SDKResources (AttrARN : String) :
    typeNames (SDKResources AttrARN)
      = ["aws_eks_access_entry", "aws_eks_access_policy_association", "aws_eks_addon",
          "aws_eks_cluster", "aws_eks_fargate_profile", "aws_eks_identity_provider_config",
          "aws_eks_node_group"] := rfl

set_option maxRecDepth 20000 in
/-- C29. The registration tables of the EKS service package have no duplicate keys: the
type names of `SDKResources` are pairwise distinct and so are those of `SDKDataSources`.
Every type name of each of the five tables starts with `aws_eks_`.  Every entry of
`SDKResources` and of `FrameworkResources` that declares `Tags` has a non-empty
`IdentifierAttribute`; the constant `names.AttrARN`, which most of them use, is taken as
a parameter that is not the empty string. -/
theorem registration_tables_well_formed (AttrARN : String) (hARN : AttrARN ≠ "") :
    (typeNames (SDKResources AttrARN)).Nodup ∧
    (typeNames SDKDataSources).Nodup ∧
    (∀ n ∈ typeNames EphemeralResources ++ typeNames FrameworkDataSources
        ++ typeNames FrameworkResources ++ typeNames SDKDataSources
        ++ typeNames (SDKResources AttrARN), HasPrefix n "aws_eks_") ∧
    (∀ e ∈ SDKResources AttrARN ++ FrameworkResources, ∀ tags, e.Tags = some tags →
      tags.IdentifierAttribute ≠ "") := by
  refine ⟨?_, by decide, ?_, ?_⟩
  · rw [typeNames_SDKResources]
    decide
  · rw [typeNames_SDKResources]
    decide
  · intro e he tags ht
    simp only [SDKResources, FrameworkResources, List.cons_append, List.nil_append,
      List.mem_cons, List.mem_singleton, List.not_mem_nil, or_false] at he
    rcases he with rfl | rfl | rfl | rfl | rfl | rfl | rfl | rfl <;> simp at ht <;>
      subst ht <;> first | exact hARN | decide

/-- C29, with `arn` for the constant `names.AttrARN`. -/
theorem registration_tables_well_formed_witness :
    (typeNames (SDKResources "arn")).Nodup ∧
    (typeNames SDKDataSources).Nodup ∧
    (∀ n ∈ typeNames EphemeralResources ++ typeNames FrameworkDataSources
        ++ typeNames FrameworkResources ++ typeNames SDKDataSources
        ++ typeNames (SDKResources "arn"), HasPrefix n "aws_eks_") ∧
    (∀ e ∈ SDKResources "arn" ++ FrameworkResources, ∀ tags, e.Tags = some tags →
      tags.IdentifierAttribute ≠ "") :=
  registration_tables_well_formed "arn" (by decide)

end eks

/-! ## Messages of the error diagnostics, step by step -/

namespace sagemaker

/-- The message of a step diagnostic contains the opening that names the operation, the
handle and the text of the error. -/
theorem operationDiagnostic_contains (opening handle link : String) (cause : Error) :
    (operationDiagnostic opening handle link cause).severity = .Error ∧
    strContains (operationDiagnostic opening handle link cause).summary opening ∧
    strContains (operationDiagnostic opening handle link cause).summary handle ∧
    strContains (operationDiagnostic opening handle link cause).summary cause.text := by
  refine ⟨rfl, ?_, strContains_append_mid _ _ _ _, strContains_append_last _ _⟩
  have h : (operationDiagnostic opening handle link cause).summary
      = opening ++ (handle ++ link ++ cause.text) := by
    simp [operationDiagnostic, String.append_assoc]
  rw [h]
  exact strContains_append_first _ _

theorem resourceNotebookInstanceRead_reports (conn : Client) (d : ResourceData)
    (tr : List Call) :
    ∀ diag ∈ (resourceNotebookInstanceRead conn d tr).diags,
      ReportsFetch conn d tr diag ∨ ReportsRefusedWrite conn d tr diag := by
  intro diag hdiag
  cases hf : (findNotebookInstanceByName conn d.id tr).1 with
  | error e =>
    have hd : (resourceNotebookInstanceRead conn d tr).diags = [] ∨
        (resourceNotebookInstanceRead conn d tr).diags
          = [operationDiagnostic "reading SageMaker AI Notebook Instance (" d.id "): " e] := by
      simp only [resourceNotebookInstanceRead]
      rw [findNotebookInstanceByName_of_fst hf]
      simp only []
      split
      · exact Or.inl rfl
      · exact Or.inr rfl
    rcases hd with hd | hd
    · rw [hd] at hdiag
      simp at hdiag
    · rw [hd] at hdiag
      exact Or.inl ⟨e, hf, by simpa using hdiag⟩
  | ok o =>
    cases hset : conn.setInstanceMetadataServiceConfiguration
        (flattenNotebookInstanceMetadataServiceConfiguration
          o.InstanceMetadataServiceConfiguration) with
    | none =>
      rw [resourceNotebookInstanceRead_of_ok hf hset] at hdiag
      simp at hdiag
    | some e =>
      rw [resourceNotebookInstanceRead_of_refused hf hset] at hdiag
      exact Or.inr ⟨o, e, hf, hset, by simpa using hdiag⟩

theorem resourceNotebookInstanceUpdate_reports (conn : Client) (d : ResourceData)
    (tr : List Call) :
    ∀ diag ∈ (resourceNotebookInstanceUpdate conn d tr).diags,
      ReportsUpdateStep conn d tr diag ∨
      ReportsFetch conn d (resourceNotebookInstanceUpdate conn d tr).trace.dropLast diag ∨
      ReportsRefusedWrite conn d (resourceNotebookInstanceUpdate conn d tr).trace.dropLast
        diag := by
  intro diag hdiag
  have hreadcase : ∀ t, resourceNotebookInstanceUpdate conn d tr
        = resourceNotebookInstanceRead conn d t →
      ReportsUpdateStep conn d tr diag ∨
      ReportsFetch conn d (resourceNotebookInstanceUpdate conn d tr).trace.dropLast diag ∨
      ReportsRefusedWrite conn d (resourceNotebookInstanceUpdate conn d tr).trace.dropLast
        diag := by
    intro t hU
    rw [hU] at hdiag ⊢
    rw [resourceNotebookInstanceRead_trace, List.dropLast_concat]
    exact Or.inr (resourceNotebookInstanceRead_reports conn d t diag hdiag)
  by_cases hchg : d.HasChangesExceptTags = true
  · cases hf : (findNotebookInstanceByName conn d.id tr).1 with
    | error e =>
      have hU : (resourceNotebookInstanceUpdate conn d tr).diags
          = [operationDiagnostic "updating SageMaker AI Notebook Instance (" d.id "): " e] := by
        simp only [resourceNotebookInstanceUpdate, hchg, if_true]
        rw [findNotebookInstanceByName_of_fst hf]
        rfl
      rw [hU] at hdiag
      exact Or.inl ⟨hchg, Or.inl ⟨e, hf, by simpa using hdiag⟩⟩
    | ok o =>
      have hU := resourceNotebookInstanceUpdate_eq conn d tr o hchg hf
      rcases h2 : updateStopStep conn d o.NotebookInstanceStatus
          (tr ++ [Call.DescribeNotebookInstance (some d.id)]) with ⟨_ | e2, t2⟩
      · rw [h2] at hU
        simp only at hU
        cases h3 : conn.UpdateNotebookInstance t2 (updateInput d) with
        | some e3 =>
          rw [h3] at hU
          rw [hU] at hdiag
          exact Or.inl ⟨hchg, Or.inr ⟨o, hf, Or.inr ⟨t2, h2,
            Or.inl ⟨e3, h3, by simpa [operationDiagnostic] using hdiag⟩⟩⟩⟩
        | none =>
          rw [h3] at hU
          simp only at hU
          cases h4 : conn.waitNotebookInstanceStopped
              (t2 ++ [Call.UpdateNotebookInstance (updateInput d)]) d.id with
          | some e4 =>
            rw [h4] at hU
            rw [hU] at hdiag
            exact Or.inl ⟨hchg, Or.inr ⟨o, hf, Or.inr ⟨t2, h2, Or.inr ⟨h3,
              Or.inl ⟨e4, h4, by simpa [operationDiagnostic] using hdiag⟩⟩⟩⟩⟩
          | none =>
            rw [h4] at hU
            simp only at hU
            rcases h5 : updateStartStep conn d o.NotebookInstanceStatus
                (t2 ++ [Call.UpdateNotebookInstance (updateInput d),
                  Call.waitStopped d.id]) with ⟨_ | e5, t5⟩
            · rw [h5] at hU
              exact hreadcase t5 hU
            · rw [h5] at hU
              rw [hU] at hdiag
              exact Or.inl ⟨hchg, Or.inr ⟨o, hf, Or.inr ⟨t2, h2, Or.inr ⟨h3,
                Or.inr ⟨h4, e5, t5, h5, by simpa [operationDiagnostic] using hdiag⟩⟩⟩⟩⟩
      · rw [h2] at hU
        rw [hU] at hdiag
        exact Or.inl ⟨hchg, Or.inr ⟨o, hf, Or.inl ⟨e2, t2, h2,
          by simpa [operationDiagnostic] using hdiag⟩⟩⟩
  · exact hreadcase tr (by simp [resourceNotebookInstanceUpdate, hchg])

theorem resourceNotebookInstanceDelete_reports (conn : Client) (d : ResourceData)
    (tr : List Call) :
    ∀ diag ∈ (resourceNotebookInstanceDelete conn d tr).diags,
      ReportsFetch conn d tr diag ∨ ReportsDeleteStep conn d tr diag := by
  intro diag hdiag
  cases hf : (findNotebookInstanceByName conn d.id tr).1 with
  | error e =>
    have hd : (resourceNotebookInstanceDelete conn d tr).diags = [] ∨
        (resourceNotebookInstanceDelete conn d tr).diags
          = [operationDiagnostic "reading SageMaker AI Notebook Instance (" d.id "): " e] := by
      simp only [resourceNotebookInstanceDelete]
      rw [findNotebookInstanceByName_of_fst hf]
      simp only []
      split
      · exact Or.inl rfl
      · exact Or.inr rfl
    rcases hd with hd | hd
    · rw [hd] at hdiag
      simp at hdiag
    · rw [hd] at hdiag
      exact Or.inl ⟨e, hf, by simpa using hdiag⟩
  | ok o =>
    right
    have hU := resourceNotebookInstanceDelete_eq conn d tr o hf
    rcases h2 : deleteStopStep conn d o.NotebookInstanceStatus
        (tr ++ [Call.DescribeNotebookInstance (some d.id)]) with ⟨_ | e2, t2⟩
    · rw [h2] at hU
      simp only at hU
      cases h3 : conn.DeleteNotebookInstance t2 (some d.id) with
      | some e3 =>
        rw [h3] at hU
        rw [hU] at hdiag
        exact ⟨o, hf, Or.inr ⟨t2, h2,
          Or.inl ⟨e3, h3, by simpa [operationDiagnostic] using hdiag⟩⟩⟩
      | none =>
        rw [h3] at hU
        simp only at hU
        cases h4 : conn.waitNotebookInstanceDeleted
            (t2 ++ [Call.DeleteNotebookInstance (some d.id)]) d.id with
        | some e4 =>
          rw [h4] at hU
          rw [hU] at hdiag
          exact ⟨o, hf, Or.inr ⟨t2, h2,
            Or.inr ⟨h3, e4, h4, by simpa [operationDiagnostic] using hdiag⟩⟩⟩
        | none =>
          rw [h4] at hU
          rw [hU] at hdiag
          simp at hdiag
    · rw [h2] at hU
      rw [hU] at hdiag
      exact ⟨o, hf, Or.inl ⟨e2, t2, h2, by simpa [operationDiagnostic] using hdiag⟩⟩

theorem resourceNotebookInstanceCreate_reports (conn : Client) (d : ResourceData)
    (tr : List Call)
    (hcreated : conn.CreateNotebookInstance tr (createInput conn d) = none) :
    ∀ diag ∈ (resourceNotebookInstanceCreate conn d tr).diags,
      ReportsCreateWait conn d tr diag ∨
      ReportsFetch conn (d.SetId d.new.name)
        (tr ++ [Call.CreateNotebookInstance (createInput conn d),
          Call.waitInService d.new.name]) diag ∨
      ReportsRefusedWrite conn (d.SetId d.new.name)
        (tr ++ [Call.CreateNotebookInstance (createInput conn d),
          Call.waitInService d.new.name]) diag := by
  intro diag hdiag
  cases hw : conn.waitNotebookInstanceInService
      (tr ++ [Call.CreateNotebookInstance (createInput conn d)]) d.new.name with
  | some e =>
    have hd : (resourceNotebookInstanceCreate conn d tr).diags
        = [operationDiagnostic "waiting for SageMaker AI Notebook Instance (" d.new.name
            ") create: " e] := by
      simp [resourceNotebookInstanceCreate, Client.sendCreate, hcreated,
        waitNotebookInstanceInService, ResourceData.SetId, hw, sdkdiag.AppendErrorf,
        operationDiagnostic]
    rw [hd] at hdiag
    exact Or.inl ⟨e, hw, by simpa using hdiag⟩
  | none =>
    have hd : (resourceNotebookInstanceCreate conn d tr).diags
        = (resourceNotebookInstanceRead conn (d.SetId d.new.name)
            (tr ++ [Call.CreateNotebookInstance (createInput conn d),
              Call.waitInService d.new.name])).diags := by
      simp [resourceNotebookInstanceCreate, Client.sendCreate, hcreated,
        waitNotebookInstanceInService, ResourceData.SetId, hw]
    rw [hd] at hdiag
    exact Or.inr (resourceNotebookInstanceRead_reports conn _ _ diag hdiag)

/-- C7 (amended). Every diagnostic of the read, the update and the delete of a notebook
instance, and every diagnostic of the create once `CreateNotebookInstance` has succeeded
and the ID is assigned, other than the read's report of a refused write of
`instance_metadata_service_configuration`, is the report of the step that failed, with
the error of that step: an error whose message is the opening that names the operation,
the resource ID, and the text of that error.  For the read the step is the fetch; for the
update it is the first of fetch, stop step, update request, wait for Stopped and start
step that failed, or the fetch of the final read; for the delete the first of fetch, stop
step, delete request and wait; for the create the wait for InService or the fetch of the
read that follows it.  Such a message contains the opening, the ID and the error text. -/
theorem error_diagnostics_name_handle (conn : Client) (d : ResourceData) (tr : List Call) :
    (∀ opening handle link cause,
      (operationDiagnostic opening handle link cause).severity = .Error ∧
      strContains (operationDiagnostic opening handle link cause).summary opening ∧
      strContains (operationDiagnostic opening handle link cause).summary handle ∧
      strContains (operationDiagnostic opening handle link cause).summary cause.text) ∧
    (∀ diag ∈ (resourceNotebookInstanceRead conn d tr).diags,
      ReportsFetch conn d tr diag ∨ ReportsRefusedWrite conn d tr diag) ∧
    (∀ diag ∈ (resourceNotebookInstanceUpdate conn d tr).diags,
      ReportsUpdateStep conn d tr diag ∨
      ReportsFetch conn d (resourceNotebookInstanceUpdate conn d tr).trace.dropLast diag ∨
      ReportsRefusedWrite conn d (resourceNotebookInstanceUpdate conn d tr).trace.dropLast
        diag) ∧
    (∀ diag ∈ (resourceNotebookInstanceDelete conn d tr).diags,
      ReportsFetch conn d tr diag ∨ ReportsDeleteStep conn d tr diag) ∧
    (conn.CreateNotebookInstance tr (createInput conn d) = none →
      ∀ diag ∈ (resourceNotebookInstanceCreate conn d tr).diags,
        ReportsCreateWait conn d tr diag ∨
        ReportsFetch conn (d.SetId d.new.name)
          (tr ++ [Call.CreateNotebookInstance (createInput conn d),
            Call.waitInService d.new.name]) diag ∨
        ReportsRefusedWrite conn (d.SetId d.new.name)
          (tr ++ [Call.CreateNotebookInstance (createInput conn d),
            Call.waitInService d.new.name]) diag) :=
  ⟨operationDiagnostic_contains,
   resourceNotebookInstanceRead_reports conn d tr,
   resourceNotebookInstanceUpdate_reports conn d tr,
   resourceNotebookInstanceDelete_reports conn d tr,
   resourceNotebookInstanceCreate_reports conn d tr⟩

/-- C7 (amended), at a create whose wait for InService fails: the diagnostic is the
report of that wait, and its message contains the name `nb`. -/
theorem error_diagnostics_name_handle_witness :
    (ReportsCreateWait neverInServiceClient sampleNewData []
        (operationDiagnostic "waiting for SageMaker AI Notebook Instance (" "nb"
          ") create: " .timeoutBare) ∨
      ReportsFetch neverInServiceClient (sampleNewData.SetId "nb")
        [Call.CreateNotebookInstance (createInput neverInServiceClient sampleNewData),
          Call.waitInService "nb"]
        (operationDiagnostic "waiting for SageMaker AI Notebook Instance (" "nb"
          ") create: " .timeoutBare) ∨
      ReportsRefusedWrite neverInServiceClient (sampleNewData.SetId "nb")
        [Call.CreateNotebookInstance (createInput neverInServiceClient sampleNewData),
          Call.waitInService "nb"]
        (operationDiagnostic "waiting for SageMaker AI Notebook Instance (" "nb"
          ") create: " .timeoutBare)) ∧
    strContains (operationDiagnostic "waiting for SageMaker AI Notebook Instance (" "nb"
      ") create: " .timeoutBare).summary "nb" :=
  ⟨(error_diagnostics_name_handle neverInServiceClient sampleNewData []).2.2.2.2 rfl _
      (List.mem_singleton.mpr rfl),
   ((error_diagnostics_name_handle neverInServiceClient sampleNewData []).1 _ _ _ _).2.2.1⟩

end sagemaker

end tfprovider
